import Mathlib

/-!
# DroneCore mission engine: expansion and assembly of mission items

A shallow embedding of `plugins/mission/mission_impl.cpp` (class `MissionImpl`) and
the properties of its mission upload and download paths.
The later sections embed the configuration, target location and heartbeat paths of
`plugins/follow_me/follow_me_impl.cpp` (class `FollowMeImpl`) and the send and receive
paths of `core/udp_connection.cpp` (class `UdpConnection`).

Conventions of the embedding.

* A C++ `float` or `double` is a value of `Flt`: NaN, an infinity, or a finite value
  held as an exact rational.  The products of a `double` with `1e7` and `1e-7` are
  IEEE 754 binary64 products: the exact product of the two doubles, rounded to nearest,
  ties to even (`Flt.round`).  The one narrowing conversion the code performs (`double`
  to `float`) is a parameter of the environment.
* Unsigned machine integers are `Nat`; a value written into a `uint16_t` field (the seq
  of a wire item, the count of `MISSION_COUNT`) is reduced modulo `2 ^ 16`.  An `int32_t`
  coordinate is an `Int` wrapped into the 32 bit range.  The keys and values of the index
  map are `int`s held as `Int`: a message vector does not reach `2 ^ 31` elements.
* A callback is identified by a number; `none` is the null `std::function`.
* The effects a method has on its parent device and on user code (messages sent, timer
  operations, callbacks invoked) are returned as a list of `Event`s in program order.
* `std::shared_ptr` elements are held by value; the mutex is not modelled, every method
  is one atomic step.
-/

namespace dronecore

/-! ## Floating point values -/

/-- A C++ floating point value. -/
inductive Flt where
  | nan
  | inf (negative : Bool)
  | fin (q : ℚ)
  deriving DecidableEq

namespace Flt

/-- The function `std::isfinite`. -/
def isfinite : Flt → Bool
  | fin _ => true
  | _ => false

/-- The comparison `v > 0`; false on NaN. -/
def gt_zero : Flt → Bool
  | nan => false
  | inf negative => !negative
  | fin q => decide (0 < q)

/-- The comparison `v < 0`; false on NaN. -/
def lt_zero : Flt → Bool
  | nan => false
  | inf negative => negative
  | fin q => decide (q < 0)

/-- The conversion `int(v)`: truncation toward zero.  On NaN and the infinities the
C++ conversion is undefined; `none` stands for a result that equals none of the small
constants the code compares it with (on x86 the conversion yields `INT_MIN`). -/
def to_int : Flt → Option Int
  | fin q => some (q.num.tdiv q.den)
  | _ => none

/-- The test `int(v) == k`. -/
def int_eq (v : Flt) (k : Int) : Bool :=
  v.to_int == some k

/-- The conversion of an integer to floating point. -/
def of_int (n : Int) : Flt := fin n

/-- The largest `k` with `2 ^ k ≤ n`, and 0 for `n = 0`; `fuel` bounds the number of
halvings. -/
def log2_fuel : Nat → Nat → Nat
  | 0, _ => 0
  | fuel + 1, n => if n < 2 then 0 else log2_fuel fuel (n / 2) + 1

/-- The largest `k` with `2 ^ k ≤ n`, and 0 for `n = 0`. -/
def floor_log2 (n : Nat) : Nat := log2_fuel n n

/-- The exponent `e` with `2 ^ e ≤ n / d < 2 ^ (e + 1)`, for positive `n` and `d`. -/
def binary_exponent (n d : Nat) : Int :=
  let e : Int := (floor_log2 n : Int) - (floor_log2 d : Int)
  if n * 2 ^ (-e).toNat < d * 2 ^ e.toNat then e - 1 else e

/-- The binary64 value nearest to the rational `q`, ties going to the even significand:
a significand of 53 bits, or fewer below `2 ^ (-1022)`, where the values are the
multiples of `2 ^ (-1074)`.  The exponent is not bounded from above here. -/
def nearest_double (q : ℚ) : ℚ :=
  if q = 0 then 0
  else
    let n := q.num.natAbs
    let d := q.den
    let quantum : Int := max (binary_exponent n d - 52) (-1074)
    let scaled_num := n * 2 ^ (-quantum).toNat
    let scaled_den := d * 2 ^ quantum.toNat
    let below := scaled_num / scaled_den
    let rest := scaled_num % scaled_den
    let significand :=
      if scaled_den < 2 * rest ∨ (2 * rest = scaled_den ∧ below % 2 = 1) then below + 1
      else below
    let magnitude : ℚ :=
      ((significand * 2 ^ quantum.toNat : Nat) : ℚ) / ((2 ^ (-quantum).toNat : Nat) : ℚ)
    if q < 0 then -magnitude else magnitude

/-- The rounding of an exact result to a `double`: the nearest binary64 value, and an
infinity when that value is `2 ^ 1024` or more in magnitude. -/
def round (q : ℚ) : Flt :=
  if ((2 ^ 1024 : Nat) : ℚ) ≤ nearest_double q then inf false
  else if nearest_double q ≤ -((2 ^ 1024 : Nat) : ℚ) then inf true
  else fin (nearest_double q)

/-- The IEEE 754 product of the `double` `v` with a positive constant written as the
decimal `c` (`1e7`, `1e-7`): the constant is the `double` nearest to `c`, and the exact
product of the two doubles is rounded. -/
def scale (v : Flt) (c : ℚ) : Flt :=
  match v with
  | fin q => round (q * nearest_double c)
  | other => other

/-- The comparison `a < b`; false when one of the two is NaN. -/
def lt : Flt → Flt → Bool
  | fin p, fin q => decide (p < q)
  | fin _, inf negative => !negative
  | inf negative, fin _ => negative
  | inf a, inf b => a && !b
  | _, _ => false

/-- The comparison `a > b`; false when one of the two is NaN. -/
def gt (a b : Flt) : Bool := lt b a

/-- The comparison `a <= b`; false when one of the two is NaN. -/
def le : Flt → Flt → Bool
  | fin p, fin q => decide (p ≤ q)
  | fin _, inf negative => !negative
  | inf negative, fin _ => negative
  | inf a, inf b => a || !b
  | _, _ => false

/-- The comparison `a >= b`; false when one of the two is NaN. -/
def ge (a b : Flt) : Bool := le b a

end Flt

/-- The value range of `int32_t`: `n` wrapped into `[-2^31, 2^31)`. -/
def wrap_int32 (n : Int) : Int :=
  (n + 2147483648) % 4294967296 - 2147483648

/-- The value range of `uint16_t`. -/
def wrap_uint16 (n : Nat) : Nat := n % 65536

/-- The conversion of an `int` to `uint16_t`. -/
def int_to_uint16 (n : Int) : Nat := (n % 65536).toNat

/-! ## MAVLink constants (from the MAVLink common message set) -/

def MAV_CMD_NAV_WAYPOINT : Nat := 16
def MAV_CMD_NAV_LOITER_TIME : Nat := 19
def MAV_CMD_DO_CHANGE_SPEED : Nat := 178
def MAV_CMD_DO_MOUNT_CONTROL : Nat := 205
def MAV_CMD_IMAGE_START_CAPTURE : Nat := 2000
def MAV_CMD_IMAGE_STOP_CAPTURE : Nat := 2001
def MAV_CMD_VIDEO_START_CAPTURE : Nat := 2500
def MAV_CMD_VIDEO_STOP_CAPTURE : Nat := 2501
def MAV_CMD_DO_SET_MODE : Nat := 176

def MAV_FRAME_MISSION : Nat := 2
def MAV_FRAME_GLOBAL_RELATIVE_ALT_INT : Nat := 6

def MAV_MOUNT_MODE_MAVLINK_TARGETING : Nat := 2

def MAV_MISSION_ACCEPTED : Nat := 0
def MAV_MISSION_UNSUPPORTED : Nat := 3
def MAV_MISSION_NO_SPACE : Nat := 4

def MAV_MISSION_TYPE_MISSION : Nat := 0

def MAV_MODE_FLAG_SAFETY_ARMED : Nat := 128
def VEHICLE_MODE_FLAG_CUSTOM_MODE_ENABLED : Nat := 1
def PX4_CUSTOM_MAIN_MODE_AUTO : Nat := 4
def PX4_CUSTOM_SUB_MODE_AUTO_LOITER : Nat := 3
def PX4_CUSTOM_SUB_MODE_AUTO_MISSION : Nat := 4

/-! ## Logical mission items -/

/-- The enumeration `MissionItem::CameraAction`. -/
inductive CameraAction where
  | TAKE_PHOTO
  | START_PHOTO_INTERVAL
  | STOP_PHOTO_INTERVAL
  | START_VIDEO
  | STOP_VIDEO
  | NONE
  deriving DecidableEq

/-- Modelled from the spec: the logical `MissionItem` of section 3 (the class
`MissionItemImpl` of `mission_item_impl.h` is not part of the sources).  The fields are
the ones read and written by the getters and setters that `mission_impl.cpp` calls. -/
structure MissionItem where
  latitude_deg : Flt
  longitude_deg : Flt
  relative_altitude_m : Flt
  fly_through : Bool
  speed_m_s : Flt
  gimbal_pitch_deg : Flt
  gimbal_yaw_deg : Flt
  camera_action_delay_s : Flt
  camera_action : CameraAction
  camera_photo_interval_s : Flt
  deriving DecidableEq

/-- The environment of a `MissionImpl` method: what the parent device answers during
the call, and the constants of `MissionItemImpl` that neither the sources nor the spec
fix. -/
structure Env where
  /-- The value of `_parent->get_own_system_id()`. -/
  own_system_id : Nat
  /-- The value of `_parent->get_own_component_id()`. -/
  own_component_id : Nat
  /-- The value of `_parent->get_target_system_id()`. -/
  target_system_id : Nat
  /-- The value of `_parent->get_target_component_id()`. -/
  target_component_id : Nat
  /-- The value of `_parent->target_supports_mission_int()`. -/
  target_supports_mission_int : Bool
  /-- The value of `_parent->is_armed()`. -/
  is_armed : Bool
  /-- The value `_parent->send_message(..)` returns during this call. -/
  send_ok : Bool
  /-- The cookie `_parent->register_timeout_handler(..)` hands out during this call. -/
  new_cookie : Nat
  /-- The `param1` of a waypoint that is not fly-through (the accept radius). -/
  accept_radius : Flt
  /-- The `param2` of a waypoint. -/
  waypoint_param2 : MissionItem → Flt
  /-- The `param3` of a waypoint. -/
  waypoint_param3 : MissionItem → Flt
  /-- The `param4` of a waypoint. -/
  waypoint_param4 : MissionItem → Flt
  /-- The autocontinue flag of a waypoint. -/
  waypoint_autocontinue : MissionItem → Nat
  /-- The photo interval of a newly constructed `MissionItem`. -/
  default_photo_interval_s : Flt
  /-- The narrowing conversion from `double` to `float`. -/
  to_float : Flt → Flt

namespace MissionItem

/-- Modelled from the spec: a newly constructed `MissionItem` (`mission_item.h` is not
part of the sources): no optional field is set. -/
def fresh (env : Env) : MissionItem where
  latitude_deg := Flt.nan
  longitude_deg := Flt.nan
  relative_altitude_m := Flt.nan
  fly_through := false
  speed_m_s := Flt.nan
  gimbal_pitch_deg := Flt.nan
  gimbal_yaw_deg := Flt.nan
  camera_action_delay_s := Flt.nan
  camera_action := CameraAction.NONE
  camera_photo_interval_s := env.default_photo_interval_s

/-- Modelled from the spec: `MissionItemImpl::is_position_finite` ("if position
finite"); the position is what `set_position(lat, lon)` sets. -/
def is_position_finite (item : MissionItem) : Bool :=
  item.latitude_deg.isfinite && item.longitude_deg.isfinite

/-- Modelled from the spec: `MissionItemImpl::get_mavlink_frame`
(frame `GLOBAL_RELATIVE_ALT_INT`). -/
def get_mavlink_frame (_item : MissionItem) : Nat := MAV_FRAME_GLOBAL_RELATIVE_ALT_INT

/-- Modelled from the spec: `MissionItemImpl::get_mavlink_cmd` (one `NAV_WAYPOINT`). -/
def get_mavlink_cmd (_item : MissionItem) : Nat := MAV_CMD_NAV_WAYPOINT

/-- Modelled from the spec: `MissionItemImpl::get_mavlink_param1`
(`param1 = accept_radius (0 if fly_through)`). -/
def get_mavlink_param1 (env : Env) (item : MissionItem) : Flt :=
  if item.fly_through then Flt.fin 0 else env.accept_radius

/-- The conversion of a coordinate in degrees to the `int32_t` wire value `deg * 1e7`:
the product of two doubles, truncated; on a non finite product the C++ conversion is
undefined and 0 is taken. -/
def deg_to_e7 (deg : Flt) : Int :=
  match (deg.scale 10000000).to_int with
  | some n => wrap_int32 n
  | none => 0

/-- Modelled from the spec: `MissionItemImpl::get_mavlink_x` (`lat * 1e7`). -/
def get_mavlink_x (item : MissionItem) : Int := deg_to_e7 item.latitude_deg

/-- Modelled from the spec: `MissionItemImpl::get_mavlink_y` (`lon * 1e7`). -/
def get_mavlink_y (item : MissionItem) : Int := deg_to_e7 item.longitude_deg

/-- Modelled from the spec: `MissionItemImpl::get_mavlink_z` (`rel_alt_m`). -/
def get_mavlink_z (item : MissionItem) : Flt := item.relative_altitude_m

/-- Modelled from the spec: `MissionItem::set_position`. -/
def set_position (item : MissionItem) (lat lon : Flt) : MissionItem :=
  { item with latitude_deg := lat, longitude_deg := lon }

/-- Modelled from the spec: `MissionItem::set_relative_altitude`. -/
def set_relative_altitude (item : MissionItem) (z : Flt) : MissionItem :=
  { item with relative_altitude_m := z }

/-- Modelled from the spec: `MissionItem::set_fly_through`. -/
def set_fly_through (item : MissionItem) (b : Bool) : MissionItem :=
  { item with fly_through := b }

/-- Modelled from the spec: `MissionItem::set_speed`. -/
def set_speed (item : MissionItem) (v : Flt) : MissionItem :=
  { item with speed_m_s := v }

/-- Modelled from the spec: `MissionItem::set_gimbal_pitch_and_yaw`. -/
def set_gimbal_pitch_and_yaw (item : MissionItem) (pitch yaw : Flt) : MissionItem :=
  { item with gimbal_pitch_deg := pitch, gimbal_yaw_deg := yaw }

/-- Modelled from the spec: `MissionItem::set_camera_action_delay`. -/
def set_camera_action_delay (item : MissionItem) (d : Flt) : MissionItem :=
  { item with camera_action_delay_s := d }

/-- Modelled from the spec: `MissionItem::set_camera_action`. -/
def set_camera_action (item : MissionItem) (a : CameraAction) : MissionItem :=
  { item with camera_action := a }

/-- Modelled from the spec: `MissionItem::set_camera_photo_interval`. -/
def set_camera_photo_interval (item : MissionItem) (s : Flt) : MissionItem :=
  { item with camera_photo_interval_s := s }

end MissionItem

/-! ## Wire items, messages and effects -/

/-- The payload `mavlink_mission_item_int_t` of a `MISSION_ITEM_INT` message. -/
structure mavlink_mission_item_int_t where
  target_system : Nat
  target_component : Nat
  /-- A `uint16_t`. -/
  seq : Nat
  frame : Nat
  command : Nat
  current : Nat
  autocontinue : Nat
  param1 : Flt
  param2 : Flt
  param3 : Flt
  param4 : Flt
  /-- An `int32_t`. -/
  x : Int
  /-- An `int32_t`. -/
  y : Int
  z : Flt
  mission_type : Nat
  deriving DecidableEq

/-- The payload of a `mavlink_message_t`, for the messages `MissionImpl` packs. -/
inductive Payload where
  | mission_item_int (item : mavlink_mission_item_int_t)
  | mission_count (target_system target_component count mission_type : Nat)
  | mission_ack (target_system target_component type mission_type : Nat)
  | mission_request_int (target_system target_component seq mission_type : Nat)
  | mission_request_list (target_system target_component mission_type : Nat)
  | mission_set_current (target_system target_component seq : Nat)
  deriving DecidableEq

/-- A packed `mavlink_message_t`: the sender ids given to the pack function and the
payload. -/
structure mavlink_message_t where
  sysid : Nat
  compid : Nat
  payload : Payload
  deriving DecidableEq

/-- The function `mavlink_msg_mission_item_int_pack`; `seq` is a `uint16_t` parameter. -/
def mavlink_msg_mission_item_int_pack (system_id component_id target_system
    target_component seq frame command current autocontinue : Nat)
    (param1 param2 param3 param4 : Flt) (x y : Int) (z : Flt) (mission_type : Nat) :
    mavlink_message_t where
  sysid := system_id
  compid := component_id
  payload := Payload.mission_item_int
    { target_system := target_system
      target_component := target_component
      seq := wrap_uint16 seq
      frame := frame
      command := command
      current := current
      autocontinue := autocontinue
      param1 := param1
      param2 := param2
      param3 := param3
      param4 := param4
      x := x
      y := y
      z := z
      mission_type := mission_type }

/-- The function `mavlink_msg_mission_item_int_decode`; `none` on a message of another
kind. -/
def mavlink_msg_mission_item_int_decode (message : mavlink_message_t) :
    Option mavlink_mission_item_int_t :=
  match message.payload with
  | Payload.mission_item_int item => some item
  | _ => none

/-- The enumeration `Mission::Result`. -/
inductive Result where
  | SUCCESS
  | ERROR
  | TOO_MANY_MISSION_ITEMS
  | BUSY
  | TIMEOUT
  | INVALID_ARGUMENT
  | UNSUPPORTED
  | NO_MISSION_AVAILABLE
  deriving DecidableEq

/-- The enumeration `MavlinkCommands::Result` of `core/mavlink_commands.h`. -/
inductive CommandResult where
  | SUCCESS
  | NO_DEVICE
  | CONNECTION_ERROR
  | BUSY
  | COMMAND_DENIED
  | TIMEOUT
  | IN_PROGRESS
  deriving DecidableEq

/-- One effect of a `MissionImpl` method on its parent device or on user code. -/
inductive Event where
  /-- The call `_parent->send_message(message)`. -/
  | send_message (message : mavlink_message_t)
  /-- The call `_parent->register_timeout_handler(process_timeout, duration_s, &cookie)`
  and the cookie it handed out. -/
  | register_timeout_handler (duration_s : ℚ) (cookie : Nat)
  /-- The call `_parent->refresh_timeout_handler(cookie)`. -/
  | refresh_timeout_handler (cookie : Option Nat)
  /-- The call `_parent->unregister_timeout_handler(cookie)`. -/
  | unregister_timeout_handler (cookie : Option Nat)
  /-- The call of a `Mission::result_callback_t`. -/
  | result_callback (callback : Nat) (result : Result)
  /-- The call of a `Mission::mission_items_and_result_callback_t`. -/
  | mission_items_and_result_callback (callback : Nat) (result : Result)
      (items : List MissionItem)
  /-- The call of a `Mission::progress_callback_t`. -/
  | progress_callback (callback : Nat) (current total : Int)
  /-- The call `_parent->send_command_with_ack_async(command, params, ..)` whose
  completion is bound to `receive_command_result(_1, callback)`. -/
  | send_command_with_ack_async (command : Nat) (params : List Flt)
      (callback : Option Nat) (component_id : Nat)
  deriving DecidableEq

/-! ## The engine state -/

/-- The enumeration `MissionImpl::Activity`. -/
inductive Activity where
  | NONE
  | SET_MISSION
  | GET_MISSION
  | SET_CURRENT
  | SEND_COMMAND
  deriving DecidableEq

/-- The member `_mavlink_mission_item_to_mission_item_indices`, a `std::map<int, int>`:
the entries in increasing key order. -/
abbrev IndexMap := List (Int × Int)

namespace IndexMap

/-- The method `std::map::find`: the value stored under `key`, if any. -/
def find (m : IndexMap) (key : Int) : Option Int :=
  m.lookup key

/-- The method `std::map::insert`: the entry is added at its place in key order, and
nothing changes when the key is already present. -/
def insert : IndexMap → Int → Int → IndexMap
  | [], key, value => [(key, value)]
  | (k, v) :: rest, key, value =>
    if key = k then (k, v) :: rest
    else if key < k then (key, value) :: (k, v) :: rest
    else (k, v) :: insert rest key value

end IndexMap

/-- The data members of `MissionImpl`. -/
structure MissionImpl where
  _activity : Activity
  _mission_items : List MissionItem
  _mavlink_mission_item_messages : List mavlink_message_t
  _mavlink_mission_item_to_mission_item_indices : IndexMap
  _mavlink_mission_items_downloaded : List mavlink_mission_item_int_t
  _num_mission_items_to_download : Int
  _next_mission_item_to_download : Int
  _last_current_mavlink_mission_item : Int
  _last_reached_mavlink_mission_item : Int
  _result_callback : Option Nat
  _mission_items_and_result_callback : Option Nat
  _progress_callback : Option Nat
  _timeout_cookie : Option Nat
  deriving DecidableEq

/-! ## Expansion: `MissionImpl::assemble_mavlink_messages` -/

/-- The locals `last_frame`, `last_x`, `last_y` and `last_z` of
`assemble_mavlink_messages`. -/
structure LastPosition where
  frame : Nat
  x : Int
  y : Int
  z : Flt
  deriving DecidableEq

/-- The variables of the loop of `assemble_mavlink_messages`.  `last_position` is
`none` while `last_position_valid` is false: the four locals are uninitialised then. -/
structure AssembleLoop where
  messages : List mavlink_message_t
  indices : IndexMap
  last_position : Option LastPosition
  item_i : Nat
  deriving DecidableEq

/-- The statements shared by the five rules: `current` is 1 for the first message, the
message is packed with the size of the vector as `seq`, the pair (size, `item_i`) is
inserted into the index map and the message is appended. -/
def emit (env : Env) (st : AssembleLoop) (frame command autocontinue : Nat)
    (param1 param2 param3 param4 : Flt) (x y : Int) (z : Flt) : AssembleLoop :=
  let size := st.messages.length
  let current := if size = 0 then 1 else 0
  let message := mavlink_msg_mission_item_int_pack env.own_system_id env.own_component_id
    env.target_system_id env.target_component_id size frame command current autocontinue
    param1 param2 param3 param4 x y z MAV_MISSION_TYPE_MISSION
  { st with
    indices := st.indices.insert (size : Int) (st.item_i : Int)
    messages := st.messages ++ [message] }

/-- Rule 1, lines 322-356: the waypoint of an item whose position is finite. -/
def emit_position (env : Env) (item : MissionItem) (st : AssembleLoop) : AssembleLoop :=
  if item.is_position_finite then
    let st1 := emit env st item.get_mavlink_frame item.get_mavlink_cmd
      (env.waypoint_autocontinue item) (item.get_mavlink_param1 env)
      (env.waypoint_param2 item) (env.waypoint_param3 item) (env.waypoint_param4 item)
      item.get_mavlink_x item.get_mavlink_y item.get_mavlink_z
    { st1 with
      last_position := some
        { frame := item.get_mavlink_frame
          x := item.get_mavlink_x
          y := item.get_mavlink_y
          z := item.get_mavlink_z } }
  else st

/-- Rule 2, lines 358-391: the speed command. -/
def emit_speed (env : Env) (item : MissionItem) (st : AssembleLoop) : AssembleLoop :=
  if item.speed_m_s.isfinite then
    emit env st MAV_FRAME_MISSION MAV_CMD_DO_CHANGE_SPEED 1
      (Flt.fin 1) item.speed_m_s (Flt.fin (-1)) (Flt.fin 0) 0 0 Flt.nan
  else st

/-- Rule 3, lines 393-426: the gimbal command. -/
def emit_gimbal (env : Env) (item : MissionItem) (st : AssembleLoop) : AssembleLoop :=
  if item.gimbal_yaw_deg.isfinite || item.gimbal_pitch_deg.isfinite then
    emit env st MAV_FRAME_MISSION MAV_CMD_DO_MOUNT_CONTROL 1
      item.gimbal_pitch_deg (Flt.fin 0) item.gimbal_yaw_deg Flt.nan 0 0
      (Flt.of_int MAV_MOUNT_MODE_MAVLINK_TARGETING)
  else st

/-- Rule 4, lines 431-469: the loiter item that stands for the camera action delay. -/
def emit_delay (env : Env) (item : MissionItem) (st : AssembleLoop) : AssembleLoop :=
  if item.camera_action_delay_s.isfinite then
    match st.last_position with
    | none => st
    | some last =>
      emit env st last.frame MAV_CMD_NAV_LOITER_TIME 1
        item.camera_action_delay_s Flt.nan (Flt.fin 0) (Flt.fin 0) last.x last.y last.z
  else st

/-- Rule 5, lines 471-537: the camera command. -/
def emit_camera (env : Env) (item : MissionItem) (st : AssembleLoop) : AssembleLoop :=
  match item.camera_action with
  | CameraAction.NONE => st
  | CameraAction.TAKE_PHOTO =>
    emit env st MAV_FRAME_MISSION MAV_CMD_IMAGE_START_CAPTURE 1
      (Flt.fin 0) (Flt.fin 0) (Flt.fin 1) Flt.nan 0 0 Flt.nan
  | CameraAction.START_PHOTO_INTERVAL =>
    emit env st MAV_FRAME_MISSION MAV_CMD_IMAGE_START_CAPTURE 1
      (Flt.fin 0) (env.to_float item.camera_photo_interval_s) (Flt.fin 0) Flt.nan 0 0
      Flt.nan
  | CameraAction.STOP_PHOTO_INTERVAL =>
    emit env st MAV_FRAME_MISSION MAV_CMD_IMAGE_STOP_CAPTURE 1
      (Flt.fin 0) Flt.nan Flt.nan Flt.nan 0 0 Flt.nan
  | CameraAction.START_VIDEO =>
    emit env st MAV_FRAME_MISSION MAV_CMD_VIDEO_START_CAPTURE 1
      (Flt.fin 0) Flt.nan Flt.nan Flt.nan 0 0 Flt.nan
  | CameraAction.STOP_VIDEO =>
    emit env st MAV_FRAME_MISSION MAV_CMD_VIDEO_STOP_CAPTURE 1
      (Flt.fin 0) Flt.nan Flt.nan Flt.nan 0 0 Flt.nan

/-- The body of the loop over `_mission_items`, lines 318-540. -/
def assemble_item (env : Env) (st : AssembleLoop) (item : MissionItem) : AssembleLoop :=
  let st1 := emit_position env item st
  let st2 := emit_speed env item st1
  let st3 := emit_gimbal env item st2
  let st4 := emit_delay env item st3
  let st5 := emit_camera env item st4
  { st5 with item_i := st5.item_i + 1 }

/-- The loop variables on entry: the message vector has been cleared, the index map is
the member as it stands. -/
def assemble_start (s : MissionImpl) : AssembleLoop where
  messages := []
  indices := s._mavlink_mission_item_to_mission_item_indices
  last_position := none
  item_i := 0

/-- The method `MissionImpl::assemble_mavlink_messages`. -/
def assemble_mavlink_messages (env : Env) (s : MissionImpl) : MissionImpl :=
  let st := s._mission_items.foldl (assemble_item env) (assemble_start s)
  { s with
    _mavlink_mission_item_messages := st.messages
    _mavlink_mission_item_to_mission_item_indices := st.indices }

/-! ## Assembly: `MissionImpl::assemble_mission_items` -/

/-- The method `MissionImpl::report_mission_result`. -/
def report_mission_result (callback : Option Nat) (result : Result) : List Event :=
  match callback with
  | none => []
  | some cb => [Event.result_callback cb result]

/-- The method `MissionImpl::report_mission_items_and_result`. -/
def report_mission_items_and_result (s : MissionImpl) (callback : Option Nat)
    (result : Result) : MissionImpl × List Event :=
  match callback with
  | none => (s, [])
  | some cb =>
    let s1 := if result ≠ Result.SUCCESS then { s with _mission_items := [] } else s
    (s1, [Event.mission_items_and_result_callback cb result s1._mission_items])

/-- The variables of the loop of `assemble_mission_items`. -/
structure ItemsLoop where
  mission_items : List MissionItem
  new_mission_item : MissionItem
  have_set_position : Bool
  result : Result
  deriving DecidableEq

/-- The body of the loop over `_mavlink_mission_items_downloaded`, lines 567-638; the
second component tells whether the body left the loop with `break`. -/
def assemble_wire_item (env : Env) (it : mavlink_mission_item_int_t) (st : ItemsLoop) :
    ItemsLoop × Bool :=
  if it.command = MAV_CMD_NAV_WAYPOINT then
    if it.frame ≠ MAV_FRAME_GLOBAL_RELATIVE_ALT_INT then
      ({ st with result := Result.UNSUPPORTED }, true)
    else
      let st1 :=
        if st.have_set_position then
          { st with
            mission_items := st.mission_items ++ [st.new_mission_item]
            new_mission_item := MissionItem.fresh env
            have_set_position := false }
        else st
      let item1 := st1.new_mission_item.set_position
        ((Flt.of_int it.x).scale (1 / 10000000)) ((Flt.of_int it.y).scale (1 / 10000000))
      let item2 := item1.set_relative_altitude it.z
      let item3 := item2.set_fly_through (!it.param1.gt_zero)
      ({ st1 with new_mission_item := item3, have_set_position := true }, false)
  else if it.command = MAV_CMD_DO_MOUNT_CONTROL then
    if !it.z.int_eq MAV_MOUNT_MODE_MAVLINK_TARGETING then
      ({ st with result := Result.UNSUPPORTED }, true)
    else
      ({ st with
         new_mission_item := st.new_mission_item.set_gimbal_pitch_and_yaw it.param1
           it.param3 }, false)
  else if it.command = MAV_CMD_IMAGE_START_CAPTURE then
    if it.param2.gt_zero && it.param3.int_eq 0 then
      ({ st with
         new_mission_item :=
           (st.new_mission_item.set_camera_action
             CameraAction.START_PHOTO_INTERVAL).set_camera_photo_interval it.param2 },
       false)
    else if it.param2.int_eq 0 && it.param3.int_eq 1 then
      ({ st with
         new_mission_item := st.new_mission_item.set_camera_action
           CameraAction.TAKE_PHOTO }, false)
    else
      ({ st with result := Result.UNSUPPORTED }, true)
  else if it.command = MAV_CMD_IMAGE_STOP_CAPTURE then
    ({ st with
       new_mission_item := st.new_mission_item.set_camera_action
         CameraAction.STOP_PHOTO_INTERVAL }, false)
  else if it.command = MAV_CMD_VIDEO_START_CAPTURE then
    ({ st with
       new_mission_item := st.new_mission_item.set_camera_action
         CameraAction.START_VIDEO }, false)
  else if it.command = MAV_CMD_VIDEO_STOP_CAPTURE then
    ({ st with
       new_mission_item := st.new_mission_item.set_camera_action
         CameraAction.STOP_VIDEO }, false)
  else if it.command = MAV_CMD_DO_CHANGE_SPEED then
    if it.param1.int_eq 1 && it.param3.lt_zero && it.param4.int_eq 0 then
      ({ st with new_mission_item := st.new_mission_item.set_speed it.param2 }, false)
    else
      ({ st with result := Result.UNSUPPORTED }, false)
  else if it.command = MAV_CMD_NAV_LOITER_TIME then
    ({ st with
       new_mission_item := st.new_mission_item.set_camera_action_delay it.param1 },
     false)
  else
    ({ st with result := Result.UNSUPPORTED }, true)

/-- The loop over `_mavlink_mission_items_downloaded`, lines 567-638. -/
def assemble_wire_items (env : Env) : List mavlink_mission_item_int_t → ItemsLoop →
    ItemsLoop
  | [], st => st
  | it :: rest, st =>
    match assemble_wire_item env it st with
    | (st1, true) => st1
    | (st1, false) => assemble_wire_items env rest st1

/-- The method `MissionImpl::assemble_mission_items`. -/
def assemble_mission_items (env : Env) (s : MissionImpl) : MissionImpl × List Event :=
  let s1 := { s with _mission_items := [] }
  match s._mavlink_mission_items_downloaded with
  | [] => (s1, [])
  | first :: _ =>
    if first.command ≠ MAV_CMD_NAV_WAYPOINT then (s1, [])
    else
      let st := assemble_wire_items env s._mavlink_mission_items_downloaded
        { mission_items := []
          new_mission_item := MissionItem.fresh env
          have_set_position := false
          result := Result.SUCCESS }
      let s2 := { s1 with _mission_items := st.mission_items ++ [st.new_mission_item] }
      let r := report_mission_items_and_result s2 s2._mission_items_and_result_callback
        st.result
      ({ r.1 with _activity := Activity.NONE }, r.2)

/-! ## Entry points and message handlers -/

/-- The payload `mavlink_mission_ack_t` of a `MISSION_ACK` message. -/
structure mavlink_mission_ack_t where
  target_system : Nat
  target_component : Nat
  type : Nat
  mission_type : Nat
  deriving DecidableEq

/-- The method `MissionImpl::copy_mission_item_vector`. -/
def copy_mission_item_vector (s : MissionImpl) (mission_items : List MissionItem) :
    MissionImpl :=
  { s with _mission_items := mission_items }

/-- The method `MissionImpl::upload_mission_async`; the count of `MISSION_COUNT` is a
`uint16_t`. -/
def upload_mission_async (env : Env) (s : MissionImpl) (mission_items : List MissionItem)
    (callback : Option Nat) : MissionImpl × List Event :=
  if s._activity ≠ Activity.NONE then
    (s, report_mission_result callback Result.BUSY)
  else if !env.target_supports_mission_int then
    (s, report_mission_result callback Result.ERROR)
  else
    let s1 := copy_mission_item_vector s mission_items
    let s2 := assemble_mavlink_messages env s1
    let message : mavlink_message_t :=
      { sysid := env.own_system_id
        compid := env.own_component_id
        payload := Payload.mission_count env.target_system_id env.target_component_id
          (wrap_uint16 s2._mavlink_mission_item_messages.length)
          MAV_MISSION_TYPE_MISSION }
    if !env.send_ok then
      (s2, Event.send_message message :: report_mission_result callback Result.ERROR)
    else
      ({ s2 with _activity := Activity.SET_MISSION, _result_callback := callback },
       [Event.send_message message])

/-- The method `MissionImpl::download_mission_async`. -/
def download_mission_async (env : Env) (s : MissionImpl) (callback : Option Nat) :
    MissionImpl × List Event :=
  if s._activity ≠ Activity.NONE then
    report_mission_items_and_result s callback Result.BUSY
  else
    let message : mavlink_message_t :=
      { sysid := env.own_system_id
        compid := env.own_component_id
        payload := Payload.mission_request_list env.target_system_id
          env.target_component_id MAV_MISSION_TYPE_MISSION }
    if !env.send_ok then
      let r := report_mission_items_and_result s callback Result.ERROR
      (r.1, Event.send_message message :: r.2)
    else
      ({ s with
         _timeout_cookie := some env.new_cookie
         _mavlink_mission_items_downloaded := []
         _activity := Activity.GET_MISSION
         _mission_items_and_result_callback := callback },
       [Event.send_message message, Event.register_timeout_handler 1 env.new_cookie])

/-- The statements shared by `start_mission_async` and `pause_mission_async` once the
engine is known to be idle: the mode command with the given custom sub mode. -/
def send_mode_command (env : Env) (s : MissionImpl) (custom_sub_mode : Nat)
    (callback : Option Nat) : MissionImpl × List Event :=
  let flag_safety_armed := if env.is_armed then MAV_MODE_FLAG_SAFETY_ARMED else 0
  let mode := VEHICLE_MODE_FLAG_CUSTOM_MODE_ENABLED ||| flag_safety_armed
  let custom_mode := PX4_CUSTOM_MAIN_MODE_AUTO
  ({ s with _activity := Activity.SEND_COMMAND, _result_callback := callback },
   [Event.send_command_with_ack_async MAV_CMD_DO_SET_MODE
      [Flt.of_int mode, Flt.of_int custom_mode, Flt.of_int custom_sub_mode,
       Flt.nan, Flt.nan, Flt.nan, Flt.nan]
      callback 1])

/-- The method `MissionImpl::start_mission_async`. -/
def start_mission_async (env : Env) (s : MissionImpl) (callback : Option Nat) :
    MissionImpl × List Event :=
  if s._activity ≠ Activity.NONE then
    (s, report_mission_result callback Result.BUSY)
  else
    send_mode_command env s PX4_CUSTOM_SUB_MODE_AUTO_MISSION callback

/-- The method `MissionImpl::pause_mission_async`. -/
def pause_mission_async (env : Env) (s : MissionImpl) (callback : Option Nat) :
    MissionImpl × List Event :=
  if s._activity ≠ Activity.NONE then
    (s, report_mission_result callback Result.BUSY)
  else
    send_mode_command env s PX4_CUSTOM_SUB_MODE_AUTO_LOITER callback

/-- The search loop of `set_current_mission_item_async`, lines 736-745: the key of the
first entry, in key order, whose value is `current`, and -1 when there is none. -/
def find_mavlink_index (m : IndexMap) (current : Int) : Int :=
  match m.find? (fun entry => entry.2 = current) with
  | some entry => entry.1
  | none => -1

/-- The method `MissionImpl::set_current_mission_item_async`; the seq of
`MISSION_SET_CURRENT` is a `uint16_t`. -/
def set_current_mission_item_async (env : Env) (s : MissionImpl) (current : Int)
    (callback : Option Nat) : MissionImpl × List Event :=
  if s._activity ≠ Activity.NONE then
    (s, report_mission_result callback Result.BUSY)
  else
    let mavlink_index :=
      find_mavlink_index s._mavlink_mission_item_to_mission_item_indices current
    if mavlink_index < 0 then
      (s, report_mission_result callback Result.INVALID_ARGUMENT)
    else
      let message : mavlink_message_t :=
        { sysid := env.own_system_id
          compid := env.own_component_id
          payload := Payload.mission_set_current env.target_system_id
            env.target_component_id (int_to_uint16 mavlink_index) }
      if !env.send_ok then
        (s, Event.send_message message :: report_mission_result callback Result.ERROR)
      else
        ({ s with _activity := Activity.SET_CURRENT, _result_callback := callback },
         [Event.send_message message])

/-- The method `MissionImpl::process_mission_ack`, on the decoded `MISSION_ACK` (the
router delivers only messages of that id to the handler). -/
def process_mission_ack (env : Env) (s : MissionImpl) (mission_ack : mavlink_mission_ack_t) :
    MissionImpl × List Event :=
  if s._activity ≠ Activity.SET_MISSION then (s, [])
  else if mission_ack.target_system ≠ env.own_system_id ∧
      mission_ack.target_component ≠ env.own_component_id then (s, [])
  else
    let unregister := Event.unregister_timeout_handler s._timeout_cookie
    if mission_ack.type = MAV_MISSION_ACCEPTED then
      ({ s with
         _last_current_mavlink_mission_item := -1
         _last_reached_mavlink_mission_item := -1
         _activity := Activity.NONE },
       unregister :: report_mission_result s._result_callback Result.SUCCESS)
    else if mission_ack.type = MAV_MISSION_NO_SPACE then
      (s, unregister ::
        report_mission_result s._result_callback Result.TOO_MANY_MISSION_ITEMS)
    else
      (s, unregister :: report_mission_result s._result_callback Result.ERROR)

/-- The payload `mavlink_mission_count_t` of a `MISSION_COUNT` message; `count` is a
`uint16_t`. -/
structure mavlink_mission_count_t where
  target_system : Nat
  target_component : Nat
  count : Nat
  mission_type : Nat
  deriving DecidableEq

/-- The method `MissionImpl::download_next_mission_item`; the seq of
`MISSION_REQUEST_INT` is a `uint16_t`. -/
def download_next_mission_item (env : Env) (s : MissionImpl) : List Event :=
  [Event.send_message
    { sysid := env.own_system_id
      compid := env.own_component_id
      payload := Payload.mission_request_int env.target_system_id env.target_component_id
        (int_to_uint16 s._next_mission_item_to_download) MAV_MISSION_TYPE_MISSION }]

/-- The method `MissionImpl::process_mission_count`, on the decoded `MISSION_COUNT`. -/
def process_mission_count (env : Env) (s : MissionImpl)
    (mission_count : mavlink_mission_count_t) : MissionImpl × List Event :=
  if s._activity ≠ Activity.GET_MISSION then (s, [])
  else
    let s1 :=
      { s with
        _num_mission_items_to_download := (mission_count.count : Int)
        _next_mission_item_to_download := 0 }
    (s1, Event.refresh_timeout_handler s._timeout_cookie ::
      download_next_mission_item env s1)

/-- The method `MissionImpl::process_mission_item_int`, on the decoded
`MISSION_ITEM_INT`.  The comparison of the item's seq with the next item to download only
guards a debug log, which has no effect. -/
def process_mission_item_int (env : Env) (s : MissionImpl)
    (mission_item_int : mavlink_mission_item_int_t) : MissionImpl × List Event :=
  let s1 :=
    { s with
      _mavlink_mission_items_downloaded :=
        s._mavlink_mission_items_downloaded ++ [mission_item_int] }
  if s1._next_mission_item_to_download + 1 = s1._num_mission_items_to_download then
    let ack_message : mavlink_message_t :=
      { sysid := env.own_system_id
        compid := env.own_component_id
        payload := Payload.mission_ack env.target_system_id env.target_component_id
          MAV_MISSION_ACCEPTED MAV_MISSION_TYPE_MISSION }
    let r := assemble_mission_items env s1
    (r.1, Event.unregister_timeout_handler s._timeout_cookie ::
      Event.send_message ack_message :: r.2)
  else
    let s2 :=
      { s1 with _next_mission_item_to_download := s1._next_mission_item_to_download + 1 }
    (s2, Event.refresh_timeout_handler s._timeout_cookie ::
      download_next_mission_item env s2)

/-- The method `MissionImpl::process_timeout`. -/
def process_timeout (s : MissionImpl) : MissionImpl × List Event :=
  if s._activity ≠ Activity.NONE then
    (s, report_mission_result s._result_callback Result.TIMEOUT)
  else (s, [])

/-- The method `MissionImpl::process_mission_request`: the `MISSION_REQUEST` it is called
with is not looked at. -/
def process_mission_request (env : Env) (s : MissionImpl) : MissionImpl × List Event :=
  let message : mavlink_message_t :=
    { sysid := env.own_system_id
      compid := env.own_component_id
      payload := Payload.mission_ack env.target_system_id env.target_component_id
        MAV_MISSION_UNSUPPORTED MAV_MISSION_TYPE_MISSION }
  (s, [Event.send_message message, Event.refresh_timeout_handler s._timeout_cookie])

/-- The payload `mavlink_mission_request_int_t` of a `MISSION_REQUEST_INT` message; `seq`
is a `uint16_t`. -/
structure mavlink_mission_request_int_t where
  target_system : Nat
  target_component : Nat
  seq : Nat
  mission_type : Nat
  deriving DecidableEq

/-- The method `MissionImpl::upload_mission_item`; `none` stands for the
`std::out_of_range` that `at` throws on an index outside the vector. -/
def upload_mission_item (s : MissionImpl) (seq : Nat) : Option (List Event) :=
  if s._mavlink_mission_item_messages.length ≤ seq then some []
  else
    match s._mavlink_mission_item_messages[seq]? with
    | some message => some [Event.send_message message]
    | none => none

/-- The method `MissionImpl::process_mission_request_int`, on the decoded
`MISSION_REQUEST_INT`; `none` when `upload_mission_item` throws. -/
def process_mission_request_int (env : Env) (s : MissionImpl)
    (mission_request_int : mavlink_mission_request_int_t) :
    Option (MissionImpl × List Event) :=
  if mission_request_int.target_system ≠ env.own_system_id ∧
      mission_request_int.target_component ≠ env.own_component_id then some (s, [])
  else if s._activity ≠ Activity.SET_MISSION then some (s, [])
  else
    match upload_mission_item s mission_request_int.seq with
    | none => none
    | some events =>
      some (s, events ++ [Event.refresh_timeout_handler s._timeout_cookie])

/-- The method `MissionImpl::total_mission_items`. -/
def total_mission_items (s : MissionImpl) : Int :=
  (s._mission_items.length : Int)

/-- The method `MissionImpl::is_mission_finished`.  The conversion to `unsigned` in the
last comparison is applied to a positive `int`, which it leaves as it is. -/
def is_mission_finished (s : MissionImpl) : Bool :=
  if s._last_current_mavlink_mission_item < 0 then false
  else if s._last_reached_mavlink_mission_item < 0 then false
  else if s._mavlink_mission_item_messages.length = 0 then false
  else
    decide (s._last_reached_mavlink_mission_item + 1 =
      (s._mavlink_mission_item_messages.length : Int))

/-- The method `MissionImpl::current_mission_item`. -/
def current_mission_item (s : MissionImpl) : Int :=
  if is_mission_finished s then total_mission_items s
  else
    match s._mavlink_mission_item_to_mission_item_indices.find
        s._last_current_mavlink_mission_item with
    | some second => second
    | none => -1

/-- The method `MissionImpl::report_progress`. -/
def report_progress (s : MissionImpl) : List Event :=
  match s._progress_callback with
  | none => []
  | some cb => [Event.progress_callback cb (current_mission_item s) (total_mission_items s)]

/-- The method `MissionImpl::subscribe_progress`. -/
def subscribe_progress (s : MissionImpl) (callback : Option Nat) : MissionImpl :=
  { s with _progress_callback := callback }

/-- The payload `mavlink_mission_current_t` of a `MISSION_CURRENT` message; `seq` is a
`uint16_t`. -/
structure mavlink_mission_current_t where
  seq : Nat
  deriving DecidableEq

/-- The method `MissionImpl::process_mission_current`, on the decoded
`MISSION_CURRENT`. -/
def process_mission_current (s : MissionImpl) (mission_current : mavlink_mission_current_t) :
    MissionImpl × List Event :=
  let r1 : MissionImpl × List Event :=
    if s._last_current_mavlink_mission_item ≠ (mission_current.seq : Int) then
      let s1 := { s with _last_current_mavlink_mission_item := (mission_current.seq : Int) }
      (s1, report_progress s1)
    else (s, [])
  if r1.1._activity = Activity.SET_CURRENT ∧
      r1.1._last_current_mavlink_mission_item = (mission_current.seq : Int) then
    ({ r1.1 with
       _last_current_mavlink_mission_item := -1
       _activity := Activity.NONE },
     r1.2 ++ report_mission_result r1.1._result_callback Result.SUCCESS ++
       [Event.unregister_timeout_handler r1.1._timeout_cookie])
  else r1

/-- The payload `mavlink_mission_item_reached_t` of a `MISSION_ITEM_REACHED` message;
`seq` is a `uint16_t`. -/
structure mavlink_mission_item_reached_t where
  seq : Nat
  deriving DecidableEq

/-- The method `MissionImpl::process_mission_item_reached`, on the decoded
`MISSION_ITEM_REACHED`. -/
def process_mission_item_reached (s : MissionImpl)
    (mission_item_reached : mavlink_mission_item_reached_t) : MissionImpl × List Event :=
  if s._last_reached_mavlink_mission_item ≠ (mission_item_reached.seq : Int) then
    let s1 :=
      { s with _last_reached_mavlink_mission_item := (mission_item_reached.seq : Int) }
    (s1, report_progress s1)
  else (s, [])

/-- The method `MissionImpl::receive_command_result`; `callback` is the user callback that
`start_mission_async` or `pause_mission_async` bound into the completion. -/
def receive_command_result (s : MissionImpl) (result : CommandResult)
    (callback : Option Nat) : MissionImpl × List Event :=
  let s1 :=
    if s._activity = Activity.SEND_COMMAND then { s with _activity := Activity.NONE } else s
  (s1, Event.unregister_timeout_handler s._timeout_cookie ::
    (if result = CommandResult.SUCCESS then report_mission_result callback Result.SUCCESS
     else report_mission_result callback Result.ERROR))

/-! ## The result mapping of `FollowMeImpl` and the receive loop of `UdpConnection` -/

/-- Modelled from the spec: the enumeration `FollowMe::Result` (`follow_me.h` is not part
of the sources at hand), with the enumerators that `follow_me_impl.cpp` names. -/
inductive FollowMeResult where
  | SUCCESS
  | NO_DEVICE
  | CONNECTION_ERROR
  | BUSY
  | COMMAND_DENIED
  | TIMEOUT
  | UNKNOWN
  deriving DecidableEq

/-- The method `FollowMeImpl::to_follow_me_result`. -/
def to_follow_me_result (result : CommandResult) : FollowMeResult :=
  match result with
  | CommandResult.SUCCESS => FollowMeResult.SUCCESS
  | CommandResult.NO_DEVICE => FollowMeResult.NO_DEVICE
  | CommandResult.CONNECTION_ERROR => FollowMeResult.CONNECTION_ERROR
  | CommandResult.BUSY => FollowMeResult.BUSY
  | CommandResult.COMMAND_DENIED => FollowMeResult.COMMAND_DENIED
  | CommandResult.TIMEOUT => FollowMeResult.TIMEOUT
  | _ => FollowMeResult.UNKNOWN

/-- The members of `UdpConnection` that hold the peer: `_remote_ip`, a `std::string`, and
`_remote_port_number`, an `int`. -/
structure UdpConnection where
  _remote_ip : String
  _remote_port_number : Int
  deriving DecidableEq

/-- What one call of `recvfrom` in `UdpConnection::receive` hands back: its return value,
the source address as `inet_ntoa` prints it, the source port as `ntohs` returns it, and
the bytes written to the buffer. -/
structure Datagram where
  recv_len : Int
  src_ip : String
  src_port : Nat
  buffer : List Nat
  deriving DecidableEq

/-- One turn of the loop of `UdpConnection::receive`, lines 180-231, on what `recvfrom`
handed back: the connection afterwards and the bytes given to the MAVLink receiver, if
any. -/
def receive (parent : UdpConnection) (d : Datagram) : UdpConnection × Option (List Nat) :=
  if d.recv_len = 0 then (parent, none)
  else if d.recv_len < 0 then (parent, none)
  else
    let new_remote_port_number : Int := (d.src_port : Int)
    let new_remote_ip := d.src_ip
    let parent1 : UdpConnection :=
      if parent._remote_ip = "" ∨ parent._remote_port_number = 0 then
        { _remote_ip := new_remote_ip, _remote_port_number := new_remote_port_number }
      else if parent._remote_ip ≠ new_remote_ip ∨
          parent._remote_port_number ≠ new_remote_port_number then
        { _remote_ip := new_remote_ip, _remote_port_number := new_remote_port_number }
      else parent
    (parent1, some (d.buffer.take d.recv_len.toNat))

/-- The constant `MAVLINK_MAX_PACKET_LEN` of the MAVLink library (version 2 frames). -/
def MAVLINK_MAX_PACKET_LEN : Nat := 280

/-- The arguments of one call of `sendto` in `UdpConnection::send_message`: the address
that `inet_pton` reads from the stored text, the port given to `htons`, a `uint16_t`, and
the bytes of the buffer. -/
structure SendtoCall where
  dest_ip : String
  dest_port : Nat
  buffer : List Nat
  deriving DecidableEq

/-- The method `UdpConnection::send_message`, on the frame that
`mavlink_msg_to_send_buffer` wrote for the message and on the value `send_len` that
`sendto` returns: the value returned and the call of `sendto`, if any; `none` when the
assertion on the length of the frame fails. -/
def UdpConnection.send_message (parent : UdpConnection) (frame : List Nat)
    (send_len : Int) : Option (Bool × Option SendtoCall) :=
  if parent._remote_ip = "" then some (false, none)
  else if parent._remote_port_number = 0 then some (false, none)
  else
    let buffer_len := frame.length
    if ¬ buffer_len ≤ MAVLINK_MAX_PACKET_LEN then none
    else
      let call : SendtoCall :=
        { dest_ip := parent._remote_ip
          dest_port := int_to_uint16 parent._remote_port_number
          buffer := frame }
      if send_len ≠ (buffer_len : Int) then some (false, some call)
      else some (true, some call)

/-! ## The follow-me plugin: `FollowMeImpl` -/

/-- Modelled from the spec: the enumeration `FollowMe::Config::FollowDirection`
(`follow_me.h` is not part of the sources at hand), held as its underlying integer, since
`is_config_ok` tests a value of that type against the range of the enumerators.  The
values 0 to 3 are those of the `switch` of `receive_param_follow_direction`; `NONE` is
the last enumerator. -/
abbrev FollowDirection := Int

namespace FollowDirection

def FRONT_RIGHT : FollowDirection := 0
def BEHIND : FollowDirection := 1
def FRONT : FollowDirection := 2
def FRONT_LEFT : FollowDirection := 3
def NONE : FollowDirection := 4

end FollowDirection

/-- Modelled from the spec: the structure `FollowMe::Config` (`follow_me.h` is not part
of the sources at hand), with the four fields that `follow_me_impl.cpp` reads and
writes; the three numbers are `float`s. -/
structure Config where
  min_height_m : Flt
  follow_dist_m : Flt
  follow_direction : FollowDirection
  responsiveness : Flt
  deriving DecidableEq

namespace Config

/-- Modelled from the spec: the constant `FollowMe::Config::MIN_HEIGHT_M`; the value is
the one the error message of `is_config_ok` states. -/
def MIN_HEIGHT_M : Flt := Flt.fin 8

/-- Modelled from the spec: the constant `FollowMe::Config::MIN_FOLLOW_DIST_M`; the value
is the one the error message of `is_config_ok` states. -/
def MIN_FOLLOW_DIST_M : Flt := Flt.fin 1

/-- Modelled from the spec: the constant `FollowMe::Config::MIN_RESPONSIVENESS`; the
value is the one the error message of `is_config_ok` states. -/
def MIN_RESPONSIVENESS : Flt := Flt.fin 0

/-- Modelled from the spec: the constant `FollowMe::Config::MAX_RESPONSIVENESS`; the
value is the one the error message of `is_config_ok` states. -/
def MAX_RESPONSIVENESS : Flt := Flt.fin 1

end Config

/-- Modelled from the spec: the structure `FollowMe::TargetLocation` (`follow_me.h` is
not part of the sources at hand): three `double`s and three `float`s, in the order of
the initialiser in the constructor of `FollowMeImpl`. -/
structure TargetLocation where
  latitude_deg : Flt
  longitude_deg : Flt
  absolute_altitude_m : Flt
  velocity_x_m_s : Flt
  velocity_y_m_s : Flt
  velocity_z_m_s : Flt
  deriving DecidableEq

/-- Modelled from the spec: the enumeration `FollowMeImpl::Mode` (`follow_me_impl.h` is
not part of the sources at hand), with the two enumerators that `follow_me_impl.cpp`
names. -/
inductive Mode where
  | NOT_ACTIVE
  | ACTIVE
  deriving DecidableEq

/-- The data members of `FollowMeImpl` (declared in `follow_me_impl.h`) that
`follow_me_impl.cpp` reads and writes. -/
structure FollowMeImpl where
  _mode : Mode
  _config : Config
  _curr_target_location : TargetLocation
  _last_location : TargetLocation
  _estimatation_capabilities : Nat
  _curr_target_location_cookie : Option Nat
  deriving DecidableEq

/-- Modelled from the spec: the periodic scheduler of the parent device behind
`add_call_every`, `reset_call_every` and `remove_call_every` (section 4.1: a reset moves
the next firing "without unregistering", removal is idempotent): the cookies of the
registered calls and the next cookie to hand out. -/
structure CallEvery where
  registered : List Nat
  next_cookie : Nat
  deriving DecidableEq

namespace CallEvery

/-- Modelled from the spec: `add_call_every`: the call is registered under a new
cookie, which is handed back. -/
def add_call_every (t : CallEvery) : CallEvery × Nat :=
  ({ registered := t.registered ++ [t.next_cookie], next_cookie := t.next_cookie + 1 },
   t.next_cookie)

/-- Modelled from the spec: `reset_call_every`: the next firing of the call is moved;
the call stays registered. -/
def reset_call_every (t : CallEvery) (_cookie : Nat) : CallEvery := t

/-- Modelled from the spec: `remove_call_every`: the call is not registered any more. -/
def remove_call_every (t : CallEvery) (cookie : Nat) : CallEvery :=
  { t with registered := t.registered.filter (fun c => c ≠ cookie) }

end CallEvery

/-- The function bound into the completion of a parameter request by `set_config`,
together with the value bound as its second argument. -/
inductive ParamCallback where
  | receive_param_min_height (min_height_m : Flt)
  | receive_param_follow_distance (follow_dist_m : Flt)
  | receive_param_follow_direction (direction : Int)
  | receive_param_responsiveness (responsiveness : Flt)
  deriving DecidableEq

/-- One effect of a `FollowMeImpl` method on its parent device. -/
inductive FollowEffect where
  /-- The call `_parent->set_param_float_async(name, value, callback)`. -/
  | set_param_float_async (name : String) (value : Flt) (callback : ParamCallback)
  /-- The call `_parent->set_param_int_async(name, value, callback)`. -/
  | set_param_int_async (name : String) (value : Int) (callback : ParamCallback)
  /-- The call `_parent->send_command_with_ack(command, params, component_id)`. -/
  | send_command_with_ack (command : Nat) (params : List Flt) (component_id : Nat)
  /-- The call `_parent->send_message(msg)` on a `FOLLOW_TARGET` message packed with the
  given sender ids, timestamp, capabilities, position and altitude; the other fields are
  the constants of `send_curr_target_location`. -/
  | send_follow_target (system_id component_id timestamp est_capabilities : Nat)
      (lat lon : Int) (alt : Flt)
  deriving DecidableEq

/-- What the parent device answers to a `FollowMeImpl` method during one call. -/
structure FollowEnv where
  /-- The value of `_parent->get_own_system_id()`. -/
  own_system_id : Nat
  /-- The value of `_parent->get_own_component_id()`. -/
  own_component_id : Nat
  /-- The value of `_parent->is_armed()`. -/
  is_armed : Bool
  /-- The value `_parent->send_message(..)` returns. -/
  send_ok : Bool
  /-- The value `_parent->send_command_with_ack(..)` returns. -/
  command_result : CommandResult
  /-- The value of `_time.elapsed_since_s(now) * 1000` as a `uint64_t`. -/
  elapsed_msec : Nat
  /-- The narrowing conversion from `double` to `float`. -/
  to_float : Flt → Flt

def MAV_MODE_FLAG_CUSTOM_MODE_ENABLED : Nat := 1
def PX4_CUSTOM_SUB_MODE_AUTO_FOLLOW_TARGET : Nat := 8

/-- Modelled from the spec: the enumerator `EstimationCapabilites::POS`
(`follow_me_impl.h` is not part of the sources at hand), the first of its enumeration. -/
def EstimationCapabilites_POS : Nat := 0

/-- The payload `mavlink_heartbeat_t` of a `HEARTBEAT` message: `custom_mode` is a
`uint32_t`, `base_mode` a `uint8_t`. -/
structure mavlink_heartbeat_t where
  custom_mode : Nat
  base_mode : Nat
  deriving DecidableEq

/-- Modelled from the spec: the member `main_mode` of the union `px4::px4_custom_mode`
(`px4_custom_mode.h` is not part of the sources at hand): the third byte of `data`. -/
def px4_main_mode (data : Nat) : Nat := (data / 65536) % 256

/-- Modelled from the spec: the member `sub_mode` of the union `px4::px4_custom_mode`
(`px4_custom_mode.h` is not part of the sources at hand): the fourth byte of `data`. -/
def px4_sub_mode (data : Nat) : Nat := (data / 16777216) % 256

namespace FollowMeImpl

/-- The method `FollowMeImpl::get_config`. -/
def get_config (s : FollowMeImpl) : Config := s._config

/-- The method `FollowMeImpl::is_config_ok`. -/
def is_config_ok (config : Config) : Bool :=
  if config.min_height_m.lt Config.MIN_HEIGHT_M then false
  else if config.follow_dist_m.lt Config.MIN_FOLLOW_DIST_M then false
  else if config.follow_direction < FollowDirection.FRONT_RIGHT ∨
      config.follow_direction > FollowDirection.NONE then false
  else if config.responsiveness.lt Config.MIN_RESPONSIVENESS ||
      config.responsiveness.gt Config.MAX_RESPONSIVENESS then false
  else true

/-- The method `FollowMeImpl::set_config`: the value returned, the members afterwards
and the parameter requests made. -/
def set_config (s : FollowMeImpl) (config : Config) :
    Bool × FollowMeImpl × List FollowEffect :=
  if !is_config_ok config then (false, s, [])
  else
    let height := config.min_height_m
    let distance := config.follow_dist_m
    let direction : Int := config.follow_direction
    let responsiveness := config.responsiveness
    (true, s,
     [FollowEffect.set_param_float_async "NAV_MIN_FT_HT" height
        (ParamCallback.receive_param_min_height height),
      FollowEffect.set_param_float_async "NAV_FT_DST" distance
        (ParamCallback.receive_param_follow_distance distance),
      FollowEffect.set_param_int_async "NAV_FT_FS" direction
        (ParamCallback.receive_param_follow_direction direction),
      FollowEffect.set_param_float_async "NAV_FT_RS" responsiveness
        (ParamCallback.receive_param_responsiveness responsiveness)])

/-- The method `FollowMeImpl::receive_param_min_height`. -/
def receive_param_min_height (s : FollowMeImpl) (success : Bool) (min_height_m : Flt) :
    FollowMeImpl :=
  if success then { s with _config := { s._config with min_height_m := min_height_m } }
  else s

/-- The method `FollowMeImpl::receive_param_follow_distance`. -/
def receive_param_follow_distance (s : FollowMeImpl) (success : Bool)
    (follow_dist_m : Flt) : FollowMeImpl :=
  if success then { s with _config := { s._config with follow_dist_m := follow_dist_m } }
  else s

/-- The method `FollowMeImpl::receive_param_follow_direction`. -/
def receive_param_follow_direction (s : FollowMeImpl) (success : Bool) (direction : Int) :
    FollowMeImpl :=
  let new_direction : FollowDirection :=
    if direction = 0 then FollowDirection.FRONT_RIGHT
    else if direction = 1 then FollowDirection.BEHIND
    else if direction = 2 then FollowDirection.FRONT
    else if direction = 3 then FollowDirection.FRONT_LEFT
    else FollowDirection.NONE
  if success then
    if new_direction ≠ FollowDirection.NONE then
      { s with _config := { s._config with follow_direction := new_direction } }
    else s
  else s

/-- The method `FollowMeImpl::receive_param_responsiveness`. -/
def receive_param_responsiveness (s : FollowMeImpl) (success : Bool)
    (responsiveness : Flt) : FollowMeImpl :=
  if success then
    { s with _config := { s._config with responsiveness := responsiveness } }
  else s

/-- The method `FollowMeImpl::is_active`. -/
def is_active (s : FollowMeImpl) : Bool :=
  decide (s._mode = Mode.ACTIVE)

/-- The method `FollowMeImpl::is_current_location_set`. -/
def is_current_location_set (s : FollowMeImpl) : Bool :=
  s._curr_target_location.latitude_deg.isfinite

/-- The method `FollowMeImpl::send_curr_target_location`. -/
def send_curr_target_location (env : FollowEnv) (s : FollowMeImpl) :
    FollowMeImpl × List FollowEffect :=
  if !is_active s then (s, [])
  else
    let lat_int := MissionItem.deg_to_e7 s._curr_target_location.latitude_deg
    let lon_int := MissionItem.deg_to_e7 s._curr_target_location.longitude_deg
    let alt := env.to_float s._curr_target_location.absolute_altitude_m
    let msg := FollowEffect.send_follow_target env.own_system_id env.own_component_id
      env.elapsed_msec s._estimatation_capabilities lat_int lon_int alt
    if !env.send_ok then (s, [msg])
    else ({ s with _last_location := s._curr_target_location }, [msg])

/-- The method `FollowMeImpl::set_curr_target_location`. -/
def set_curr_target_location (env : FollowEnv) (s : FollowMeImpl) (t : CallEvery)
    (location : TargetLocation) : FollowMeImpl × CallEvery × List FollowEffect :=
  let s1 :=
    { s with
      _curr_target_location := location
      _estimatation_capabilities :=
        s._estimatation_capabilities ||| (1 <<< EstimationCapabilites_POS) }
  if s1._mode ≠ Mode.ACTIVE then (s1, t, [])
  else
    let r : FollowMeImpl × CallEvery :=
      match s1._curr_target_location_cookie with
      | some cookie =>
        ({ s1 with _curr_target_location_cookie := none }, t.reset_call_every cookie)
      | none =>
        ({ s1 with _curr_target_location_cookie := some t.add_call_every.2 },
         t.add_call_every.1)
    let sent := send_curr_target_location env r.1
    (sent.1, r.2, sent.2)

/-- The method `FollowMeImpl::start`. -/
def start (env : FollowEnv) (s : FollowMeImpl) (t : CallEvery) :
    FollowMeResult × FollowMeImpl × CallEvery × List FollowEffect :=
  let flag_safety_armed := if env.is_armed then MAV_MODE_FLAG_SAFETY_ARMED else 0
  let mode := MAV_MODE_FLAG_CUSTOM_MODE_ENABLED ||| flag_safety_armed
  let custom_mode := PX4_CUSTOM_MAIN_MODE_AUTO
  let custom_sub_mode := PX4_CUSTOM_SUB_MODE_AUTO_FOLLOW_TARGET
  let command := FollowEffect.send_command_with_ack MAV_CMD_DO_SET_MODE
    [Flt.of_int mode, Flt.of_int custom_mode, Flt.of_int custom_sub_mode,
     Flt.nan, Flt.nan, Flt.nan, Flt.nan] 1
  let result := to_follow_me_result env.command_result
  if result = FollowMeResult.SUCCESS then
    if is_current_location_set s then
      (result, { s with _curr_target_location_cookie := some t.add_call_every.2 },
       t.add_call_every.1, [command])
    else (result, s, t, [command])
  else (result, s, t, [command])

/-- The method `FollowMeImpl::stop_sending_target_location`. -/
def stop_sending_target_location (s : FollowMeImpl) (t : CallEvery) :
    FollowMeImpl × CallEvery :=
  let r : FollowMeImpl × CallEvery :=
    match s._curr_target_location_cookie with
    | some cookie =>
      ({ s with _curr_target_location_cookie := none }, t.remove_call_every cookie)
    | none => (s, t)
  ({ r.1 with _mode := Mode.NOT_ACTIVE }, r.2)

/-- The method `FollowMeImpl::stop`. -/
def stop (env : FollowEnv) (s : FollowMeImpl) (t : CallEvery) :
    FollowMeResult × FollowMeImpl × CallEvery × List FollowEffect :=
  let r : FollowMeImpl × CallEvery :=
    if s._mode = Mode.ACTIVE then stop_sending_target_location s t else (s, t)
  let flag_safety_armed := if env.is_armed then MAV_MODE_FLAG_SAFETY_ARMED else 0
  let mode := MAV_MODE_FLAG_CUSTOM_MODE_ENABLED ||| flag_safety_armed
  let custom_mode := PX4_CUSTOM_MAIN_MODE_AUTO
  let custom_sub_mode := PX4_CUSTOM_SUB_MODE_AUTO_LOITER
  (to_follow_me_result env.command_result, r.1, r.2,
   [FollowEffect.send_command_with_ack MAV_CMD_DO_SET_MODE
      [Flt.of_int mode, Flt.of_int custom_mode, Flt.of_int custom_sub_mode,
       Flt.nan, Flt.nan, Flt.nan, Flt.nan] 1])

/-- The method `FollowMeImpl::process_heartbeat`, on the decoded `HEARTBEAT`. -/
def process_heartbeat (s : FollowMeImpl) (t : CallEvery) (heartbeat : mavlink_heartbeat_t) :
    FollowMeImpl × CallEvery :=
  let follow_me_active : Bool :=
    if heartbeat.base_mode &&& MAV_MODE_FLAG_CUSTOM_MODE_ENABLED ≠ 0 then
      if px4_main_mode heartbeat.custom_mode = PX4_CUSTOM_MAIN_MODE_AUTO ∧
          px4_sub_mode heartbeat.custom_mode = PX4_CUSTOM_SUB_MODE_AUTO_FOLLOW_TARGET then
        true
      else false
    else false
  if !follow_me_active ∧ s._mode = Mode.ACTIVE then stop_sending_target_location s t
  else if follow_me_active ∧ s._mode = Mode.NOT_ACTIVE then
    ({ s with _mode := Mode.ACTIVE }, t)
  else (s, t)

end FollowMeImpl

/-! ## Closed form of the expansion

The wire items of one rule, of one logical item and of a whole mission, as functions of
the number of wire items emitted before and of the last position seen. -/

/-- The payload packed by `emit` when the vector holds `size` messages. -/
def wire (env : Env) (size frame command autocontinue : Nat)
    (param1 param2 param3 param4 : Flt) (x y : Int) (z : Flt) : mavlink_mission_item_int_t where
  target_system := env.target_system_id
  target_component := env.target_component_id
  seq := wrap_uint16 size
  frame := frame
  command := command
  current := if size = 0 then 1 else 0
  autocontinue := autocontinue
  param1 := param1
  param2 := param2
  param3 := param3
  param4 := param4
  x := x
  y := y
  z := z
  mission_type := MAV_MISSION_TYPE_MISSION

/-- The message `emit` appends for the payload `item`. -/
def packed (env : Env) (item : mavlink_mission_item_int_t) : mavlink_message_t where
  sysid := env.own_system_id
  compid := env.own_component_id
  payload := Payload.mission_item_int item

/-- The last position after the waypoint rule has run on `item`. -/
def next_last (last : Option LastPosition) (item : MissionItem) : Option LastPosition :=
  if item.is_position_finite then
    some
      { frame := item.get_mavlink_frame
        x := item.get_mavlink_x
        y := item.get_mavlink_y
        z := item.get_mavlink_z }
  else last

/-- The wire items rule 1 appends when the vector holds `n` messages. -/
def position_items (env : Env) (n : Nat) (item : MissionItem) :
    List mavlink_mission_item_int_t :=
  if item.is_position_finite then
    [wire env n item.get_mavlink_frame item.get_mavlink_cmd
      (env.waypoint_autocontinue item) (item.get_mavlink_param1 env)
      (env.waypoint_param2 item) (env.waypoint_param3 item) (env.waypoint_param4 item)
      item.get_mavlink_x item.get_mavlink_y item.get_mavlink_z]
  else []

/-- The wire items rule 2 appends when the vector holds `n` messages. -/
def speed_items (env : Env) (n : Nat) (item : MissionItem) :
    List mavlink_mission_item_int_t :=
  if item.speed_m_s.isfinite then
    [wire env n MAV_FRAME_MISSION MAV_CMD_DO_CHANGE_SPEED 1
      (Flt.fin 1) item.speed_m_s (Flt.fin (-1)) (Flt.fin 0) 0 0 Flt.nan]
  else []

/-- The wire items rule 3 appends when the vector holds `n` messages. -/
def gimbal_items (env : Env) (n : Nat) (item : MissionItem) :
    List mavlink_mission_item_int_t :=
  if item.gimbal_yaw_deg.isfinite || item.gimbal_pitch_deg.isfinite then
    [wire env n MAV_FRAME_MISSION MAV_CMD_DO_MOUNT_CONTROL 1
      item.gimbal_pitch_deg (Flt.fin 0) item.gimbal_yaw_deg Flt.nan 0 0
      (Flt.of_int MAV_MOUNT_MODE_MAVLINK_TARGETING)]
  else []

/-- The wire items rule 4 appends when the vector holds `n` messages and the last
position is `last`. -/
def delay_items (env : Env) (n : Nat) (last : Option LastPosition) (item : MissionItem) :
    List mavlink_mission_item_int_t :=
  if item.camera_action_delay_s.isfinite then
    match last with
    | none => []
    | some l =>
      [wire env n l.frame MAV_CMD_NAV_LOITER_TIME 1
        item.camera_action_delay_s Flt.nan (Flt.fin 0) (Flt.fin 0) l.x l.y l.z]
  else []

/-- The wire items rule 5 appends when the vector holds `n` messages. -/
def camera_items (env : Env) (n : Nat) (item : MissionItem) :
    List mavlink_mission_item_int_t :=
  match item.camera_action with
  | CameraAction.NONE => []
  | CameraAction.TAKE_PHOTO =>
    [wire env n MAV_FRAME_MISSION MAV_CMD_IMAGE_START_CAPTURE 1
      (Flt.fin 0) (Flt.fin 0) (Flt.fin 1) Flt.nan 0 0 Flt.nan]
  | CameraAction.START_PHOTO_INTERVAL =>
    [wire env n MAV_FRAME_MISSION MAV_CMD_IMAGE_START_CAPTURE 1
      (Flt.fin 0) (env.to_float item.camera_photo_interval_s) (Flt.fin 0) Flt.nan 0 0
      Flt.nan]
  | CameraAction.STOP_PHOTO_INTERVAL =>
    [wire env n MAV_FRAME_MISSION MAV_CMD_IMAGE_STOP_CAPTURE 1
      (Flt.fin 0) Flt.nan Flt.nan Flt.nan 0 0 Flt.nan]
  | CameraAction.START_VIDEO =>
    [wire env n MAV_FRAME_MISSION MAV_CMD_VIDEO_START_CAPTURE 1
      (Flt.fin 0) Flt.nan Flt.nan Flt.nan 0 0 Flt.nan]
  | CameraAction.STOP_VIDEO =>
    [wire env n MAV_FRAME_MISSION MAV_CMD_VIDEO_STOP_CAPTURE 1
      (Flt.fin 0) Flt.nan Flt.nan Flt.nan 0 0 Flt.nan]

/-- The wire items the loop body appends for `item` when the vector holds `n` messages
and the last position is `last`. -/
def item_wire_items (env : Env) (n : Nat) (last : Option LastPosition)
    (item : MissionItem) : List mavlink_mission_item_int_t :=
  let a := position_items env n item
  let b := speed_items env (n + a.length) item
  let c := gimbal_items env (n + a.length + b.length) item
  let d := delay_items env (n + a.length + b.length + c.length) (next_last last item) item
  let e := camera_items env (n + a.length + b.length + c.length + d.length) item
  a ++ (b ++ (c ++ (d ++ e)))

/-- The wire items the loop appends for a list of items. -/
def mission_wire_items (env : Env) : Nat → Option LastPosition → List MissionItem →
    List mavlink_mission_item_int_t
  | _, _, [] => []
  | n, last, item :: rest =>
    item_wire_items env n last item ++
      mission_wire_items env (n + (item_wire_items env n last item).length)
        (next_last last item) rest

/-- The wire items held in `_mavlink_mission_item_messages`: the decoded payloads, which
are what a download of the mission delivers to `process_mission_item_int`. -/
def wire_items (s : MissionImpl) : List mavlink_mission_item_int_t :=
  s._mavlink_mission_item_messages.filterMap mavlink_msg_mission_item_int_decode

/-- The loop variables of `assemble_mavlink_messages` when the body starts on the item
of index `i`. -/
def loop_before (env : Env) (s : MissionImpl) (i : Nat) : AssembleLoop :=
  (s._mission_items.take i).foldl (assemble_item env) (assemble_start s)

/-- The wire items `assemble_mavlink_messages` emits for the item of index `i`: those
the loop body appends while it runs on that item. -/
def emitted_for (env : Env) (s : MissionImpl) (i : Nat) : List mavlink_mission_item_int_t :=
  match s._mission_items[i]? with
  | none => []
  | some item =>
    ((assemble_item env (loop_before env s i) item).messages.drop
      (loop_before env s i).messages.length).filterMap mavlink_msg_mission_item_int_decode

/-- The wire items of a list are numbered from `n` on. -/
def Numbered : Nat → List mavlink_mission_item_int_t → Prop
  | _, [] => True
  | n, w :: rest => w.seq = wrap_uint16 n ∧ Numbered (n + 1) rest

/-! ## Notions used in the statements and concrete inputs -/

/-- An environment used for concrete inputs: own ids 255/190, target 1/1, a target that
supports the int protocol, a working link. -/
def example_env : Env where
  own_system_id := 255
  own_component_id := 190
  target_system_id := 1
  target_component_id := 1
  target_supports_mission_int := true
  is_armed := false
  send_ok := true
  new_cookie := 1
  accept_radius := Flt.fin 1
  waypoint_param2 := fun _ => Flt.fin 0
  waypoint_param3 := fun _ => Flt.fin 0
  waypoint_param4 := fun _ => Flt.nan
  waypoint_autocontinue := fun _ => 1
  default_photo_interval_s := Flt.fin 1
  to_float := fun v => v

/-- An idle engine with nothing stored, used for concrete inputs. -/
def idle_engine : MissionImpl where
  _activity := Activity.NONE
  _mission_items := []
  _mavlink_mission_item_messages := []
  _mavlink_mission_item_to_mission_item_indices := []
  _mavlink_mission_items_downloaded := []
  _num_mission_items_to_download := 0
  _next_mission_item_to_download := 0
  _last_current_mavlink_mission_item := -1
  _last_reached_mavlink_mission_item := -1
  _result_callback := none
  _mission_items_and_result_callback := none
  _progress_callback := none
  _timeout_cookie := none

/-- A logical item with the given position and camera action and nothing else set. -/
def waypoint_item (lat lon alt : ℚ) (action : CameraAction) : MissionItem :=
  { MissionItem.fresh example_env with
    latitude_deg := Flt.fin lat
    longitude_deg := Flt.fin lon
    relative_altitude_m := Flt.fin alt
    camera_action := action }

/-- A logical item to which all five expansion rules apply. -/
def full_item : MissionItem where
  latitude_deg := Flt.fin 47
  longitude_deg := Flt.fin 8
  relative_altitude_m := Flt.fin 10
  fly_through := false
  speed_m_s := Flt.fin 5
  gimbal_pitch_deg := Flt.fin (-45)
  gimbal_yaw_deg := Flt.fin 0
  camera_action_delay_s := Flt.fin 2
  camera_action := CameraAction.TAKE_PHOTO
  camera_photo_interval_s := Flt.fin 1

/-- A logical item to which no expansion rule applies. -/
def blank_item : MissionItem := MissionItem.fresh example_env

/-- A mission of 65537 identical waypoints. -/
def long_mission : List MissionItem :=
  List.replicate 65537 (waypoint_item 47 8 10 CameraAction.NONE)

/-- The five expansion rules of section 4.6 of the spec, in the order of the spec. -/
inductive Rule where
  | waypoint
  | speed
  | gimbal
  | delay
  | camera
  deriving DecidableEq

namespace Rule

/-- The rules in the order in which the spec lists them. -/
def all : List Rule := [waypoint, speed, gimbal, delay, camera]

/-- The condition under which the spec applies a rule to an item; `prior` tells whether
a position wire item exists in this mission when the item's delay is considered. -/
def applies (prior : Bool) (item : MissionItem) : Rule → Bool
  | waypoint => item.is_position_finite
  | speed => item.speed_m_s.isfinite
  | gimbal => item.gimbal_pitch_deg.isfinite || item.gimbal_yaw_deg.isfinite
  | delay => item.camera_action_delay_s.isfinite && prior
  | camera => decide (item.camera_action ≠ CameraAction.NONE)

/-- The rule a wire item comes from, told by its command. -/
def of_command (command : Nat) : Option Rule :=
  if command = MAV_CMD_NAV_WAYPOINT then some waypoint
  else if command = MAV_CMD_DO_CHANGE_SPEED then some speed
  else if command = MAV_CMD_DO_MOUNT_CONTROL then some gimbal
  else if command = MAV_CMD_NAV_LOITER_TIME then some delay
  else if command = MAV_CMD_IMAGE_START_CAPTURE ∨ command = MAV_CMD_IMAGE_STOP_CAPTURE ∨
      command = MAV_CMD_VIDEO_START_CAPTURE ∨ command = MAV_CMD_VIDEO_STOP_CAPTURE then
    some camera
  else none

end Rule

/-- Whether some item of index at most `i` has a finite position. -/
def position_seen (items : List MissionItem) (i : Nat) : Bool :=
  (items.take (i + 1)).any MissionItem.is_position_finite

/-- The most recent position wire item of a list of wire items: the last one whose
command is `NAV_WAYPOINT`. -/
def last_position_item (l : List mavlink_mission_item_int_t) :
    Option mavlink_mission_item_int_t :=
  l.reverse.find? (fun w => w.command = MAV_CMD_NAV_WAYPOINT)

/-- The wire items appended before the loop body starts on the item of index `i`. -/
def emitted_before (env : Env) (s : MissionImpl) (i : Nat) :
    List mavlink_mission_item_int_t :=
  (loop_before env s i).messages.filterMap mavlink_msg_mission_item_int_decode

/-- The frame and position a wire item carries. -/
def position_of (w : mavlink_mission_item_int_t) : LastPosition where
  frame := w.frame
  x := w.x
  y := w.y
  z := w.z

/-- The row of the camera table of section 4.6 of the spec for the camera action of
`item`, as a condition on the wire item `w`. -/
def camera_row (env : Env) (item : MissionItem) (w : mavlink_mission_item_int_t) : Prop :=
  match item.camera_action with
  | CameraAction.TAKE_PHOTO =>
    w.command = MAV_CMD_IMAGE_START_CAPTURE ∧ w.param1 = Flt.fin 0 ∧ w.param2 = Flt.fin 0 ∧
      w.param3 = Flt.fin 1
  | CameraAction.START_PHOTO_INTERVAL =>
    w.command = MAV_CMD_IMAGE_START_CAPTURE ∧ w.param1 = Flt.fin 0 ∧
      w.param2 = env.to_float item.camera_photo_interval_s ∧ w.param3 = Flt.fin 0
  | CameraAction.STOP_PHOTO_INTERVAL =>
    w.command = MAV_CMD_IMAGE_STOP_CAPTURE ∧ w.param1 = Flt.fin 0
  | CameraAction.START_VIDEO =>
    w.command = MAV_CMD_VIDEO_START_CAPTURE ∧ w.param1 = Flt.fin 0
  | CameraAction.STOP_VIDEO =>
    w.command = MAV_CMD_VIDEO_STOP_CAPTURE ∧ w.param1 = Flt.fin 0
  | CameraAction.NONE => False

instance (env : Env) (item : MissionItem) (w : mavlink_mission_item_int_t) :
    Decidable (camera_row env item w) := by
  unfold camera_row
  split <;> infer_instance

/-- The number of expansion rules of the spec that apply to the item of index `i`. -/
def applicable_rules (items : List MissionItem) (i : Nat) : Nat :=
  match items[i]? with
  | none => 0
  | some item => (Rule.all.filter (Rule.applies (position_seen items i) item)).length

/-- The sum over the items of a mission of the number of applicable expansion rules. -/
def rule_count (items : List MissionItem) : Nat :=
  ((List.range items.length).map (applicable_rules items)).sum

/-- The `MISSION_COUNT` message that announces `count` wire items. -/
def mission_count_message (env : Env) (count : Nat) : mavlink_message_t where
  sysid := env.own_system_id
  compid := env.own_component_id
  payload := Payload.mission_count env.target_system_id env.target_component_id count
    MAV_MISSION_TYPE_MISSION

/-- The mission of scenario S4: a waypoint with `TakePhoto` at (47.3977, 8.5456, 10 m),
then a plain waypoint at (47.398, 8.546, 10 m); the coordinates are the doubles that
these decimals denote. -/
def S4_mission : List MissionItem :=
  [waypoint_item (Flt.nearest_double (473977 / 10000)) (Flt.nearest_double (85456 / 10000))
     10 CameraAction.TAKE_PHOTO,
   waypoint_item (Flt.nearest_double (473980 / 10000)) (Flt.nearest_double (85460 / 10000))
     10 CameraAction.NONE]

/-- A mission like that of scenario S4 whose coordinates are recovered from their
integer encoding: a waypoint with `TakePhoto` at (47.3977, 8.5456, 10 m), then a plain
waypoint at (47.5, 8.25, 10 m). -/
def recoverable_mission : List MissionItem :=
  [waypoint_item (Flt.nearest_double (473977 / 10000)) (Flt.nearest_double (85456 / 10000))
     10 CameraAction.TAKE_PHOTO,
   waypoint_item (95 / 2) (33 / 4) 10 CameraAction.NONE]

/-- A logical item with a position and a speed. -/
def fast_item : MissionItem :=
  { waypoint_item 47 8 10 CameraAction.NONE with speed_m_s := Flt.fin 5 }

/-- The engine after a first mission of one item with position and speed has been
uploaded and accepted by the vehicle. -/
def engine_after_first_upload : MissionImpl :=
  (process_mission_ack example_env
    (upload_mission_async example_env idle_engine [fast_item] (some 1)).1
    { target_system := 255
      target_component := 190
      type := MAV_MISSION_ACCEPTED
      mission_type := MAV_MISSION_TYPE_MISSION }).1

/-- A second mission, of two plain waypoints. -/
def second_mission : List MissionItem :=
  [waypoint_item 47 8 10 CameraAction.NONE, waypoint_item 48 9 10 CameraAction.NONE]

/-- An engine in the middle of an upload of the S4 mission. -/
def uploading_engine : MissionImpl :=
  (upload_mission_async example_env idle_engine S4_mission (some 1)).1

/-- The result an upload reports for a `MISSION_ACK` of the given type. -/
def ack_result (type : Nat) : Result :=
  if type = MAV_MISSION_ACCEPTED then Result.SUCCESS
  else if type = MAV_MISSION_NO_SPACE then Result.TOO_MANY_MISSION_ITEMS
  else Result.ERROR

/-- The conditions under which the wire encoding carries a logical item without loss:
the position is finite and is recovered exactly from its integer encoding, every
optional value is finite or unset (NaN), and the photo interval is positive and
survives the narrowing to `float` when photos are taken at an interval, and is the
default otherwise. -/
def round_trips (env : Env) (item : MissionItem) : Prop :=
  item.is_position_finite = true ∧
  (Flt.of_int item.get_mavlink_x).scale (1 / 10000000) = item.latitude_deg ∧
  (Flt.of_int item.get_mavlink_y).scale (1 / 10000000) = item.longitude_deg ∧
  (item.speed_m_s.isfinite = true ∨ item.speed_m_s = Flt.nan) ∧
  (item.gimbal_pitch_deg.isfinite = true ∨ item.gimbal_yaw_deg.isfinite = true ∨
    (item.gimbal_pitch_deg = Flt.nan ∧ item.gimbal_yaw_deg = Flt.nan)) ∧
  (item.camera_action_delay_s.isfinite = true ∨ item.camera_action_delay_s = Flt.nan) ∧
  (if item.camera_action = CameraAction.START_PHOTO_INTERVAL then
    (env.to_float item.camera_photo_interval_s).gt_zero = true ∧
      env.to_float item.camera_photo_interval_s = item.camera_photo_interval_s
   else item.camera_photo_interval_s = env.default_photo_interval_s)

instance (env : Env) (item : MissionItem) : Decidable (round_trips env item) := by
  unfold round_trips
  infer_instance

/-- The camera fields the assembler sets from the camera wire item of `item`. -/
def with_camera (env : Env) (item base : MissionItem) : MissionItem :=
  match item.camera_action with
  | CameraAction.NONE => base
  | CameraAction.START_PHOTO_INTERVAL =>
    (base.set_camera_action CameraAction.START_PHOTO_INTERVAL).set_camera_photo_interval
      (env.to_float item.camera_photo_interval_s)
  | action => base.set_camera_action action

/-- The logical item the assembler builds from the wire items of `item`, starting from
the item `base`. -/
def reassemble (env : Env) (item base : MissionItem) : MissionItem :=
  let a := ((base.set_position
    ((Flt.of_int item.get_mavlink_x).scale (1 / 10000000))
    ((Flt.of_int item.get_mavlink_y).scale (1 / 10000000))).set_relative_altitude
    item.get_mavlink_z).set_fly_through (!(item.get_mavlink_param1 env).gt_zero)
  let b := if item.speed_m_s.isfinite then a.set_speed item.speed_m_s else a
  let c :=
    if item.gimbal_yaw_deg.isfinite || item.gimbal_pitch_deg.isfinite then
      b.set_gimbal_pitch_and_yaw item.gimbal_pitch_deg item.gimbal_yaw_deg
    else b
  let d :=
    if item.camera_action_delay_s.isfinite then
      c.set_camera_action_delay item.camera_action_delay_s
    else c
  with_camera env item d

/-- The loop variables of `assemble_mission_items` once the wire items of one more
logical item have been consumed. -/
def item_assembled (st : ItemsLoop) (item : MissionItem) : ItemsLoop where
  mission_items :=
    if st.have_set_position then st.mission_items ++ [st.new_mission_item]
    else st.mission_items
  new_mission_item := item
  have_set_position := true
  result := st.result

/-- A logical item with a camera action and no position. -/
def photo_only_item : MissionItem :=
  { MissionItem.fresh example_env with camera_action := CameraAction.TAKE_PHOTO }

/-- An engine that has `items` as its mission. -/
def engine_with (items : List MissionItem) : MissionImpl :=
  { idle_engine with _mission_items := items }

/-- An engine that has downloaded `wires` on behalf of the callback 7. -/
def engine_downloaded (wires : List mavlink_mission_item_int_t) : MissionImpl :=
  { idle_engine with
    _activity := Activity.GET_MISSION
    _mavlink_mission_items_downloaded := wires
    _mission_items_and_result_callback := some 7 }

/-- A logical item with a camera action delay and nothing else set. -/
def delayed_item : MissionItem :=
  { MissionItem.fresh example_env with camera_action_delay_s := Flt.fin 2 }

/-! ## Notions and concrete inputs for the download path -/

/-- A `MISSION_ACK` addressed to us by which the vehicle reports that it has no space. -/
def no_space_ack : mavlink_mission_ack_t where
  target_system := 255
  target_component := 190
  type := MAV_MISSION_NO_SPACE
  mission_type := MAV_MISSION_TYPE_MISSION

/-- An engine in the middle of a download started with callback 2 from an idle engine. -/
def downloading_engine : MissionImpl :=
  (download_mission_async example_env idle_engine (some 2)).1

/-- An engine in the middle of a download started with callback 2 after an upload with
callback 1 has been accepted. -/
def downloading_after_upload : MissionImpl :=
  (download_mission_async example_env engine_after_first_upload (some 2)).1

/-- The `MISSION_COUNT` message that announces `n` items to us. -/
def count_message (n : Nat) : mavlink_mission_count_t where
  target_system := 255
  target_component := 190
  count := n
  mission_type := MAV_MISSION_TYPE_MISSION

/-- A wire item of the given seq and command, with frame `GLOBAL_RELATIVE_ALT_INT` and
all parameters zero. -/
def plain_wire_item (seq command : Nat) : mavlink_mission_item_int_t where
  target_system := 255
  target_component := 190
  seq := seq
  frame := MAV_FRAME_GLOBAL_RELATIVE_ALT_INT
  command := command
  current := 0
  autocontinue := 1
  param1 := Flt.fin 0
  param2 := Flt.fin 0
  param3 := Flt.fin 0
  param4 := Flt.fin 0
  x := 470000000
  y := 80000000
  z := Flt.fin 10
  mission_type := MAV_MISSION_TYPE_MISSION

/-- The engine after `MISSION_COUNT(n)` has arrived in a download started with callback 2
from an idle engine. -/
def counting_engine (n : Nat) : MissionImpl :=
  (process_mission_count example_env downloading_engine (count_message n)).1

/-- The waypoint at (47, 8, 10 m) with the fly-through flag set. -/
def flown_through_waypoint : MissionItem :=
  { waypoint_item 47 8 10 CameraAction.NONE with fly_through := true }

/-- Whether the loop of `assemble_mission_items` maps the wire item without raising
`UNSUPPORTED`: the tests of lines 571-637 on its command and parameters. -/
def supported_wire_item (w : mavlink_mission_item_int_t) : Bool :=
  if w.command = MAV_CMD_NAV_WAYPOINT then
    decide (w.frame = MAV_FRAME_GLOBAL_RELATIVE_ALT_INT)
  else if w.command = MAV_CMD_DO_MOUNT_CONTROL then
    w.z.int_eq MAV_MOUNT_MODE_MAVLINK_TARGETING
  else if w.command = MAV_CMD_IMAGE_START_CAPTURE then
    (w.param2.gt_zero && w.param3.int_eq 0) || (w.param2.int_eq 0 && w.param3.int_eq 1)
  else if w.command = MAV_CMD_IMAGE_STOP_CAPTURE then true
  else if w.command = MAV_CMD_VIDEO_START_CAPTURE then true
  else if w.command = MAV_CMD_VIDEO_STOP_CAPTURE then true
  else if w.command = MAV_CMD_DO_CHANGE_SPEED then
    w.param1.int_eq 1 && w.param3.lt_zero && w.param4.int_eq 0
  else if w.command = MAV_CMD_NAV_LOITER_TIME then true
  else false

/-- The loop variables of `assemble_mission_items` on entry. -/
def items_loop_start (env : Env) : ItemsLoop where
  mission_items := []
  new_mission_item := MissionItem.fresh env
  have_set_position := false
  result := Result.SUCCESS

/-- The logical items `assemble_mission_items` builds from a list of wire items: those
the loop has closed and the one it is working on. -/
def assembled_items (env : Env) (l : List mavlink_mission_item_int_t) : List MissionItem :=
  (assemble_wire_items env l (items_loop_start env)).mission_items ++
    [(assemble_wire_items env l (items_loop_start env)).new_mission_item]

/-- The `MISSION_REQUEST_LIST` message the engine sends. -/
def request_list_message (env : Env) : mavlink_message_t where
  sysid := env.own_system_id
  compid := env.own_component_id
  payload := Payload.mission_request_list env.target_system_id env.target_component_id
    MAV_MISSION_TYPE_MISSION

/-- The `MISSION_REQUEST_INT` message by which the engine asks for the wire item `seq`. -/
def request_int_message (env : Env) (seq : Nat) : mavlink_message_t where
  sysid := env.own_system_id
  compid := env.own_component_id
  payload := Payload.mission_request_int env.target_system_id env.target_component_id seq
    MAV_MISSION_TYPE_MISSION

/-- The `MISSION_ACK` message of type ACCEPTED the engine sends. -/
def accepted_ack_message (env : Env) : mavlink_message_t where
  sysid := env.own_system_id
  compid := env.own_component_id
  payload := Payload.mission_ack env.target_system_id env.target_component_id
    MAV_MISSION_ACCEPTED MAV_MISSION_TYPE_MISSION

/-- The delivery of a list of `MISSION_ITEM_INT` messages, in order, to
`process_mission_item_int`; the effects are appended to those gathered so far. -/
def deliver_items (env : Env) (acc : MissionImpl × List Event)
    (items : List mavlink_mission_item_int_t) : MissionImpl × List Event :=
  items.foldl
    (fun acc item =>
      ((process_mission_item_int env acc.1 item).1,
       acc.2 ++ (process_mission_item_int env acc.1 item).2))
    acc

/-- A download session: `download_mission_async`, then the `MISSION_COUNT` of the
vehicle, then its `MISSION_ITEM_INT` messages in order. -/
def download_session (env : Env) (s : MissionImpl) (callback : Option Nat)
    (mission_count : mavlink_mission_count_t) (items : List mavlink_mission_item_int_t) :
    MissionImpl × List Event :=
  deliver_items env
    ((process_mission_count env (download_mission_async env s callback).1 mission_count).1,
     (download_mission_async env s callback).2 ++
       (process_mission_count env (download_mission_async env s callback).1
         mission_count).2)
    items

/-- The effects of asking for the wire items `first`, ..., `first + count - 1` one after
the other: each request is preceded by a refresh of the timeout. -/
def request_events (env : Env) (cookie : Option Nat) (first count : Nat) : List Event :=
  ((List.range' first count).map
    (fun k => [Event.refresh_timeout_handler cookie,
      Event.send_message (request_int_message env k)])).flatten

/-- The commands the assembler maps. -/
def supported_commands : List Nat :=
  [MAV_CMD_NAV_WAYPOINT, MAV_CMD_DO_MOUNT_CONTROL, MAV_CMD_IMAGE_START_CAPTURE,
   MAV_CMD_IMAGE_STOP_CAPTURE, MAV_CMD_VIDEO_START_CAPTURE, MAV_CMD_VIDEO_STOP_CAPTURE,
   MAV_CMD_DO_CHANGE_SPEED, MAV_CMD_NAV_LOITER_TIME]

/-- The parameters of the wire item are those of a row of the camera table of the spec
for `IMAGE_START_CAPTURE`: (0, 0, 1) for `TakePhoto`, (0, s, 0) for
`StartPhotoInterval(s)`. -/
def matches_capture_row (w : mavlink_mission_item_int_t) : Prop :=
  (w.param1 = Flt.fin 0 ∧ w.param2 = Flt.fin 0 ∧ w.param3 = Flt.fin 1) ∨
    (w.param1 = Flt.fin 0 ∧ w.param3 = Flt.fin 0)

instance (w : mavlink_mission_item_int_t) : Decidable (matches_capture_row w) := by
  unfold matches_capture_row
  infer_instance

/-- The parameters 2 and 3 of the wire item have one of the two forms the assembler
accepts for `IMAGE_START_CAPTURE`: a positive interval with an integer part of param3 of
0, or integer parts 0 and 1; param1 plays no part. -/
def capture_form (w : mavlink_mission_item_int_t) : Bool :=
  (w.param2.gt_zero && w.param3.int_eq 0) || (w.param2.int_eq 0 && w.param3.int_eq 1)

/-- The unsupported wire items as the spec lists them, given what it means for an
`IMAGE_START_CAPTURE` to match the table: a waypoint in another frame than
`GLOBAL_RELATIVE_ALT_INT`, a mount control in another mode than `MAVLINK_TARGETING`, an
`IMAGE_START_CAPTURE` that does not match, a `DO_CHANGE_SPEED` that is not of ground
speed type with an absolute value, a command outside the supported set. -/
def listed_unsupported (capture_matches : mavlink_mission_item_int_t → Prop)
    (w : mavlink_mission_item_int_t) : Prop :=
  (w.command = MAV_CMD_NAV_WAYPOINT ∧ w.frame ≠ MAV_FRAME_GLOBAL_RELATIVE_ALT_INT) ∨
  (w.command = MAV_CMD_DO_MOUNT_CONTROL ∧
    w.z.int_eq MAV_MOUNT_MODE_MAVLINK_TARGETING = false) ∨
  (w.command = MAV_CMD_IMAGE_START_CAPTURE ∧ ¬ capture_matches w) ∨
  (w.command = MAV_CMD_DO_CHANGE_SPEED ∧
    ¬ (w.param1.int_eq 1 = true ∧ w.param4.int_eq 0 = true)) ∨
  w.command ∉ supported_commands

instance (capture_matches : mavlink_mission_item_int_t → Prop)
    [DecidablePred capture_matches] (w : mavlink_mission_item_int_t) :
    Decidable (listed_unsupported capture_matches w) := by
  unfold listed_unsupported
  infer_instance

/-- An `IMAGE_START_CAPTURE` wire item that asks camera 1 for one photo: parameters
(1, 0, 1). -/
def camera_one_capture : mavlink_mission_item_int_t :=
  { plain_wire_item 1 MAV_CMD_IMAGE_START_CAPTURE with
    frame := MAV_FRAME_MISSION
    param1 := Flt.fin 1
    param3 := Flt.fin 1 }

/-- The wire list of a waypoint followed by an item whose command, 999, is outside the
supported set. -/
def unknown_command_list : List mavlink_mission_item_int_t :=
  [plain_wire_item 0 MAV_CMD_NAV_WAYPOINT, plain_wire_item 1 999]

/-! ## Notions and concrete inputs for assembly by waypoint, monitoring and commands -/

/-- The logical item a `NAV_WAYPOINT` wire item opens: a newly constructed item with the
position, the altitude and the fly-through flag of the wire item. -/
def waypoint_opened (env : Env) (wp : mavlink_mission_item_int_t) : MissionItem :=
  (((MissionItem.fresh env).set_position
    ((Flt.of_int wp.x).scale (1 / 10000000))
    ((Flt.of_int wp.y).scale (1 / 10000000))).set_relative_altitude
    wp.z).set_fly_through (!wp.param1.gt_zero)

/-- The logical item once the fields that a supported wire item other than a waypoint
carries have been set on it. -/
def with_wire_item (item : MissionItem) (w : mavlink_mission_item_int_t) : MissionItem :=
  if w.command = MAV_CMD_DO_MOUNT_CONTROL then
    item.set_gimbal_pitch_and_yaw w.param1 w.param3
  else if w.command = MAV_CMD_IMAGE_START_CAPTURE then
    if w.param2.gt_zero && w.param3.int_eq 0 then
      (item.set_camera_action CameraAction.START_PHOTO_INTERVAL).set_camera_photo_interval
        w.param2
    else item.set_camera_action CameraAction.TAKE_PHOTO
  else if w.command = MAV_CMD_IMAGE_STOP_CAPTURE then
    item.set_camera_action CameraAction.STOP_PHOTO_INTERVAL
  else if w.command = MAV_CMD_VIDEO_START_CAPTURE then
    item.set_camera_action CameraAction.START_VIDEO
  else if w.command = MAV_CMD_VIDEO_STOP_CAPTURE then
    item.set_camera_action CameraAction.STOP_VIDEO
  else if w.command = MAV_CMD_DO_CHANGE_SPEED then item.set_speed w.param2
  else if w.command = MAV_CMD_NAV_LOITER_TIME then item.set_camera_action_delay w.param1
  else item

/-- A wire list cut at its waypoints: the wire items before the first `NAV_WAYPOINT`, and
then one run for each `NAV_WAYPOINT`, made of that wire item and of the wire items between
it and the next `NAV_WAYPOINT`. -/
def split_at_waypoints :
    List mavlink_mission_item_int_t →
      List mavlink_mission_item_int_t × List (List mavlink_mission_item_int_t)
  | [] => ([], [])
  | w :: rest =>
    if w.command = MAV_CMD_NAV_WAYPOINT then
      ([], (w :: (split_at_waypoints rest).1) :: (split_at_waypoints rest).2)
    else (w :: (split_at_waypoints rest).1, (split_at_waypoints rest).2)

/-- The runs of a wire list, one for each `NAV_WAYPOINT`: the waypoint and the wire items
between it and the next one. -/
def waypoint_segments (l : List mavlink_mission_item_int_t) :
    List (List mavlink_mission_item_int_t) :=
  (split_at_waypoints l).2

/-- The logical item of a run: the one its waypoint opens, with the fields of the other
wire items of the run set on it in order. -/
def segment_item (env : Env) : List mavlink_mission_item_int_t → MissionItem
  | [] => MissionItem.fresh env
  | wp :: others => others.foldl with_wire_item (waypoint_opened env wp)

/-- A downloaded list of four supported wire items: a waypoint, a speed command, a second
waypoint and a photo command. -/
def two_segment_list : List mavlink_mission_item_int_t :=
  [plain_wire_item 0 MAV_CMD_NAV_WAYPOINT,
   { plain_wire_item 1 MAV_CMD_DO_CHANGE_SPEED with
     param1 := Flt.fin 1, param2 := Flt.fin 5, param3 := Flt.fin (-1) },
   { plain_wire_item 2 MAV_CMD_NAV_WAYPOINT with x := 480000000 },
   { plain_wire_item 3 MAV_CMD_IMAGE_START_CAPTURE with param3 := Flt.fin 1 }]

/-- A `MISSION_ACK` addressed to us by which the vehicle accepts the mission. -/
def accepted_ack : mavlink_mission_ack_t where
  target_system := 255
  target_component := 190
  type := MAV_MISSION_ACCEPTED
  mission_type := MAV_MISSION_TYPE_MISSION

/-- The engine after the S4 mission has been uploaded and accepted by the vehicle: three
wire items, the first two for the logical item 0 and the third for the logical item 1. -/
def engine_after_S4_upload : MissionImpl :=
  (process_mission_ack example_env uploading_engine accepted_ack).1

/-- The engine after the S4 mission has been accepted and the vehicle has reported that
it reached the wire item 2, the last one, without a `MISSION_CURRENT` having arrived. -/
def reached_last_engine : MissionImpl :=
  (process_mission_item_reached engine_after_S4_upload { seq := 2 }).1

/-- The engine after the S4 mission has been accepted and the vehicle has reported
`MISSION_CURRENT(2)` and then that it reached the wire item 2. -/
def flown_engine : MissionImpl :=
  (process_mission_item_reached
    (process_mission_current engine_after_S4_upload { seq := 2 }).1 { seq := 2 }).1

/-- The `MISSION_SET_CURRENT` message that carries `seq`. -/
def set_current_message (env : Env) (seq : Nat) : mavlink_message_t where
  sysid := env.own_system_id
  compid := env.own_component_id
  payload := Payload.mission_set_current env.target_system_id env.target_component_id seq

/-- The engine after the mission of 65537 waypoints has been uploaded and accepted by the
vehicle. -/
def engine_after_long_upload : MissionImpl :=
  (process_mission_ack example_env
    (upload_mission_async example_env idle_engine long_mission (some 1)).1 accepted_ack).1

/-- The index map that sends each of the wire seqs 0, ..., n - 1 to itself. -/
def diagonal_map (n : Nat) : IndexMap :=
  (List.range n).map (fun (k : Nat) => ((k : Int), (k : Int)))

/-- The engine after `set_current_mission_item_async(1)` with callback 3 has sent
`MISSION_SET_CURRENT(2)` for the accepted S4 mission. -/
def setting_current_engine : MissionImpl :=
  (set_current_mission_item_async example_env engine_after_S4_upload 1 (some 3)).1

/-- The `MISSION_ACK` message of type UNSUPPORTED the engine sends. -/
def unsupported_ack_message (env : Env) : mavlink_message_t where
  sysid := env.own_system_id
  compid := env.own_component_id
  payload := Payload.mission_ack env.target_system_id env.target_component_id
    MAV_MISSION_UNSUPPORTED MAV_MISSION_TYPE_MISSION

/-- A `MISSION_REQUEST_INT` addressed to us that asks for the wire item `seq`. -/
def request_for (seq : Nat) : mavlink_mission_request_int_t where
  target_system := 255
  target_component := 190
  seq := seq
  mission_type := MAV_MISSION_TYPE_MISSION

/-- The delivery of a list of command results, in order, to `receive_command_result` with
the bound callback `callback`; the effects are appended to those gathered so far. -/
def deliver_command_results (callback : Option Nat) (acc : MissionImpl × List Event)
    (results : List CommandResult) : MissionImpl × List Event :=
  results.foldl
    (fun acc result =>
      ((receive_command_result acc.1 result callback).1,
       acc.2 ++ (receive_command_result acc.1 result callback).2))
    acc

/-- The engine after `start_mission_async` with callback 1 on an idle engine. -/
def starting_engine : MissionImpl :=
  (start_mission_async example_env idle_engine (some 1)).1

/-- The peer a connection has stored. -/
def stored_peer (c : UdpConnection) : String × Int :=
  (c._remote_ip, c._remote_port_number)

/-- The source of a datagram. -/
def source_of (d : Datagram) : String × Int :=
  (d.src_ip, (d.src_port : Int))

/-- A connection whose peer is 192.168.1.2:14550. -/
def connected_udp : UdpConnection where
  _remote_ip := "192.168.1.2"
  _remote_port_number := 14550

/-- A datagram of three bytes from 192.168.1.7:14551. -/
def roaming_datagram : Datagram where
  recv_len := 3
  src_ip := "192.168.1.7"
  src_port := 14551
  buffer := [253, 0, 0]

/-! ## Notions and concrete inputs for addressing, stale state and the follow-me plugin -/

/-- A connection that has not received any datagram yet. -/
def fresh_udp : UdpConnection where
  _remote_ip := ""
  _remote_port_number := 0

/-- Whether the peer of a connection is unknown: the stored ip is empty or the stored
port is 0. -/
def peer_unknown (c : UdpConnection) : Prop :=
  c._remote_ip = "" ∨ c._remote_port_number = 0

instance (c : UdpConnection) : Decidable (peer_unknown c) := by
  unfold peer_unknown
  infer_instance

/-- A `MISSION_ACK` of type ACCEPTED for the component 190 of the system 7. -/
def foreign_ack : mavlink_mission_ack_t where
  target_system := 7
  target_component := 190
  type := MAV_MISSION_ACCEPTED
  mission_type := MAV_MISSION_TYPE_MISSION

/-- A `MISSION_REQUEST_INT` for the wire item 0, sent to the component 190 of the
system 7. -/
def foreign_request : mavlink_mission_request_int_t where
  target_system := 7
  target_component := 190
  seq := 0
  mission_type := MAV_MISSION_TYPE_MISSION

/-- The engine after a download of one waypoint, started with callback 2 from an idle
engine, has completed. -/
def downloaded_engine : MissionImpl :=
  (download_session example_env idle_engine (some 2) (count_message 1)
    [plain_wire_item 0 MAV_CMD_NAV_WAYPOINT]).1

/-- A mission of three plain waypoints. -/
def three_waypoints : List MissionItem :=
  [waypoint_item 47 8 10 CameraAction.NONE, waypoint_item 48 9 10 CameraAction.NONE,
   waypoint_item 49 10 10 CameraAction.NONE]

/-- The engine after `items` has been uploaded with callback 1 and accepted by the
vehicle. -/
def upload_and_accept (s : MissionImpl) (items : List MissionItem) : MissionImpl :=
  (process_mission_ack example_env (upload_mission_async example_env s items (some 1)).1
    accepted_ack).1

/-- The engine after a mission of two waypoints and then a mission of one waypoint have
been uploaded and accepted. -/
def engine_after_shorter_upload : MissionImpl :=
  upload_and_accept (upload_and_accept idle_engine second_mission)
    [waypoint_item 47 8 10 CameraAction.NONE]

/-- The engine after a mission of three waypoints and then a mission of the one item to
which all five rules apply have been uploaded and accepted, and the vehicle has reported
`MISSION_CURRENT(2)`. -/
def engine_flying_full_item : MissionImpl :=
  (process_mission_current
    (upload_and_accept (upload_and_accept idle_engine three_waypoints) [full_item])
    { seq := 2 }).1

/-- An environment used for concrete inputs of the follow-me plugin. -/
def example_follow_env : FollowEnv where
  own_system_id := 255
  own_component_id := 190
  is_armed := true
  send_ok := true
  command_result := CommandResult.SUCCESS
  elapsed_msec := 0
  to_float := fun v => v

/-- A configuration within all limits, with direction `BEHIND`. -/
def behind_config : Config where
  min_height_m := Flt.fin 8
  follow_dist_m := Flt.fin 8
  follow_direction := FollowDirection.BEHIND
  responsiveness := Flt.fin (1 / 2)

/-- A configuration within all limits, with direction `NONE`. -/
def none_direction_config : Config :=
  { behind_config with follow_direction := FollowDirection.NONE }

/-- A configuration whose minimum height is NaN and whose other fields are within the
limits. -/
def nan_height_config : Config :=
  { behind_config with min_height_m := Flt.nan }

/-- A configuration whose minimum height, 2 m, is below the limit. -/
def low_config : Config :=
  { behind_config with min_height_m := Flt.fin 2 }

/-- A target location that is not set. -/
def unset_location : TargetLocation where
  latitude_deg := Flt.nan
  longitude_deg := Flt.nan
  absolute_altitude_m := Flt.nan
  velocity_x_m_s := Flt.nan
  velocity_y_m_s := Flt.nan
  velocity_z_m_s := Flt.nan

/-- A target location at (47, 8, 500 m). -/
def sample_location : TargetLocation :=
  { unset_location with
    latitude_deg := Flt.fin 47
    longitude_deg := Flt.fin 8
    absolute_altitude_m := Flt.fin 500 }

/-- A plugin that is not active, holds `behind_config` and has no target location. -/
def idle_follow_me : FollowMeImpl where
  _mode := Mode.NOT_ACTIVE
  _config := behind_config
  _curr_target_location := unset_location
  _last_location := unset_location
  _estimatation_capabilities := 0
  _curr_target_location_cookie := none

/-- A scheduler with no registered call. -/
def empty_call_every : CallEvery where
  registered := []
  next_cookie := 0

/-- A `HEARTBEAT` of an armed vehicle in the PX4 mode AUTO / FOLLOW_TARGET. -/
def follow_target_heartbeat : mavlink_heartbeat_t where
  custom_mode := 4 * 65536 + 8 * 16777216
  base_mode := 129

/-- A `HEARTBEAT` of an armed vehicle in the PX4 mode AUTO / LOITER. -/
def loiter_heartbeat : mavlink_heartbeat_t where
  custom_mode := 4 * 65536 + 3 * 16777216
  base_mode := 129

/-- Whether a `HEARTBEAT` has the custom mode flag set and tells the PX4 main mode AUTO
with the sub mode FOLLOW_TARGET. -/
def tells_follow_target (h : mavlink_heartbeat_t) : Prop :=
  h.base_mode.testBit 0 = true ∧ px4_main_mode h.custom_mode = PX4_CUSTOM_MAIN_MODE_AUTO ∧
    px4_sub_mode h.custom_mode = PX4_CUSTOM_SUB_MODE_AUTO_FOLLOW_TARGET

instance (h : mavlink_heartbeat_t) : Decidable (tells_follow_target h) := by
  unfold tells_follow_target
  infer_instance

/-- The plugin after the vehicle has told that it is in FOLLOW_TARGET mode. -/
def active_follow_me : FollowMeImpl :=
  (FollowMeImpl.process_heartbeat idle_follow_me empty_call_every
    follow_target_heartbeat).1

/-- The plugin and the scheduler after `count` calls of `set_curr_target_location` with
the sample location, made on the active plugin with an empty scheduler. -/
def after_locations (count : Nat) : FollowMeImpl × CallEvery :=
  (List.range count).foldl
    (fun acc _ =>
      ((FollowMeImpl.set_curr_target_location example_follow_env acc.1 acc.2
          sample_location).1,
       (FollowMeImpl.set_curr_target_location example_follow_env acc.1 acc.2
          sample_location).2.1))
    (active_follow_me, empty_call_every)

/-- The invocation of the function bound into a parameter request, with the result
`success` of the request. -/
def run_param_callback (s : FollowMeImpl) (success : Bool) : ParamCallback → FollowMeImpl
  | ParamCallback.receive_param_min_height v =>
    FollowMeImpl.receive_param_min_height s success v
  | ParamCallback.receive_param_follow_distance v =>
    FollowMeImpl.receive_param_follow_distance s success v
  | ParamCallback.receive_param_follow_direction v =>
    FollowMeImpl.receive_param_follow_direction s success v
  | ParamCallback.receive_param_responsiveness v =>
    FollowMeImpl.receive_param_responsiveness s success v

/-- The completion, in order and with the result `success`, of the parameter requests
of a list of effects. -/
def complete_requests (s : FollowMeImpl) (success : Bool) (effects : List FollowEffect) :
    FollowMeImpl :=
  effects.foldl
    (fun acc effect =>
      match effect with
      | FollowEffect.set_param_float_async _ _ callback =>
        run_param_callback acc success callback
      | FollowEffect.set_param_int_async _ _ callback =>
        run_param_callback acc success callback
      | _ => acc)
    s

/-- The plugin after `set_config(config)` and the successful completion of the parameter
requests it made. -/
def configured (s : FollowMeImpl) (config : Config) : FollowMeImpl :=
  complete_requests (FollowMeImpl.set_config s config).2.1 true
    (FollowMeImpl.set_config s config).2.2

/-- The four parameter requests of `set_config`, as the claim lists them: the names and
the values of the configuration, each with the function that stores the value. -/
def config_requests (config : Config) : List FollowEffect :=
  [FollowEffect.set_param_float_async "NAV_MIN_FT_HT" config.min_height_m
     (ParamCallback.receive_param_min_height config.min_height_m),
   FollowEffect.set_param_float_async "NAV_FT_DST" config.follow_dist_m
     (ParamCallback.receive_param_follow_distance config.follow_dist_m),
   FollowEffect.set_param_int_async "NAV_FT_FS" config.follow_direction
     (ParamCallback.receive_param_follow_direction config.follow_direction),
   FollowEffect.set_param_float_async "NAV_FT_RS" config.responsiveness
     (ParamCallback.receive_param_responsiveness config.responsiveness)]

/-- The condition of the claim on a configuration: the height and the distance are at
least their minimum, the direction lies between `FRONT_RIGHT` and `NONE`, the
responsiveness lies between its minimum and its maximum. -/
def config_in_range (c : Config) : Prop :=
  c.min_height_m.ge Config.MIN_HEIGHT_M = true ∧
    c.follow_dist_m.ge Config.MIN_FOLLOW_DIST_M = true ∧
    (FollowDirection.FRONT_RIGHT ≤ c.follow_direction ∧
      c.follow_direction ≤ FollowDirection.NONE) ∧
    (Config.MIN_RESPONSIVENESS.le c.responsiveness = true ∧
      c.responsiveness.le Config.MAX_RESPONSIVENESS = true)

instance (c : Config) : Decidable (config_in_range c) := by
  unfold config_in_range
  infer_instance

/-! ## Properties of the expansion loop -/


theorem emit_messages (env : Env) (st : AssembleLoop) (frame command autocontinue : Nat)
    (p1 p2 p3 p4 : Flt) (x y : Int) (z : Flt) :
    (emit env st frame command autocontinue p1 p2 p3 p4 x y z).messages =
      st.messages ++
        [packed env
          (wire env st.messages.length frame command autocontinue p1 p2 p3 p4 x y z)] := by
  rfl

theorem emit_last (env : Env) (st : AssembleLoop) (frame command autocontinue : Nat)
    (p1 p2 p3 p4 : Flt) (x y : Int) (z : Flt) :
    (emit env st frame command autocontinue p1 p2 p3 p4 x y z).last_position =
      st.last_position := rfl

theorem emit_item_i (env : Env) (st : AssembleLoop) (frame command autocontinue : Nat)
    (p1 p2 p3 p4 : Flt) (x y : Int) (z : Flt) :
    (emit env st frame command autocontinue p1 p2 p3 p4 x y z).item_i = st.item_i := rfl

theorem emit_indices (env : Env) (st : AssembleLoop) (frame command autocontinue : Nat)
    (p1 p2 p3 p4 : Flt) (x y : Int) (z : Flt) :
    (emit env st frame command autocontinue p1 p2 p3 p4 x y z).indices =
      st.indices.insert st.messages.length st.item_i := rfl

theorem emit_position_messages (env : Env) (item : MissionItem) (st : AssembleLoop) :
    (emit_position env item st).messages =
      st.messages ++ (position_items env st.messages.length item).map (packed env) := by
  unfold emit_position position_items
  split <;> simp [emit_messages]

theorem emit_position_last (env : Env) (item : MissionItem) (st : AssembleLoop) :
    (emit_position env item st).last_position = next_last st.last_position item := by
  unfold emit_position next_last
  split <;> simp

theorem emit_speed_messages (env : Env) (item : MissionItem) (st : AssembleLoop) :
    (emit_speed env item st).messages =
      st.messages ++ (speed_items env st.messages.length item).map (packed env) := by
  unfold emit_speed speed_items
  split <;> simp [emit_messages]

theorem emit_speed_last (env : Env) (item : MissionItem) (st : AssembleLoop) :
    (emit_speed env item st).last_position = st.last_position := by
  unfold emit_speed
  split <;> simp [emit_last]

theorem emit_gimbal_messages (env : Env) (item : MissionItem) (st : AssembleLoop) :
    (emit_gimbal env item st).messages =
      st.messages ++ (gimbal_items env st.messages.length item).map (packed env) := by
  unfold emit_gimbal gimbal_items
  split <;> simp [emit_messages]

theorem emit_gimbal_last (env : Env) (item : MissionItem) (st : AssembleLoop) :
    (emit_gimbal env item st).last_position = st.last_position := by
  unfold emit_gimbal
  split <;> simp [emit_last]

theorem emit_delay_messages (env : Env) (item : MissionItem) (st : AssembleLoop) :
    (emit_delay env item st).messages =
      st.messages ++
        (delay_items env st.messages.length st.last_position item).map (packed env) := by
  unfold emit_delay delay_items
  split
  · cases st.last_position <;> simp [emit_messages]
  · simp

theorem emit_delay_last (env : Env) (item : MissionItem) (st : AssembleLoop) :
    (emit_delay env item st).last_position = st.last_position := by
  unfold emit_delay
  split
  · cases h : st.last_position <;> simp [emit_last, h]
  · simp

theorem emit_camera_messages (env : Env) (item : MissionItem) (st : AssembleLoop) :
    (emit_camera env item st).messages =
      st.messages ++ (camera_items env st.messages.length item).map (packed env) := by
  unfold emit_camera camera_items
  cases item.camera_action <;> simp [emit_messages]

theorem emit_camera_last (env : Env) (item : MissionItem) (st : AssembleLoop) :
    (emit_camera env item st).last_position = st.last_position := by
  unfold emit_camera
  cases item.camera_action <;> simp [emit_last]

theorem assemble_item_messages (env : Env) (st : AssembleLoop) (item : MissionItem) :
    (assemble_item env st item).messages =
      st.messages ++
        (item_wire_items env st.messages.length st.last_position item).map (packed env) := by
  simp only [assemble_item, item_wire_items, emit_camera_messages, emit_delay_messages,
    emit_gimbal_messages, emit_speed_messages, emit_position_messages, emit_delay_last,
    emit_gimbal_last, emit_speed_last, emit_position_last, List.length_append,
    List.length_map, List.map_append, List.append_assoc, Nat.add_assoc]

theorem assemble_item_last (env : Env) (st : AssembleLoop) (item : MissionItem) :
    (assemble_item env st item).last_position = next_last st.last_position item := by
  simp only [assemble_item, emit_camera_last, emit_delay_last, emit_gimbal_last,
    emit_speed_last, emit_position_last]

theorem decode_packed (env : Env) (l : List mavlink_mission_item_int_t) :
    (l.map (packed env)).filterMap mavlink_msg_mission_item_int_decode = l := by
  induction l with
  | nil => rfl
  | cons a l ih => simpa [packed, mavlink_msg_mission_item_int_decode] using ih

theorem foldl_messages (env : Env) (items : List MissionItem) (st : AssembleLoop) :
    (items.foldl (assemble_item env) st).messages =
      st.messages ++
        (mission_wire_items env st.messages.length st.last_position items).map
          (packed env) := by
  induction items generalizing st with
  | nil => simp [mission_wire_items]
  | cons item rest ih =>
    simp only [List.foldl_cons, ih, assemble_item_messages, assemble_item_last,
      mission_wire_items, List.length_append, List.length_map, List.map_append,
      List.append_assoc]

theorem foldl_last (env : Env) (items : List MissionItem) (st : AssembleLoop) :
    (items.foldl (assemble_item env) st).last_position =
      items.foldl next_last st.last_position := by
  induction items generalizing st with
  | nil => rfl
  | cons item rest ih => simp only [List.foldl_cons, ih, assemble_item_last]

theorem wire_items_eq (env : Env) (s : MissionImpl) :
    wire_items (assemble_mavlink_messages env s) =
      mission_wire_items env 0 none s._mission_items := by
  simp only [wire_items, assemble_mavlink_messages, foldl_messages, assemble_start,
    List.nil_append, List.length_nil, decode_packed]

theorem emitted_for_eq (env : Env) (s : MissionImpl) (i : Nat) (item : MissionItem)
    (h : s._mission_items[i]? = some item) :
    emitted_for env s i =
      item_wire_items env (loop_before env s i).messages.length
        (loop_before env s i).last_position item := by
  simp only [emitted_for, h, assemble_item_messages, List.drop_left, decode_packed]

theorem numbered_append (n : Nat) (l1 l2 : List mavlink_mission_item_int_t)
    (h1 : Numbered n l1) (h2 : Numbered (n + l1.length) l2) : Numbered n (l1 ++ l2) := by
  induction l1 generalizing n with
  | nil => simpa using h2
  | cons a l ih =>
    refine ⟨h1.1, ih (n + 1) h1.2 ?_⟩
    have : n + 1 + l.length = n + (a :: l).length := by simp; omega
    rw [this]; exact h2

theorem numbered_position (env : Env) (n : Nat) (item : MissionItem) :
    Numbered n (position_items env n item) := by
  unfold position_items; split <;> simp [Numbered, wire]

theorem numbered_speed (env : Env) (n : Nat) (item : MissionItem) :
    Numbered n (speed_items env n item) := by
  unfold speed_items; split <;> simp [Numbered, wire]

theorem numbered_gimbal (env : Env) (n : Nat) (item : MissionItem) :
    Numbered n (gimbal_items env n item) := by
  unfold gimbal_items; split <;> simp [Numbered, wire]

theorem numbered_delay (env : Env) (n : Nat) (last : Option LastPosition)
    (item : MissionItem) : Numbered n (delay_items env n last item) := by
  unfold delay_items; split
  · cases last <;> simp [Numbered, wire]
  · simp [Numbered]

theorem numbered_camera (env : Env) (n : Nat) (item : MissionItem) :
    Numbered n (camera_items env n item) := by
  unfold camera_items; cases item.camera_action <;> simp [Numbered, wire]

theorem numbered_item (env : Env) (n : Nat) (last : Option LastPosition)
    (item : MissionItem) : Numbered n (item_wire_items env n last item) := by
  unfold item_wire_items
  refine numbered_append _ _ _ (numbered_position env n item) ?_
  refine numbered_append _ _ _ (numbered_speed env _ item) ?_
  refine numbered_append _ _ _ (numbered_gimbal env _ item) ?_
  exact numbered_append _ _ _ (numbered_delay env _ _ item) (numbered_camera env _ item)

theorem numbered_mission (env : Env) (items : List MissionItem) (n : Nat)
    (last : Option LastPosition) : Numbered n (mission_wire_items env n last items) := by
  induction items generalizing n last with
  | nil => simp [mission_wire_items, Numbered]
  | cons item rest ih =>
    exact numbered_append _ _ _ (numbered_item env n last item) (ih _ _)

theorem numbered_seqs (n : Nat) (l : List mavlink_mission_item_int_t) (h : Numbered n l) :
    l.map (fun w => w.seq) = (List.range l.length).map (fun k => wrap_uint16 (n + k)) := by
  induction l generalizing n with
  | nil => simp
  | cons a l ih =>
    have := ih (n + 1) h.2
    simp only [List.map_cons, List.length_cons, List.range_succ_eq_map, this, h.1,
      List.map_map, Nat.add_zero]
    congr 1
    apply List.map_congr_left
    intro k _
    simp [Function.comp]; congr 1; omega

theorem waypoint_only_items (env : Env) (n : Nat) (last : Option LastPosition) (lat lon alt : ℚ) :
    (item_wire_items env n last (waypoint_item lat lon alt CameraAction.NONE)).length = 1 := by
  simp [item_wire_items, position_items, speed_items, gimbal_items, delay_items,
    camera_items, waypoint_item, MissionItem.fresh, MissionItem.is_position_finite, Flt.isfinite]

theorem replicate_waypoints_length (env : Env) (m n : Nat) (last : Option LastPosition)
    (lat lon alt : ℚ) :
    (mission_wire_items env n last
      (List.replicate m (waypoint_item lat lon alt CameraAction.NONE))).length = m := by
  induction m generalizing n last with
  | zero => simp [mission_wire_items]
  | succ m ih =>
    simp only [List.replicate_succ, mission_wire_items, List.length_append, ih,
      waypoint_only_items]
    omega

theorem filter_all (p : Rule → Bool) :
    (Rule.all.filter p).map some =
      (if p Rule.waypoint then [some Rule.waypoint] else []) ++
      ((if p Rule.speed then [some Rule.speed] else []) ++
      ((if p Rule.gimbal then [some Rule.gimbal] else []) ++
      ((if p Rule.delay then [some Rule.delay] else []) ++
      (if p Rule.camera then [some Rule.camera] else [])))) := by
  simp only [Rule.all, List.filter]
  cases p Rule.waypoint <;> cases p Rule.speed <;> cases p Rule.gimbal <;>
  cases p Rule.delay <;> cases p Rule.camera <;> rfl

theorem position_rule (env : Env) (n : Nat) (item : MissionItem) :
    (position_items env n item).map (fun w => Rule.of_command w.command) =
      if item.is_position_finite then [some Rule.waypoint] else [] := by
  unfold position_items; split <;> simp [wire, Rule.of_command, MissionItem.get_mavlink_cmd]

theorem speed_rule (env : Env) (n : Nat) (item : MissionItem) :
    (speed_items env n item).map (fun w => Rule.of_command w.command) =
      if item.speed_m_s.isfinite then [some Rule.speed] else [] := by
  unfold speed_items; split <;>
  simp [wire, Rule.of_command, MAV_CMD_NAV_WAYPOINT, MAV_CMD_DO_CHANGE_SPEED]

theorem gimbal_rule (env : Env) (n : Nat) (item : MissionItem) :
    (gimbal_items env n item).map (fun w => Rule.of_command w.command) =
      if item.gimbal_pitch_deg.isfinite || item.gimbal_yaw_deg.isfinite then
        [some Rule.gimbal] else [] := by
  unfold gimbal_items
  cases item.gimbal_pitch_deg.isfinite <;> cases item.gimbal_yaw_deg.isfinite <;>
  simp [wire, Rule.of_command, MAV_CMD_NAV_WAYPOINT, MAV_CMD_DO_CHANGE_SPEED,
    MAV_CMD_DO_MOUNT_CONTROL]

theorem delay_rule (env : Env) (n : Nat) (last : Option LastPosition) (item : MissionItem) :
    (delay_items env n last item).map (fun w => Rule.of_command w.command) =
      if item.camera_action_delay_s.isfinite && last.isSome then
        [some Rule.delay] else [] := by
  unfold delay_items
  cases item.camera_action_delay_s.isfinite <;> cases last <;>
  simp [wire, Rule.of_command, MAV_CMD_NAV_WAYPOINT, MAV_CMD_DO_CHANGE_SPEED,
    MAV_CMD_DO_MOUNT_CONTROL, MAV_CMD_NAV_LOITER_TIME]

theorem camera_rule (env : Env) (n : Nat) (item : MissionItem) :
    (camera_items env n item).map (fun w => Rule.of_command w.command) =
      if decide (item.camera_action ≠ CameraAction.NONE) then [some Rule.camera] else [] := by
  unfold camera_items
  cases item.camera_action <;>
  simp [wire, Rule.of_command, MAV_CMD_NAV_WAYPOINT, MAV_CMD_DO_CHANGE_SPEED,
    MAV_CMD_DO_MOUNT_CONTROL, MAV_CMD_NAV_LOITER_TIME, MAV_CMD_IMAGE_START_CAPTURE,
    MAV_CMD_IMAGE_STOP_CAPTURE, MAV_CMD_VIDEO_START_CAPTURE, MAV_CMD_VIDEO_STOP_CAPTURE]

theorem item_rules (env : Env) (n : Nat) (last : Option LastPosition) (item : MissionItem) :
    (item_wire_items env n last item).map (fun w => Rule.of_command w.command) =
      (Rule.all.filter (Rule.applies (next_last last item).isSome item)).map some := by
  rw [filter_all]
  simp only [item_wire_items, List.map_append, position_rule, speed_rule, gimbal_rule,
    delay_rule, camera_rule, Rule.applies]

theorem foldl_next_last_isSome (items : List MissionItem) (last : Option LastPosition) :
    (items.foldl next_last last).isSome =
      (last.isSome || items.any MissionItem.is_position_finite) := by
  induction items generalizing last with
  | nil => simp
  | cons item rest ih =>
    simp only [List.foldl_cons, ih, List.any_cons, next_last]
    cases item.is_position_finite <;> simp

theorem loop_before_last (env : Env) (s : MissionImpl) (i : Nat) :
    (loop_before env s i).last_position = (s._mission_items.take i).foldl next_last none := by
  simp only [loop_before, foldl_last, assemble_start]

theorem loop_before_length (env : Env) (s : MissionImpl) (i : Nat) :
    (loop_before env s i).messages.length =
      (mission_wire_items env 0 none (s._mission_items.take i)).length := by
  simp only [loop_before, foldl_messages, assemble_start, List.nil_append, List.length_map,
    List.length_nil]

theorem next_last_seen (env : Env) (s : MissionImpl) (i : Nat) (item : MissionItem)
    (h : s._mission_items[i]? = some item) :
    (next_last (loop_before env s i).last_position item).isSome =
      position_seen s._mission_items i := by
  have ht : s._mission_items.take (i + 1) = s._mission_items.take i ++ [item] := by
    rw [List.take_succ, h]; rfl
  rw [loop_before_last, position_seen, ht, List.any_append]
  have := foldl_next_last_isSome (s._mission_items.take i ++ [item]) none
  rw [List.foldl_append] at this
  simpa using this

theorem mission_wire_items_append (env : Env) (pre rest : List MissionItem) (n : Nat)
    (last : Option LastPosition) :
    mission_wire_items env n last (pre ++ rest) =
      mission_wire_items env n last pre ++
        mission_wire_items env (n + (mission_wire_items env n last pre).length)
          (pre.foldl next_last last) rest := by
  induction pre generalizing n last with
  | nil => simp [mission_wire_items]
  | cons item pre ih =>
    rw [List.cons_append]
    simp only [mission_wire_items]
    rw [ih]
    simp only [List.append_assoc, List.length_append, List.foldl_cons, Nat.add_assoc]

theorem emitted_for_concat (env : Env) (s : MissionImpl) (k : Nat)
    (hk : k ≤ s._mission_items.length) :
    mission_wire_items env 0 none (s._mission_items.take k) =
      ((List.range k).map (emitted_for env s)).flatten := by
  induction k with
  | zero => simp [mission_wire_items]
  | succ k ih =>
    have hlt : k < s._mission_items.length := hk
    have hget : s._mission_items[k]? = some s._mission_items[k] := List.getElem?_eq_getElem hlt
    have ht : s._mission_items.take (k + 1) = s._mission_items.take k ++ [s._mission_items[k]] := by
      rw [List.take_succ, hget]; rfl
    rw [ht, mission_wire_items_append, List.range_succ, List.map_append,
      List.flatten_append, ← ih (Nat.le_of_lt hlt)]
    simp only [List.map_cons, List.map_nil, List.flatten_cons, List.flatten_nil,
      List.append_nil, emitted_for_eq env s k _ hget, loop_before_length, loop_before_last,
      mission_wire_items, Nat.zero_add]

theorem last_position_item_append_other (l : List mavlink_mission_item_int_t)
    (w : mavlink_mission_item_int_t) (h : w.command ≠ MAV_CMD_NAV_WAYPOINT) :
    last_position_item (l ++ [w]) = last_position_item l := by
  simp [last_position_item, List.find?, h]

theorem last_position_item_append_waypoint (l : List mavlink_mission_item_int_t)
    (w : mavlink_mission_item_int_t) (h : w.command = MAV_CMD_NAV_WAYPOINT) :
    last_position_item (l ++ [w]) = some w := by
  simp [last_position_item, List.find?, h]

theorem last_position_item_append_others (l l2 : List mavlink_mission_item_int_t)
    (h : ∀ w ∈ l2, w.command ≠ MAV_CMD_NAV_WAYPOINT) :
    last_position_item (l ++ l2) = last_position_item l := by
  induction l2 using List.reverseRecOn with
  | nil => simp
  | append_singleton l2 w ih =>
    rw [← List.append_assoc, last_position_item_append_other _ _ (h w (by simp))]
    exact ih (fun v hv => h v (by simp [hv]))

theorem speed_items_kind (env : Env) (n : Nat) (item : MissionItem) :
    ∀ w ∈ speed_items env n item, Rule.of_command w.command = some Rule.speed := by
  unfold speed_items; split <;>
  simp [wire, Rule.of_command, MAV_CMD_NAV_WAYPOINT, MAV_CMD_DO_CHANGE_SPEED]

theorem gimbal_items_kind (env : Env) (n : Nat) (item : MissionItem) :
    ∀ w ∈ gimbal_items env n item, Rule.of_command w.command = some Rule.gimbal := by
  unfold gimbal_items; split <;>
  simp [wire, Rule.of_command, MAV_CMD_NAV_WAYPOINT, MAV_CMD_DO_CHANGE_SPEED,
    MAV_CMD_DO_MOUNT_CONTROL]

theorem position_items_kind (env : Env) (n : Nat) (item : MissionItem) :
    ∀ w ∈ position_items env n item, Rule.of_command w.command = some Rule.waypoint := by
  unfold position_items; split <;> simp [wire, Rule.of_command, MissionItem.get_mavlink_cmd]

theorem delay_items_kind (env : Env) (n : Nat) (last : Option LastPosition) (item : MissionItem) :
    ∀ w ∈ delay_items env n last item, Rule.of_command w.command = some Rule.delay := by
  unfold delay_items; split
  · cases last <;> simp [wire, Rule.of_command, MAV_CMD_NAV_WAYPOINT, MAV_CMD_DO_CHANGE_SPEED,
      MAV_CMD_DO_MOUNT_CONTROL, MAV_CMD_NAV_LOITER_TIME]
  · simp

theorem camera_items_kind (env : Env) (n : Nat) (item : MissionItem) :
    ∀ w ∈ camera_items env n item, Rule.of_command w.command = some Rule.camera := by
  unfold camera_items
  cases item.camera_action <;>
  simp [wire, Rule.of_command, MAV_CMD_NAV_WAYPOINT, MAV_CMD_DO_CHANGE_SPEED,
    MAV_CMD_DO_MOUNT_CONTROL, MAV_CMD_NAV_LOITER_TIME, MAV_CMD_IMAGE_START_CAPTURE,
    MAV_CMD_IMAGE_STOP_CAPTURE, MAV_CMD_VIDEO_START_CAPTURE, MAV_CMD_VIDEO_STOP_CAPTURE]

theorem of_command_waypoint (c : Nat) :
    Rule.of_command c = some Rule.waypoint ↔ c = MAV_CMD_NAV_WAYPOINT := by
  unfold Rule.of_command
  split_ifs <;> simp_all

theorem of_command_delay (c : Nat) :
    Rule.of_command c = some Rule.delay ↔ c = MAV_CMD_NAV_LOITER_TIME := by
  unfold Rule.of_command
  split_ifs <;> simp_all [MAV_CMD_NAV_WAYPOINT, MAV_CMD_DO_CHANGE_SPEED,
    MAV_CMD_DO_MOUNT_CONTROL, MAV_CMD_NAV_LOITER_TIME, MAV_CMD_IMAGE_START_CAPTURE,
    MAV_CMD_IMAGE_STOP_CAPTURE, MAV_CMD_VIDEO_START_CAPTURE, MAV_CMD_VIDEO_STOP_CAPTURE]

theorem unique_index {α : Type} (A E : List α) (d w : α) (P : α → Prop)
    (hA : ∀ a ∈ A, ¬ P a) (hE : ∀ e ∈ E, ¬ P e) (k : Nat)
    (hk : (A ++ d :: E)[k]? = some w) (hw : P w) : k = A.length ∧ w = d := by
  rcases Nat.lt_trichotomy k A.length with h | h | h
  · rw [List.getElem?_append_left h] at hk
    exact absurd hw (hA w (List.getElem?_mem hk))
  · subst h
    rw [List.getElem?_append_right (Nat.le_refl _)] at hk
    simp at hk
    exact ⟨rfl, hk.symm⟩
  · rw [List.getElem?_append_right (Nat.le_of_lt h)] at hk
    obtain ⟨j, hj⟩ : ∃ j, k - A.length = j + 1 := ⟨k - A.length - 1, by omega⟩
    rw [hj, List.getElem?_cons_succ] at hk
    exact absurd hw (hE w (List.getElem?_mem hk))

theorem take_three {α : Type} (a b c d : List α) (k : Nat)
    (hk : k = (a ++ b ++ c).length) : List.take k (a ++ (b ++ (c ++ d))) = a ++ (b ++ c) := by
  subst hk
  rw [← List.append_assoc, ← List.append_assoc, List.take_left, List.append_assoc]

theorem next_last_eq_last_position_item (env : Env) (n : Nat) (item : MissionItem)
    (last : Option LastPosition) (l0 : List mavlink_mission_item_int_t)
    (h : last = (last_position_item l0).map position_of) :
    next_last last item =
      (last_position_item (l0 ++ position_items env n item)).map position_of := by
  unfold next_last position_items
  split
  · rw [last_position_item_append_waypoint _ _ (by simp [wire, MissionItem.get_mavlink_cmd])]
    simp [position_of, wire]
  · simpa using h

theorem item_last_position_item (env : Env) (n : Nat) (item : MissionItem)
    (last : Option LastPosition) (l0 : List mavlink_mission_item_int_t)
    (h : last = (last_position_item l0).map position_of) :
    next_last last item =
      (last_position_item (l0 ++ item_wire_items env n last item)).map position_of := by
  unfold item_wire_items
  simp only []
  rw [← List.append_assoc, last_position_item_append_others]
  · exact next_last_eq_last_position_item env n item last l0 h
  · intro w hw
    simp only [List.mem_append] at hw
    have hk : Rule.of_command w.command ≠ some Rule.waypoint := by
      rcases hw with hw | hw | hw | hw
      · rw [speed_items_kind env _ item w hw]; decide
      · rw [gimbal_items_kind env _ item w hw]; decide
      · rw [delay_items_kind env _ _ item w hw]; decide
      · rw [camera_items_kind env _ item w hw]; decide
    exact fun hc => hk ((of_command_waypoint _).2 hc)

theorem mission_last_position_item (env : Env) (items : List MissionItem) (n : Nat)
    (last : Option LastPosition) (l0 : List mavlink_mission_item_int_t)
    (h : last = (last_position_item l0).map position_of) :
    items.foldl next_last last =
      (last_position_item (l0 ++ mission_wire_items env n last items)).map position_of := by
  induction items generalizing n last l0 with
  | nil => simpa [mission_wire_items] using h
  | cons item rest ih =>
    simp only [List.foldl_cons, mission_wire_items]
    rw [← List.append_assoc]
    exact ih _ _ _ (item_last_position_item env n item last l0 h)

theorem emitted_before_eq (env : Env) (s : MissionImpl) (i : Nat) :
    emitted_before env s i = mission_wire_items env 0 none (s._mission_items.take i) := by
  simp only [emitted_before, loop_before, foldl_messages, assemble_start, List.nil_append,
    List.length_nil, decode_packed]

theorem loop_before_last_position_item (env : Env) (s : MissionImpl) (i : Nat) :
    (loop_before env s i).last_position =
      (last_position_item (emitted_before env s i)).map position_of := by
  rw [loop_before_last, emitted_before_eq]
  have := mission_last_position_item env (s._mission_items.take i) 0 none [] rfl
  simpa using this

theorem filter_camera_nil (l : List mavlink_mission_item_int_t) (r : Rule)
    (hr : r ≠ Rule.camera) (h : ∀ w ∈ l, Rule.of_command w.command = some r) :
    l.filter (fun w => decide (Rule.of_command w.command = some Rule.camera)) = [] := by
  rw [List.filter_eq_nil_iff]
  intro w hw
  rw [h w hw]
  simpa using hr

theorem camera_items_row (env : Env) (n : Nat) (item : MissionItem)
    (hc : item.camera_action ≠ CameraAction.NONE) :
    ∃ w, camera_items env n item = [w] ∧ w.frame = MAV_FRAME_MISSION ∧
      camera_row env item w := by
  unfold camera_items camera_row
  cases hcam : item.camera_action with
  | NONE => exact absurd hcam hc
  | TAKE_PHOTO => exact ⟨_, rfl, rfl, rfl, rfl, rfl, rfl⟩
  | START_PHOTO_INTERVAL => exact ⟨_, rfl, rfl, rfl, rfl, rfl, rfl⟩
  | STOP_PHOTO_INTERVAL => exact ⟨_, rfl, rfl, rfl, rfl⟩
  | START_VIDEO => exact ⟨_, rfl, rfl, rfl, rfl⟩
  | STOP_VIDEO => exact ⟨_, rfl, rfl, rfl, rfl⟩

theorem camera_items_filter_row (env : Env) (n : Nat) (item : MissionItem)
    (hc : item.camera_action ≠ CameraAction.NONE) :
    ∃ w, (camera_items env n item).filter
          (fun w => decide (Rule.of_command w.command = some Rule.camera)) = [w] ∧
      w.frame = MAV_FRAME_MISSION ∧ camera_row env item w := by
  obtain ⟨w, hw, hf, hrow⟩ := camera_items_row env n item hc
  refine ⟨w, ?_, hf, hrow⟩
  rw [List.filter_eq_self.2 (fun a ha => by simpa using camera_items_kind env _ item a ha)]
  exact hw

theorem emitted_for_rules (env : Env) (s : MissionImpl) (i : Nat) (item : MissionItem)
    (h : s._mission_items[i]? = some item) :
    (emitted_for env s i).map (fun w => Rule.of_command w.command) =
      (Rule.all.filter (Rule.applies (position_seen s._mission_items i) item)).map some := by
  rw [emitted_for_eq env s i item h, item_rules, next_last_seen env s i item h]

theorem emitted_for_length (env : Env) (s : MissionImpl) (i : Nat) :
    (emitted_for env s i).length = applicable_rules s._mission_items i := by
  unfold applicable_rules
  cases h : s._mission_items[i]? with
  | none => simp [emitted_for, h]
  | some item =>
    have := congrArg List.length (emitted_for_rules env s i item h)
    simpa using this

theorem wire_items_flatten (env : Env) (s : MissionImpl) :
    wire_items (assemble_mavlink_messages env s) =
      ((List.range s._mission_items.length).map (emitted_for env s)).flatten := by
  rw [wire_items_eq, ← emitted_for_concat env s _ (Nat.le_refl _), List.take_length]

theorem wire_items_length (env : Env) (s : MissionImpl) :
    (wire_items (assemble_mavlink_messages env s)).length = rule_count s._mission_items := by
  rw [wire_items_flatten, List.length_flatten, List.map_map, rule_count]
  congr 1
  apply List.map_congr_left
  intro i _
  exact emitted_for_length env s i

theorem messages_length (env : Env) (s : MissionImpl) :
    (assemble_mavlink_messages env s)._mavlink_mission_item_messages.length =
      (wire_items (assemble_mavlink_messages env s)).length := by
  rw [wire_items_eq]
  simp only [assemble_mavlink_messages, foldl_messages, assemble_start, List.nil_append,
    List.length_map, List.length_nil]

theorem upload_accepted (env : Env) (s : MissionImpl) (items : List MissionItem)
    (callback : Option Nat) (hidle : s._activity = Activity.NONE)
    (hint : env.target_supports_mission_int = true) (hlink : env.send_ok = true) :
    upload_mission_async env s items callback =
      ({ assemble_mavlink_messages env (copy_mission_item_vector s items) with
         _activity := Activity.SET_MISSION, _result_callback := callback },
       [Event.send_message (mission_count_message env (wrap_uint16
          (assemble_mavlink_messages env
            (copy_mission_item_vector s items))._mavlink_mission_item_messages.length))]) := by
  unfold upload_mission_async
  rw [if_neg (by simp [hidle]), if_neg (by simp [hint])]
  simp only []
  rw [if_neg (by simp [hlink])]
  rfl

theorem upload_events (env : Env) (s : MissionImpl) (items : List MissionItem)
    (callback : Option Nat) (hidle : s._activity = Activity.NONE)
    (hint : env.target_supports_mission_int = true) (hlink : env.send_ok = true) :
    (upload_mission_async env s items callback).2 =
      [Event.send_message (mission_count_message env
        ((wire_items (assemble_mavlink_messages env
          (copy_mission_item_vector s items))).length % 65536))] := by
  rw [upload_accepted env s items callback hidle hint hlink, ← messages_length]
  rfl

theorem upload_wire_items (env : Env) (s : MissionImpl) (items : List MissionItem)
    (callback : Option Nat) (hidle : s._activity = Activity.NONE)
    (hint : env.target_supports_mission_int = true) (hlink : env.send_ok = true) :
    wire_items (upload_mission_async env s items callback).1 =
      wire_items (assemble_mavlink_messages env (copy_mission_item_vector s items)) := by
  rw [upload_accepted env s items callback hidle hint hlink]
  rfl

/-- While the activity is not NONE, `upload_mission_async`, `start_mission_async`,
`pause_mission_async` and `set_current_mission_item_async` report BUSY and return the
engine as it was. -/
theorem busy_leaves_state (env : Env) (s : MissionImpl) (items : List MissionItem)
    (current : Int) (callback : Option Nat) (h : s._activity ≠ Activity.NONE) :
    upload_mission_async env s items callback =
        (s, report_mission_result callback Result.BUSY) ∧
    start_mission_async env s callback = (s, report_mission_result callback Result.BUSY) ∧
    pause_mission_async env s callback = (s, report_mission_result callback Result.BUSY) ∧
    set_current_mission_item_async env s current callback =
        (s, report_mission_result callback Result.BUSY) := by
  simp [upload_mission_async, start_mission_async, pause_mission_async,
    set_current_mission_item_async, h]

theorem assemble_wire_items_cons (env : Env) (w : mavlink_mission_item_int_t)
    (rest : List mavlink_mission_item_int_t) (st st1 : ItemsLoop)
    (h : assemble_wire_item env w st = (st1, false)) :
    assemble_wire_items env (w :: rest) st = assemble_wire_items env rest st1 := by
  simp only [assemble_wire_items, h]

theorem assemble_position_part (env : Env) (n : Nat) (item : MissionItem)
    (rest : List mavlink_mission_item_int_t) (st : ItemsLoop)
    (hp : item.is_position_finite = true) :
    assemble_wire_items env (position_items env n item ++ rest) st =
      assemble_wire_items env rest
        { mission_items :=
            if st.have_set_position then st.mission_items ++ [st.new_mission_item]
            else st.mission_items
          new_mission_item :=
            (((if st.have_set_position then MissionItem.fresh env
                else st.new_mission_item).set_position
              ((Flt.of_int item.get_mavlink_x).scale (1 / 10000000))
              ((Flt.of_int item.get_mavlink_y).scale (1 / 10000000))).set_relative_altitude
              item.get_mavlink_z).set_fly_through (!(item.get_mavlink_param1 env).gt_zero)
          have_set_position := true
          result := st.result } := by
  simp only [position_items, hp, if_true, List.singleton_append]
  apply assemble_wire_items_cons
  simp only [assemble_wire_item, wire, MissionItem.get_mavlink_cmd,
    MissionItem.get_mavlink_frame, if_true, ne_eq, not_true_eq_false, if_false]
  cases st.have_set_position <;> simp

theorem assemble_speed_part (env : Env) (n : Nat) (item : MissionItem)
    (rest : List mavlink_mission_item_int_t) (st : ItemsLoop) :
    assemble_wire_items env (speed_items env n item ++ rest) st =
      assemble_wire_items env rest
        { st with
          new_mission_item :=
            if item.speed_m_s.isfinite then st.new_mission_item.set_speed item.speed_m_s
            else st.new_mission_item } := by
  unfold speed_items
  cases hs : item.speed_m_s.isfinite
  · simp
  · simp only [if_true, List.singleton_append]
    apply assemble_wire_items_cons
    simp [assemble_wire_item, wire, MAV_CMD_DO_CHANGE_SPEED, MAV_CMD_NAV_WAYPOINT,
      MAV_CMD_DO_MOUNT_CONTROL, MAV_CMD_IMAGE_START_CAPTURE, MAV_CMD_IMAGE_STOP_CAPTURE,
      MAV_CMD_VIDEO_START_CAPTURE, MAV_CMD_VIDEO_STOP_CAPTURE, Flt.int_eq, Flt.to_int,
      Flt.lt_zero]

theorem assemble_gimbal_part (env : Env) (n : Nat) (item : MissionItem)
    (rest : List mavlink_mission_item_int_t) (st : ItemsLoop) :
    assemble_wire_items env (gimbal_items env n item ++ rest) st =
      assemble_wire_items env rest
        { st with
          new_mission_item :=
            if item.gimbal_yaw_deg.isfinite || item.gimbal_pitch_deg.isfinite then
              st.new_mission_item.set_gimbal_pitch_and_yaw item.gimbal_pitch_deg
                item.gimbal_yaw_deg
            else st.new_mission_item } := by
  unfold gimbal_items
  cases hs : (item.gimbal_yaw_deg.isfinite || item.gimbal_pitch_deg.isfinite)
  · simp
  · simp only [if_true, List.singleton_append]
    apply assemble_wire_items_cons
    simp [assemble_wire_item, wire, MAV_CMD_DO_CHANGE_SPEED, MAV_CMD_NAV_WAYPOINT,
      MAV_CMD_DO_MOUNT_CONTROL, MAV_CMD_IMAGE_START_CAPTURE, MAV_CMD_IMAGE_STOP_CAPTURE,
      MAV_CMD_VIDEO_START_CAPTURE, MAV_CMD_VIDEO_STOP_CAPTURE, Flt.int_eq, Flt.to_int,
      Flt.of_int, MAV_MOUNT_MODE_MAVLINK_TARGETING]

theorem assemble_delay_part (env : Env) (n : Nat) (l : LastPosition) (item : MissionItem)
    (rest : List mavlink_mission_item_int_t) (st : ItemsLoop) :
    assemble_wire_items env (delay_items env n (some l) item ++ rest) st =
      assemble_wire_items env rest
        { st with
          new_mission_item :=
            if item.camera_action_delay_s.isfinite then
              st.new_mission_item.set_camera_action_delay item.camera_action_delay_s
            else st.new_mission_item } := by
  unfold delay_items
  cases hs : item.camera_action_delay_s.isfinite
  · simp
  · simp only [if_true, List.singleton_append]
    apply assemble_wire_items_cons
    simp [assemble_wire_item, wire, MAV_CMD_DO_CHANGE_SPEED, MAV_CMD_NAV_WAYPOINT,
      MAV_CMD_DO_MOUNT_CONTROL, MAV_CMD_IMAGE_START_CAPTURE, MAV_CMD_IMAGE_STOP_CAPTURE,
      MAV_CMD_VIDEO_START_CAPTURE, MAV_CMD_VIDEO_STOP_CAPTURE, MAV_CMD_NAV_LOITER_TIME]

theorem assemble_camera_part (env : Env) (n : Nat) (item : MissionItem)
    (rest : List mavlink_mission_item_int_t) (st : ItemsLoop)
    (hi : item.camera_action = CameraAction.START_PHOTO_INTERVAL →
      (env.to_float item.camera_photo_interval_s).gt_zero = true) :
    assemble_wire_items env (camera_items env n item ++ rest) st =
      assemble_wire_items env rest
        { st with new_mission_item := with_camera env item st.new_mission_item } := by
  unfold camera_items with_camera
  cases hc : item.camera_action
  case NONE => simp
  case START_PHOTO_INTERVAL =>
    simp only [List.singleton_append]
    apply assemble_wire_items_cons
    simp [assemble_wire_item, wire, MAV_CMD_DO_CHANGE_SPEED, MAV_CMD_NAV_WAYPOINT,
      MAV_CMD_DO_MOUNT_CONTROL, MAV_CMD_IMAGE_START_CAPTURE, MAV_CMD_IMAGE_STOP_CAPTURE,
      MAV_CMD_VIDEO_START_CAPTURE, MAV_CMD_VIDEO_STOP_CAPTURE, MAV_CMD_NAV_LOITER_TIME,
      Flt.int_eq, Flt.to_int, hi hc]
  all_goals
    simp only [List.singleton_append]
    apply assemble_wire_items_cons
    simp [assemble_wire_item, wire, MAV_CMD_DO_CHANGE_SPEED, MAV_CMD_NAV_WAYPOINT,
      MAV_CMD_DO_MOUNT_CONTROL, MAV_CMD_IMAGE_START_CAPTURE, MAV_CMD_IMAGE_STOP_CAPTURE,
      MAV_CMD_VIDEO_START_CAPTURE, MAV_CMD_VIDEO_STOP_CAPTURE, MAV_CMD_NAV_LOITER_TIME,
      Flt.int_eq, Flt.to_int, Flt.gt_zero]

theorem assemble_item_part (env : Env) (n : Nat) (last : Option LastPosition)
    (item : MissionItem) (rest : List mavlink_mission_item_int_t) (st : ItemsLoop)
    (hp : item.is_position_finite = true)
    (hi : item.camera_action = CameraAction.START_PHOTO_INTERVAL →
      (env.to_float item.camera_photo_interval_s).gt_zero = true) :
    assemble_wire_items env (item_wire_items env n last item ++ rest) st =
      assemble_wire_items env rest
        (item_assembled st (reassemble env item
          (if st.have_set_position then MissionItem.fresh env else st.new_mission_item))) := by
  have hn : next_last last item = some
      { frame := item.get_mavlink_frame
        x := item.get_mavlink_x
        y := item.get_mavlink_y
        z := item.get_mavlink_z } := by simp [next_last, hp]
  simp only [item_wire_items, List.append_assoc, hn]
  rw [assemble_position_part env _ item _ st hp, assemble_speed_part, assemble_gimbal_part,
    assemble_delay_part, assemble_camera_part env _ item _ _ hi]
  rfl

theorem reassemble_eq (env : Env) (item : MissionItem) (h : round_trips env item)
    (hr : env.accept_radius.gt_zero = true) :
    reassemble env item (MissionItem.fresh env) = item := by
  obtain ⟨_, hx, hy, hs, hg, hd, hc⟩ := h
  have hft : (!(item.get_mavlink_param1 env).gt_zero) = item.fly_through := by
    unfold MissionItem.get_mavlink_param1
    cases item.fly_through
    · simp [hr]
    · simp [Flt.gt_zero]
  simp only [reassemble, hx, hy, hft, MissionItem.get_mavlink_z]
  cases item with
  | mk lat lon alt ft speed pitch yaw delay action interval =>
    simp only at hs hg hd hc ⊢
    have hspeed : speed.isfinite = false → speed = Flt.nan := by
      intro hf; rcases hs with hs | hs
      · rw [hf] at hs; exact absurd hs (by simp)
      · exact hs
    have hdelay : delay.isfinite = false → delay = Flt.nan := by
      intro hf; rcases hd with hd | hd
      · rw [hf] at hd; exact absurd hd (by simp)
      · exact hd
    have hgimbal : (yaw.isfinite || pitch.isfinite) = false →
        pitch = Flt.nan ∧ yaw = Flt.nan := by
      intro hf
      simp only [Bool.or_eq_false_iff] at hf
      rcases hg with hg | hg | hg
      · rw [hf.2] at hg; exact absurd hg (by simp)
      · rw [hf.1] at hg; exact absurd hg (by simp)
      · exact hg
    cases h1 : speed.isfinite <;> cases h2 : (yaw.isfinite || pitch.isfinite) <;>
    cases h3 : delay.isfinite <;> cases action <;>
    simp_all [with_camera, MissionItem.set_speed, MissionItem.set_fly_through,
      MissionItem.set_relative_altitude, MissionItem.set_position, MissionItem.fresh,
      MissionItem.set_gimbal_pitch_and_yaw, MissionItem.set_camera_action_delay,
      MissionItem.set_camera_action, MissionItem.set_camera_photo_interval]

theorem assemble_mission_part (env : Env) (items : List MissionItem) (n : Nat)
    (last : Option LastPosition) (st : ItemsLoop)
    (h : ∀ item ∈ items, round_trips env item) (hr : env.accept_radius.gt_zero = true)
    (hinv : st.have_set_position = false → st.new_mission_item = MissionItem.fresh env) :
    assemble_wire_items env (mission_wire_items env n last items) st =
      items.foldl item_assembled st := by
  induction items generalizing n last st with
  | nil => simp [mission_wire_items, assemble_wire_items]
  | cons item rest ih =>
    have hitem := h item (List.mem_cons_self _ _)
    have hbase : (if st.have_set_position then MissionItem.fresh env
        else st.new_mission_item) = MissionItem.fresh env := by
      cases hh : st.have_set_position
      · simpa using hinv hh
      · simp
    have hi : item.camera_action = CameraAction.START_PHOTO_INTERVAL →
        (env.to_float item.camera_photo_interval_s).gt_zero = true := by
      intro hc
      have := hitem.2.2.2.2.2.2
      rw [if_pos hc] at this
      exact this.1
    simp only [mission_wire_items, List.foldl_cons]
    rw [assemble_item_part env n last item _ st hitem.1 hi, hbase, reassemble_eq env item hitem hr]
    exact ih _ _ _ (fun it hit => h it (List.mem_cons_of_mem _ hit)) (fun hf => by
      simp [item_assembled] at hf)

theorem foldl_item_assembled (items : List MissionItem) (st : ItemsLoop) (hne : items ≠ []) :
    (items.foldl item_assembled st).mission_items ++
        [(items.foldl item_assembled st).new_mission_item] =
      (if st.have_set_position then st.mission_items ++ [st.new_mission_item]
        else st.mission_items) ++ items ∧
    (items.foldl item_assembled st).result = st.result := by
  induction items generalizing st with
  | nil => exact absurd rfl hne
  | cons item rest ih =>
    cases rest with
    | nil => simp [item_assembled]
    | cons item2 rest2 =>
      have := ih (item_assembled st item) (by simp)
      simp only [List.foldl_cons] at this ⊢
      rw [this.1, this.2]
      simp [item_assembled]

theorem mission_wire_items_head (env : Env) (item : MissionItem) (rest : List MissionItem)
    (hp : item.is_position_finite = true) :
    ∃ w tl, mission_wire_items env 0 none (item :: rest) = w :: tl ∧
      w.command = MAV_CMD_NAV_WAYPOINT := by
  simp only [mission_wire_items, item_wire_items, position_items, hp, if_true,
    List.singleton_append, List.cons_append]
  exact ⟨_, _, rfl, rfl⟩

theorem recoverable_round_trips :
    ∀ item ∈ (engine_with recoverable_mission)._mission_items,
      round_trips example_env item := by
  decide!

/-- The second waypoint of scenario S4 does not come back: the double 47.398 times `1e7`
is 473980000.00000006, which is sent as 473980000, and 473980000 times the double `1e-7`
is 47.397999999999996, the double just below 47.398.  The mission assembled from the
wire items of the S4 mission is therefore not the S4 mission. -/
theorem S4_latitude_not_recovered :
    Flt.nearest_double (473980 / 10000) = 6670675473065837 / 140737488355328 ∧
      MissionItem.deg_to_e7 (Flt.fin (Flt.nearest_double (473980 / 10000))) = 473980000 ∧
      (Flt.of_int 473980000).scale (1 / 10000000) =
        Flt.fin (6670675473065836 / 140737488355328) ∧
      (assemble_mission_items example_env
        (engine_downloaded (wire_items (assemble_mavlink_messages example_env
          (engine_with S4_mission))))).1._mission_items ≠ S4_mission := by
  decide!

/-! ## The claims -/

/-- C1 (counterexample): the mission of a plain waypoint followed by an item that has a
camera action and no position expands to two wire items, and assembling them reports
SUCCESS with one logical item, the waypoint with the camera action merged into it: not
the two items that were expanded. -/
theorem round_trip_merges_item_without_position :
    (assemble_mission_items example_env
      (engine_downloaded (wire_items (assemble_mavlink_messages example_env
        (engine_with [waypoint_item 47 8 10 CameraAction.NONE, photo_only_item]))))).2 =
      [Event.mission_items_and_result_callback 7 Result.SUCCESS
        [waypoint_item 47 8 10 CameraAction.TAKE_PHOTO]] ∧
    [waypoint_item 47 8 10 CameraAction.TAKE_PHOTO].length ≠
      [waypoint_item 47 8 10 CameraAction.NONE, photo_only_item].length := by
  decide!

/-- C1 (amended): for every non-empty logical mission in which every item round-trips
(finite position recovered exactly from its integer encoding, optional values finite or
unset, photo interval positive with a photo interval action and default otherwise), with
a positive accept radius: assembling the wire items that `assemble_mavlink_messages`
produces reports SUCCESS to the download callback, exactly once, with a mission equal to
the one expanded, and that mission is what the engine stores. -/
theorem mission_round_trip (env : Env) (uploader s : MissionImpl) (cb : Nat)
    (hne : uploader._mission_items ≠ [])
    (hitems : ∀ item ∈ uploader._mission_items, round_trips env item)
    (hr : env.accept_radius.gt_zero = true)
    (hdl : s._mavlink_mission_items_downloaded =
      wire_items (assemble_mavlink_messages env uploader))
    (hcb : s._mission_items_and_result_callback = some cb) :
    (assemble_mission_items env s).2 =
        [Event.mission_items_and_result_callback cb Result.SUCCESS uploader._mission_items] ∧
      (assemble_mission_items env s).1._mission_items = uploader._mission_items := by
  rw [wire_items_eq] at hdl
  obtain ⟨item, rest, hir⟩ : ∃ item rest, uploader._mission_items = item :: rest := by
    cases h : uploader._mission_items with
    | nil => exact absurd h hne
    | cons a l => exact ⟨a, l, rfl⟩
  obtain ⟨w, tl, hw, hwc⟩ := mission_wire_items_head env item rest
    (hitems item (by rw [hir]; exact List.mem_cons_self _ _)).1
  have hloop := assemble_mission_part env uploader._mission_items 0 none
    { mission_items := []
      new_mission_item := MissionItem.fresh env
      have_set_position := false
      result := Result.SUCCESS } hitems hr (fun _ => rfl)
  have hfold := foldl_item_assembled uploader._mission_items
    { mission_items := []
      new_mission_item := MissionItem.fresh env
      have_set_position := false
      result := Result.SUCCESS } hne
  rw [← hloop, ← hdl] at hfold
  have hdl2 : s._mavlink_mission_items_downloaded = w :: tl := by rw [hdl, hir, hw]
  unfold assemble_mission_items
  split
  · rename_i heq; rw [hdl2] at heq; exact absurd heq (by simp)
  · rename_i first tl2 heq
    have hfirst : first = w := by
      rw [hdl2] at heq; simp at heq; exact heq.1.symm
    rw [if_neg (by rw [hfirst]; simpa using hwc)]
    simp only [hfold.1, hfold.2, hcb, report_mission_items_and_result]
    simp

/-- C1 (witness): the mission of a waypoint with `TakePhoto` at (47.3977, 8.5456) and a
plain waypoint at (47.5, 8.25), whose coordinates the double products recover,
round-trips. -/
theorem mission_round_trip_witness :
    (engine_with recoverable_mission)._mission_items ≠ [] ∧
    example_env.accept_radius.gt_zero = true ∧
    (assemble_mission_items example_env
      (engine_downloaded (wire_items (assemble_mavlink_messages example_env
        (engine_with recoverable_mission))))).2 =
        [Event.mission_items_and_result_callback 7 Result.SUCCESS recoverable_mission] ∧
    (assemble_mission_items example_env
      (engine_downloaded (wire_items (assemble_mavlink_messages example_env
        (engine_with recoverable_mission))))).1._mission_items = recoverable_mission :=
  ⟨by decide, rfl,
   mission_round_trip example_env (engine_with recoverable_mission) _ 7 (by decide)
     recoverable_round_trips rfl rfl rfl⟩

/-- C2 (counterexample): in the expansion of a mission of 65537 waypoints the seq
fields are not 0, 1, ..., 65536: the seq field is 16 bits wide and the wire item of
index 65536 carries seq 0. -/
theorem wire_seq_wraps_in_long_mission :
    (wire_items (assemble_mavlink_messages example_env (engine_with long_mission))).map
        (fun w => w.seq) ≠
      List.range
        (wire_items (assemble_mavlink_messages example_env (engine_with long_mission))).length := by
  intro h
  rw [wire_items_eq] at h
  have hs := numbered_seqs 0 _ (numbered_mission example_env long_mission 0 none)
  have hl : (mission_wire_items example_env 0 none long_mission).length = 65537 :=
    replicate_waypoints_length example_env 65537 0 none 47 8 10
  simp only [engine_with] at h
  rw [hs, hl] at h
  have h2 := congrArg (fun l => l[65536]?) h
  simp only [List.getElem?_map, List.getElem?_range (show 65536 < 65537 by omega)] at h2
  simp [wrap_uint16] at h2

/-- C2 (amended): for every logical mission and every prior engine state, the k-th wire
item produced by `assemble_mavlink_messages` (k = 0..n-1) has seq field equal to k
modulo 65536, hence equal to k for the first 65536 wire items. -/
theorem wire_seq_dense_mod (env : Env) (s : MissionImpl) :
    (wire_items (assemble_mavlink_messages env s)).map (fun w => w.seq) =
      (List.range (wire_items (assemble_mavlink_messages env s)).length).map
        (fun k => k % 65536) := by
  rw [wire_items_eq]
  have h := numbered_seqs 0 _ (numbered_mission env s._mission_items 0 none)
  simpa [wrap_uint16] using h

/-- C3 (counterexample): in the mission of an item with nothing set followed by an item
with position, speed, gimbal angles, delay and camera action, the first item expands to
no wire item and the second to five. -/
theorem expansion_emits_zero_and_five :
    ¬ (1 ≤ (emitted_for example_env (engine_with [blank_item, full_item]) 0).length) ∧
    ¬ ((emitted_for example_env (engine_with [blank_item, full_item]) 1).length ≤ 4) := by
  decide

/-- C3 (amended): for every logical mission item in every mission,
`assemble_mavlink_messages` emits at most 5 wire items for that item, as many as there
are expansion rules that apply to it (none when no rule applies). -/
theorem expansion_item_count (env : Env) (s : MissionImpl) (i : Nat) (item : MissionItem)
    (h : s._mission_items[i]? = some item) :
    (emitted_for env s i).length ≤ 5 ∧
      (emitted_for env s i).length =
        (Rule.all.filter (Rule.applies (position_seen s._mission_items i) item)).length := by
  have hl := congrArg List.length (emitted_for_rules env s i item h)
  simp only [List.length_map] at hl
  refine ⟨?_, hl⟩
  rw [hl]
  exact (List.length_filter_le _ _).trans (by simp [Rule.all])

/-- C3 (witness): the item to which all five rules apply. -/
theorem expansion_item_count_witness :
    (engine_with [blank_item, full_item])._mission_items[1]? = some full_item ∧
    ((emitted_for example_env (engine_with [blank_item, full_item]) 1).length ≤ 5 ∧
      (emitted_for example_env (engine_with [blank_item, full_item]) 1).length =
        (Rule.all.filter (Rule.applies
          (position_seen (engine_with [blank_item, full_item])._mission_items 1)
          full_item)).length) :=
  ⟨rfl, expansion_item_count example_env (engine_with [blank_item, full_item]) 1 full_item rfl⟩

/-- C4 (failing input): after a first mission of one item with position and speed has
been uploaded and accepted, the upload of a second mission of two waypoints emits for
its item of index 1 the wire item with seq 1, and the index map still maps 1 to the
logical index 0 of the first mission: `std::map::insert` does not replace the entry and
the map is never cleared. -/
theorem index_map_stale_after_second_upload :
    engine_after_first_upload._activity = Activity.NONE ∧
    (emitted_for example_env
      { engine_after_first_upload with _mission_items := second_mission } 1).map
        (fun w => w.seq) = [1] ∧
    (upload_mission_async example_env engine_after_first_upload second_mission
      (some 2)).1._mavlink_mission_item_to_mission_item_indices.find 1 = some 0 := by
  decide

/-- C5: the wire items `assemble_mavlink_messages` produces are the wire items emitted
for item 0, then those emitted for item 1, and so on; and the wire items emitted for an
item are, told by their commands, exactly the rules that apply to it, each once, in the
order waypoint, speed, gimbal, delay, camera action. -/
theorem expansion_follows_rule_order (env : Env) (s : MissionImpl) :
    wire_items (assemble_mavlink_messages env s) =
        ((List.range s._mission_items.length).map (emitted_for env s)).flatten ∧
      ∀ (i : Nat) (item : MissionItem), s._mission_items[i]? = some item →
        (emitted_for env s i).map (fun w => Rule.of_command w.command) =
          (Rule.all.filter (Rule.applies (position_seen s._mission_items i) item)).map
            some := by
  constructor
  · rw [wire_items_eq, ← emitted_for_concat env s _ (Nat.le_refl _), List.take_length]
  · intro i item h
    rw [emitted_for_eq env s i item h, item_rules, next_last_seen env s i item h]

/-- C5 (witness): the item to which all five rules apply expands to one wire item per
rule, in rule order. -/
theorem expansion_follows_rule_order_witness :
    (engine_with [blank_item, full_item])._mission_items[1]? = some full_item ∧
    (emitted_for example_env (engine_with [blank_item, full_item]) 1).map
        (fun w => Rule.of_command w.command) =
      [some Rule.waypoint, some Rule.speed, some Rule.gimbal, some Rule.delay,
       some Rule.camera] :=
  ⟨rfl,
   (expansion_follows_rule_order example_env (engine_with [blank_item, full_item])).2 1
     full_item rfl⟩

/-- C6: for every mission and every logical item whose camera action delay is finite, a
`NAV_LOITER_TIME` wire item is emitted for it if and only if some item at or before it
has a finite position; and a `NAV_LOITER_TIME` wire item emitted for it carries the delay
as param1 and the frame, x, y and z of the most recent `NAV_WAYPOINT` wire item emitted
before it. -/
theorem delay_item_placement (env : Env) (s : MissionImpl) (i : Nat) (item : MissionItem)
    (h : s._mission_items[i]? = some item)
    (hd : item.camera_action_delay_s.isfinite = true) :
    ((∃ w ∈ emitted_for env s i, w.command = MAV_CMD_NAV_LOITER_TIME) ↔
        position_seen s._mission_items i = true) ∧
      ∀ (k : Nat) (w : mavlink_mission_item_int_t), (emitted_for env s i)[k]? = some w →
        w.command = MAV_CMD_NAV_LOITER_TIME →
        w.param1 = item.camera_action_delay_s ∧
          ∃ p, last_position_item (emitted_before env s i ++ (emitted_for env s i).take k) =
              some p ∧
            w.frame = p.frame ∧ w.x = p.x ∧ w.y = p.y ∧ w.z = p.z := by
  have hseen := next_last_seen env s i item h
  have hlast := loop_before_last_position_item env s i
  rw [emitted_for_eq env s i item h]
  generalize (loop_before env s i).messages.length = n at *
  generalize (loop_before env s i).last_position = last at *
  generalize emitted_before env s i = l0 at *
  have hpos := next_last_eq_last_position_item env n item last l0 hlast
  have hA : ∀ a ∈ position_items env n item ++
      (speed_items env (n + (position_items env n item).length) item ++
      gimbal_items env (n + (position_items env n item).length +
        (speed_items env (n + (position_items env n item).length) item).length) item),
      ¬ a.command = MAV_CMD_NAV_LOITER_TIME := by
    intro a ha hc
    have hk := (of_command_delay _).2 hc
    simp only [List.mem_append] at ha
    rcases ha with ha | ha | ha
    · rw [position_items_kind env _ item a ha] at hk; exact absurd hk (by decide)
    · rw [speed_items_kind env _ item a ha] at hk; exact absurd hk (by decide)
    · rw [gimbal_items_kind env _ item a ha] at hk; exact absurd hk (by decide)
  have hE : ∀ m, ∀ e ∈ camera_items env m item, ¬ e.command = MAV_CMD_NAV_LOITER_TIME := by
    intro m e he hc
    have hk := (of_command_delay _).2 hc
    rw [camera_items_kind env _ item e he] at hk; exact absurd hk (by decide)
  have hothers : ∀ w ∈ speed_items env (n + (position_items env n item).length) item ++
      gimbal_items env (n + (position_items env n item).length +
        (speed_items env (n + (position_items env n item).length) item).length) item,
      w.command ≠ MAV_CMD_NAV_WAYPOINT := by
    intro w hw hc
    have hk := (of_command_waypoint _).2 hc
    simp only [List.mem_append] at hw
    rcases hw with hw | hw
    · rw [speed_items_kind env _ item w hw] at hk; exact absurd hk (by decide)
    · rw [gimbal_items_kind env _ item w hw] at hk; exact absurd hk (by decide)
  simp only [item_wire_items]
  cases hn : next_last last item with
  | none =>
    have hs : position_seen s._mission_items i = false := by rw [← hseen, hn]; rfl
    simp only [delay_items, hd, if_true, List.nil_append, hs]
    constructor
    · constructor
      · rintro ⟨w, hw, hc⟩
        simp only [List.mem_append] at hw
        rcases hw with hw | hw | hw | hw
        · exact absurd hc (hA w (by simp [hw]))
        · exact absurd hc (hA w (by simp [hw]))
        · exact absurd hc (hA w (by simp [hw]))
        · exact absurd hc (hE _ w hw)
      · intro hf; exact absurd hf (by simp)
    · intro k w hk hc
      have hw := List.getElem?_mem hk
      simp only [List.mem_append] at hw
      rcases hw with hw | hw | hw | hw
      · exact absurd hc (hA w (by simp [hw]))
      · exact absurd hc (hA w (by simp [hw]))
      · exact absurd hc (hA w (by simp [hw]))
      · exact absurd hc (hE _ w hw)
  | some l =>
    have hs : position_seen s._mission_items i = true := by rw [← hseen, hn]; rfl
    simp only [delay_items, hd, if_true, hs, List.singleton_append]
    constructor
    · simp only [iff_true]
      exact ⟨_, List.mem_append_right _ (List.mem_append_right _
        (List.mem_append_right _ (List.mem_cons_self _ _))), rfl⟩
    · intro k w hk hc
      rw [← List.append_assoc, ← List.append_assoc] at hk
      have hu := unique_index _ _ _ w (fun a => a.command = MAV_CMD_NAV_LOITER_TIME)
        (by simpa [List.append_assoc] using hA) (hE _) k hk hc
      obtain ⟨hk1, hw⟩ := hu
      subst hw
      refine ⟨rfl, ?_⟩
      rw [hpos] at hn
      rw [take_three _ _ _ _ k hk1, ← List.append_assoc l0,
        last_position_item_append_others _ _ hothers]
      cases hp : last_position_item (l0 ++ position_items env n item) with
      | none => rw [hp] at hn; exact absurd hn (by simp)
      | some p =>
        rw [hp] at hn
        simp only [Option.map_some', Option.some.injEq] at hn
        subst hn
        exact ⟨p, rfl, rfl, rfl, rfl, rfl⟩

/-- C6 (witness): an item with a delay and no position, after a waypoint. -/
theorem delay_item_placement_witness :
    (engine_with [waypoint_item 47 8 10 CameraAction.NONE, delayed_item])._mission_items[1]? =
        some delayed_item ∧
    delayed_item.camera_action_delay_s.isfinite = true ∧
    ((∃ w ∈ emitted_for example_env
          (engine_with [waypoint_item 47 8 10 CameraAction.NONE, delayed_item]) 1,
        w.command = MAV_CMD_NAV_LOITER_TIME) ↔
      position_seen
        (engine_with [waypoint_item 47 8 10 CameraAction.NONE, delayed_item])._mission_items 1 =
        true) :=
  ⟨rfl, rfl,
   (delay_item_placement example_env
     (engine_with [waypoint_item 47 8 10 CameraAction.NONE, delayed_item]) 1 delayed_item
     rfl rfl).1⟩

/-- C7: for every logical item whose camera action is not NONE, exactly one of the wire
items emitted for it carries a camera command; it is in frame MISSION and its command and
parameters are those of the row of the camera table for the action. -/
theorem camera_item_follows_table (env : Env) (s : MissionImpl) (i : Nat)
    (item : MissionItem) (h : s._mission_items[i]? = some item)
    (hc : item.camera_action ≠ CameraAction.NONE) :
    ∃ w, (emitted_for env s i).filter
          (fun w => decide (Rule.of_command w.command = some Rule.camera)) = [w] ∧
      w.frame = MAV_FRAME_MISSION ∧ camera_row env item w := by
  rw [emitted_for_eq env s i item h]
  simp only [item_wire_items, List.filter_append]
  rw [filter_camera_nil _ Rule.waypoint (by decide) (position_items_kind env _ item),
    filter_camera_nil _ Rule.speed (by decide) (speed_items_kind env _ item),
    filter_camera_nil _ Rule.gimbal (by decide) (gimbal_items_kind env _ item),
    filter_camera_nil _ Rule.delay (by decide) (delay_items_kind env _ _ item)]
  simpa only [List.nil_append] using camera_items_filter_row env _ item hc

/-- C7 (witness): the item to which all five rules apply, with action `TAKE_PHOTO`. -/
theorem camera_item_follows_table_witness :
    (engine_with [blank_item, full_item])._mission_items[1]? = some full_item ∧
    full_item.camera_action ≠ CameraAction.NONE ∧
    ∃ w, (emitted_for example_env (engine_with [blank_item, full_item]) 1).filter
          (fun w => decide (Rule.of_command w.command = some Rule.camera)) = [w] ∧
      w.frame = MAV_FRAME_MISSION ∧ camera_row example_env full_item w :=
  ⟨rfl, by decide,
   camera_item_follows_table example_env (engine_with [blank_item, full_item]) 1 full_item
     rfl (by decide)⟩

/-- C8 (counterexample): the upload of a mission of 65537 waypoints, which expands to
65537 wire items, sends `MISSION_COUNT` with count 1: the count field is 16 bits wide. -/
theorem upload_count_wraps_long_mission :
    (upload_mission_async example_env idle_engine long_mission none).2 =
        [Event.send_message (mission_count_message example_env 1)] ∧
      (wire_items (upload_mission_async example_env idle_engine long_mission none).1).length =
        65537 := by
  have hw : (wire_items (assemble_mavlink_messages example_env
      (copy_mission_item_vector idle_engine long_mission))).length = 65537 := by
    rw [wire_items_eq]
    exact replicate_waypoints_length example_env 65537 0 none 47 8 10
  rw [upload_events example_env idle_engine long_mission none rfl rfl rfl,
    upload_wire_items example_env idle_engine long_mission none rfl rfl rfl, hw]
  exact ⟨rfl, rfl⟩

/-- C8 (amended): for every mission uploaded from activity NONE to a target that
supports mission-int over a working link, `upload_mission_async` has one effect, the
sending of one `MISSION_COUNT` whose count is the number of wire items of the expansion
modulo 65536, sets the activity to SET_MISSION, and the number of wire items is the sum
over the items of the number of applicable expansion rules. -/
theorem upload_sends_mission_count (env : Env) (s : MissionImpl) (items : List MissionItem)
    (callback : Option Nat) (hidle : s._activity = Activity.NONE)
    (hint : env.target_supports_mission_int = true) (hlink : env.send_ok = true) :
    (upload_mission_async env s items callback).2 =
        [Event.send_message (mission_count_message env (rule_count items % 65536))] ∧
      (upload_mission_async env s items callback).1._activity = Activity.SET_MISSION ∧
      (wire_items (upload_mission_async env s items callback).1).length = rule_count items := by
  have hw := wire_items_length env (copy_mission_item_vector s items)
  refine ⟨?_, ?_, ?_⟩
  · rw [upload_events env s items callback hidle hint hlink, hw]; rfl
  · rw [upload_accepted env s items callback hidle hint hlink]
  · rw [upload_wire_items env s items callback hidle hint hlink, hw]; rfl

/-- C8 (witness): the count is 3 for the mission of scenario S4 and 0 for the empty
mission. -/
theorem upload_sends_mission_count_witness :
    idle_engine._activity = Activity.NONE ∧
    example_env.target_supports_mission_int = true ∧
    example_env.send_ok = true ∧
    (upload_mission_async example_env idle_engine S4_mission (some 1)).2 =
        [Event.send_message (mission_count_message example_env 3)] ∧
    (upload_mission_async example_env idle_engine [] (some 1)).2 =
        [Event.send_message (mission_count_message example_env 0)] :=
  ⟨rfl, rfl, rfl,
   (upload_sends_mission_count example_env idle_engine S4_mission (some 1) rfl rfl rfl).1,
   (upload_sends_mission_count example_env idle_engine [] (some 1) rfl rfl rfl).1⟩

/-- C9 (failing input): while the S4 mission is being uploaded (activity SET_MISSION),
`download_mission_async` reports BUSY and clears the stored mission items: the engine
state is not left unchanged. -/
theorem busy_download_clears_mission_items :
    uploading_engine._activity = Activity.SET_MISSION ∧
    uploading_engine._mission_items = S4_mission ∧
    (download_mission_async example_env uploading_engine (some 2)).2 =
      [Event.mission_items_and_result_callback 2 Result.BUSY []] ∧
    (download_mission_async example_env uploading_engine (some 2)).1._mission_items = [] ∧
    (download_mission_async example_env uploading_engine (some 2)).1 ≠ uploading_engine := by
  refine ⟨rfl, rfl, rfl, rfl, ?_⟩
  intro h
  have := congrArg MissionImpl._mission_items h
  exact absurd this (by decide)

/-- C10: for every `MISSION_ACK` addressed to us (by system id or by component id) and
processed while the activity is SET_MISSION, `process_mission_ack` unregisters the
timeout and invokes the stored result callback once, with SUCCESS for ACCEPTED,
TOO_MANY_MISSION_ITEMS for NO_SPACE and ERROR for every other type. -/
theorem mission_ack_reports_result (env : Env) (s : MissionImpl)
    (mission_ack : mavlink_mission_ack_t) (cb : Nat)
    (hactive : s._activity = Activity.SET_MISSION)
    (hcb : s._result_callback = some cb)
    (hus : mission_ack.target_system = env.own_system_id ∨
      mission_ack.target_component = env.own_component_id) :
    (process_mission_ack env s mission_ack).2 =
      [Event.unregister_timeout_handler s._timeout_cookie,
       Event.result_callback cb (ack_result mission_ack.type)] := by
  have hnot : ¬ (mission_ack.target_system ≠ env.own_system_id ∧
      mission_ack.target_component ≠ env.own_component_id) := by
    rintro ⟨h1, h2⟩
    rcases hus with h | h
    · exact h1 h
    · exact h2 h
  unfold process_mission_ack
  rw [if_neg (by simp [hactive]), if_neg hnot]
  simp only [hcb, report_mission_result, ack_result]
  split_ifs <;> rfl

/-- C10 (witness): a `MISSION_ACK` of type NO_SPACE during the upload of the S4 mission
with callback 1. -/
theorem mission_ack_reports_result_witness :
    uploading_engine._activity = Activity.SET_MISSION ∧
    uploading_engine._result_callback = some 1 ∧
    (process_mission_ack example_env uploading_engine
      { target_system := 255, target_component := 190, type := MAV_MISSION_NO_SPACE,
        mission_type := 0 }).2 =
      [Event.unregister_timeout_handler none,
       Event.result_callback 1 Result.TOO_MANY_MISSION_ITEMS] :=
  ⟨rfl, rfl,
   mission_ack_reports_result example_env uploading_engine _ 1 rfl rfl (Or.inl rfl)⟩

/-! ## Properties of the download path -/

theorem supported_step (env : Env) (w : mavlink_mission_item_int_t) (st : ItemsLoop)
    (h : supported_wire_item w = true) :
    (assemble_wire_item env w st).2 = false ∧
      (assemble_wire_item env w st).1.result = st.result := by
  unfold supported_wire_item at h
  unfold assemble_wire_item
  split_ifs at h ⊢ <;> simp_all

theorem unsupported_step (env : Env) (w : mavlink_mission_item_int_t) (st : ItemsLoop)
    (h : supported_wire_item w = false) :
    (assemble_wire_item env w st).1.result = Result.UNSUPPORTED := by
  unfold supported_wire_item at h
  unfold assemble_wire_item
  split_ifs at h ⊢ <;> simp_all

theorem sticky_step (env : Env) (w : mavlink_mission_item_int_t) (st : ItemsLoop)
    (h : st.result = Result.UNSUPPORTED) :
    (assemble_wire_item env w st).1.result = Result.UNSUPPORTED := by
  unfold assemble_wire_item
  split_ifs <;> simp_all

theorem supported_loop (env : Env) (l : List mavlink_mission_item_int_t) (st : ItemsLoop)
    (h : ∀ w ∈ l, supported_wire_item w = true) :
    (assemble_wire_items env l st).result = st.result := by
  induction l generalizing st with
  | nil => rfl
  | cons w rest ih =>
    have hs := supported_step env w st (h w (List.mem_cons_self _ _))
    have hrest := ih (assemble_wire_item env w st).1
      (fun v hv => h v (List.mem_cons_of_mem _ hv))
    unfold assemble_wire_items
    rcases hstep : assemble_wire_item env w st with ⟨st1, b⟩
    rw [hstep] at hs hrest
    simp only at hs hrest ⊢
    rw [hs.1]
    simp only
    rw [hrest, hs.2]

theorem sticky_loop (env : Env) (l : List mavlink_mission_item_int_t) (st : ItemsLoop)
    (h : st.result = Result.UNSUPPORTED) :
    (assemble_wire_items env l st).result = Result.UNSUPPORTED := by
  induction l generalizing st with
  | nil => exact h
  | cons w rest ih =>
    have hs := sticky_step env w st h
    have hrest := ih (assemble_wire_item env w st).1 hs
    unfold assemble_wire_items
    rcases hstep : assemble_wire_item env w st with ⟨st1, b⟩
    rw [hstep] at hs hrest
    cases b
    · exact hrest
    · exact hs

theorem unsupported_loop (env : Env) (l : List mavlink_mission_item_int_t) (st : ItemsLoop)
    (h : ∃ w ∈ l, supported_wire_item w = false) :
    (assemble_wire_items env l st).result = Result.UNSUPPORTED := by
  induction l generalizing st with
  | nil => obtain ⟨w, hw, _⟩ := h; exact absurd hw (List.not_mem_nil _)
  | cons v rest ih =>
    unfold assemble_wire_items
    cases hv : supported_wire_item v with
    | false =>
      have hu := unsupported_step env v st hv
      have hrest := sticky_loop env rest (assemble_wire_item env v st).1 hu
      rcases hstep : assemble_wire_item env v st with ⟨st1, b⟩
      rw [hstep] at hu hrest
      cases b
      · exact hrest
      · exact hu
    | true =>
      have hs := supported_step env v st hv
      have hrest := ih (assemble_wire_item env v st).1 (by
        obtain ⟨w, hw, hwu⟩ := h
        rcases List.mem_cons.1 hw with rfl | hw
        · rw [hv] at hwu; exact absurd hwu (by simp)
        · exact ⟨w, hw, hwu⟩)
      rcases hstep : assemble_wire_item env v st with ⟨st1, b⟩
      rw [hstep] at hs hrest
      simp only at hs
      rw [hs.1]
      exact hrest

theorem assemble_mission_items_run (env : Env) (s : MissionImpl)
    (first : mavlink_mission_item_int_t) (rest : List mavlink_mission_item_int_t)
    (hdl : s._mavlink_mission_items_downloaded = first :: rest)
    (hfirst : first.command = MAV_CMD_NAV_WAYPOINT) :
    assemble_mission_items env s =
      ({ (report_mission_items_and_result
            { s with _mission_items := assembled_items env (first :: rest) }
            s._mission_items_and_result_callback
            (assemble_wire_items env (first :: rest) (items_loop_start env)).result).1 with
          _activity := Activity.NONE },
       (report_mission_items_and_result
            { s with _mission_items := assembled_items env (first :: rest) }
            s._mission_items_and_result_callback
            (assemble_wire_items env (first :: rest) (items_loop_start env)).result).2) := by
  unfold assemble_mission_items
  rw [hdl]
  simp only [hfirst, ne_eq, not_true_eq_false, if_false]
  rfl

theorem int_to_uint16_cast (k : Nat) (h : k < 65536) : int_to_uint16 (k : Int) = k := by
  unfold int_to_uint16
  have : ((k : Int) % 65536) = (k : Int) := Int.emod_eq_of_lt (by omega) (by omega)
  rw [this]
  simp

theorem deliver_items_nil (env : Env) (acc : MissionImpl × List Event) :
    deliver_items env acc [] = acc := rfl

theorem deliver_items_cons (env : Env) (s : MissionImpl) (ev : List Event)
    (item : mavlink_mission_item_int_t) (rest : List mavlink_mission_item_int_t) :
    deliver_items env (s, ev) (item :: rest) =
      deliver_items env
        ((process_mission_item_int env s item).1,
         ev ++ (process_mission_item_int env s item).2) rest := rfl

theorem deliver_items_append (env : Env) (acc : MissionImpl × List Event)
    (l1 l2 : List mavlink_mission_item_int_t) :
    deliver_items env acc (l1 ++ l2) = deliver_items env (deliver_items env acc l1) l2 := by
  simp [deliver_items, List.foldl_append]

theorem process_item_not_last (env : Env) (s : MissionImpl)
    (item : mavlink_mission_item_int_t) (j : Nat) (hj : j + 1 < 65536)
    (hnext : s._next_mission_item_to_download = (j : Int))
    (hnum : (j : Int) + 1 ≠ s._num_mission_items_to_download) :
    process_mission_item_int env s item =
      ({ s with
         _mavlink_mission_items_downloaded := s._mavlink_mission_items_downloaded ++ [item]
         _next_mission_item_to_download := ((j + 1 : Nat) : Int) },
       [Event.refresh_timeout_handler s._timeout_cookie,
        Event.send_message (request_int_message env (j + 1))]) := by
  unfold process_mission_item_int
  simp only [hnext]
  rw [if_neg hnum]
  simp only [download_next_mission_item, request_int_message]
  have : int_to_uint16 ((j : Int) + 1) = j + 1 := by
    have := int_to_uint16_cast (j + 1) hj
    simpa using this
  rw [this]
  simp

theorem deliver_prefix (env : Env) (pre : List mavlink_mission_item_int_t) (s : MissionImpl)
    (ev : List Event) (j : Nat)
    (hnext : s._next_mission_item_to_download = (j : Int))
    (hlt : ((j + pre.length : Nat) : Int) < s._num_mission_items_to_download)
    (hsmall : j + pre.length < 65536) :
    deliver_items env (s, ev) pre =
      ({ s with
         _mavlink_mission_items_downloaded := s._mavlink_mission_items_downloaded ++ pre
         _next_mission_item_to_download := ((j + pre.length : Nat) : Int) },
       ev ++ request_events env s._timeout_cookie (j + 1) pre.length) := by
  induction pre generalizing s ev j with
  | nil =>
    simp only [deliver_items_nil, List.length_nil, Nat.add_zero, List.append_nil,
      request_events, List.range'_zero, List.map_nil, List.flatten_nil, ← hnext]
  | cons item rest ih =>
    simp only [List.length_cons] at hlt hsmall
    rw [deliver_items_cons, process_item_not_last env s item j (by omega) hnext (by omega)]
    simp only []
    have hsum : j + 1 + rest.length = j + (rest.length + 1) := by omega
    rw [ih _ _ (j + 1) rfl (by simp only []; rw [hsum]; exact hlt) (by omega)]
    simp only [List.append_assoc, List.singleton_append, List.length_cons, request_events,
      List.range'_succ, List.map_cons, List.flatten_cons, List.cons_append, List.nil_append]
    rw [show j + 1 + rest.length = j + (rest.length + 1) by omega]

theorem process_item_last (env : Env) (s : MissionImpl)
    (item : mavlink_mission_item_int_t)
    (hnum : s._next_mission_item_to_download + 1 = s._num_mission_items_to_download) :
    process_mission_item_int env s item =
      ((assemble_mission_items env
          { s with
            _mavlink_mission_items_downloaded :=
              s._mavlink_mission_items_downloaded ++ [item] }).1,
       Event.unregister_timeout_handler s._timeout_cookie ::
         Event.send_message (accepted_ack_message env) ::
         (assemble_mission_items env
          { s with
            _mavlink_mission_items_downloaded :=
              s._mavlink_mission_items_downloaded ++ [item] }).2) := by
  unfold process_mission_item_int
  simp only [hnum, if_true]
  rfl

theorem download_started (env : Env) (s : MissionImpl) (callback : Option Nat)
    (hidle : s._activity = Activity.NONE) (hlink : env.send_ok = true) :
    download_mission_async env s callback =
      ({ s with
         _timeout_cookie := some env.new_cookie
         _mavlink_mission_items_downloaded := []
         _activity := Activity.GET_MISSION
         _mission_items_and_result_callback := callback },
       [Event.send_message (request_list_message env),
        Event.register_timeout_handler 1 env.new_cookie]) := by
  unfold download_mission_async
  rw [if_neg (by simp [hidle])]
  simp only []
  rw [if_neg (by simp [hlink])]
  rfl

theorem count_received (env : Env) (s : MissionImpl)
    (mission_count : mavlink_mission_count_t)
    (hactive : s._activity = Activity.GET_MISSION) :
    process_mission_count env s mission_count =
      ({ s with
         _num_mission_items_to_download := (mission_count.count : Int)
         _next_mission_item_to_download := 0 },
       [Event.refresh_timeout_handler s._timeout_cookie,
        Event.send_message (request_int_message env 0)]) := by
  unfold process_mission_count
  rw [if_neg (by simp [hactive])]
  rfl

theorem assemble_supported (env : Env) (s : MissionImpl) (cb : Nat)
    (first : mavlink_mission_item_int_t) (rest : List mavlink_mission_item_int_t)
    (hdl : s._mavlink_mission_items_downloaded = first :: rest)
    (hfirst : first.command = MAV_CMD_NAV_WAYPOINT)
    (hsup : ∀ w ∈ first :: rest, supported_wire_item w = true)
    (hcb : s._mission_items_and_result_callback = some cb) :
    assemble_mission_items env s =
      ({ s with
         _mission_items := assembled_items env (first :: rest)
         _activity := Activity.NONE },
       [Event.mission_items_and_result_callback cb Result.SUCCESS
         (assembled_items env (first :: rest))]) := by
  rw [assemble_mission_items_run env s first rest hdl hfirst,
    supported_loop env _ _ hsup, hcb]
  simp [report_mission_items_and_result, items_loop_start]

theorem listed_unsupported_not_supported (w : mavlink_mission_item_int_t)
    (h : listed_unsupported (fun v => capture_form v = true) w) :
    supported_wire_item w = false := by
  unfold supported_wire_item
  rcases h with h | h | h | h | h
  · simp [h.1, h.2]
  · simp [h.1, h.2, MAV_CMD_NAV_WAYPOINT, MAV_CMD_DO_MOUNT_CONTROL]
  · have := h.2
    simp only [capture_form, Bool.not_eq_true] at this
    simp [h.1, this, MAV_CMD_NAV_WAYPOINT, MAV_CMD_DO_MOUNT_CONTROL,
      MAV_CMD_IMAGE_START_CAPTURE]
  · have h2 := h.2
    have hc : (w.param1.int_eq 1 && w.param3.lt_zero && w.param4.int_eq 0) = false := by
      by_contra hc
      simp only [Bool.not_eq_false, Bool.and_eq_true] at hc
      exact h2 ⟨hc.1.1, hc.2⟩
    simp [h.1, hc, MAV_CMD_NAV_WAYPOINT, MAV_CMD_DO_MOUNT_CONTROL,
      MAV_CMD_IMAGE_START_CAPTURE, MAV_CMD_IMAGE_STOP_CAPTURE, MAV_CMD_VIDEO_START_CAPTURE,
      MAV_CMD_VIDEO_STOP_CAPTURE, MAV_CMD_DO_CHANGE_SPEED]
  · simp only [supported_commands, List.mem_cons, List.mem_singleton, List.not_mem_nil,
      or_false, not_or] at h
    simp [h]

/-! ## The claims on timeouts and downloads -/

/-- C11 (failing input): a `MISSION_ACK` of type NO_SPACE, addressed to us and processed
during the upload of the S4 mission, leaves the activity at SET_MISSION, and a following
`upload_mission_async` is answered with BUSY. -/
theorem ack_no_space_leaves_engine_busy :
    uploading_engine._activity = Activity.SET_MISSION ∧
    (process_mission_ack example_env uploading_engine no_space_ack).1._activity =
      Activity.SET_MISSION ∧
    (upload_mission_async example_env
      (process_mission_ack example_env uploading_engine no_space_ack).1 S4_mission
      (some 3)).2 = [Event.result_callback 3 Result.BUSY] := by
  decide

/-- C12 (failing input): during a download started after an accepted upload, the
timeout reports TIMEOUT (to the callback of the earlier upload) and leaves the activity at
GET_MISSION; a following `download_mission_async` is answered with BUSY. -/
theorem timeout_leaves_engine_busy :
    downloading_after_upload._activity = Activity.GET_MISSION ∧
    (process_timeout downloading_after_upload).2 =
      [Event.result_callback 1 Result.TIMEOUT] ∧
    (process_timeout downloading_after_upload).1._activity = Activity.GET_MISSION ∧
    (download_mission_async example_env (process_timeout downloading_after_upload).1
      (some 3)).2 = [Event.mission_items_and_result_callback 3 Result.BUSY []] := by
  decide

/-- C13 (failing input): during a download started with callback 2 from an idle engine,
the timeout invokes no callback at all: it reports through the result callback of
uploads, which is null, and not through the callback given to the download. -/
theorem timeout_skips_download_callback :
    downloading_engine._activity = Activity.GET_MISSION ∧
    downloading_engine._mission_items_and_result_callback = some 2 ∧
    downloading_engine._result_callback = none ∧
    (process_timeout downloading_engine).2 = [] := by
  decide

/-- C14 (failing input): the upload of the S4 mission from an idle engine leaves the
activity at SET_MISSION and its only effect is the sending of `MISSION_COUNT`: no timeout
handler is registered and the timeout cookie stays null. -/
theorem upload_registers_no_timeout :
    (upload_mission_async example_env idle_engine S4_mission (some 1)).1._activity =
      Activity.SET_MISSION ∧
    (upload_mission_async example_env idle_engine S4_mission (some 1)).2 =
      [Event.send_message (mission_count_message example_env 3)] ∧
    (upload_mission_async example_env idle_engine S4_mission (some 1)).1._timeout_cookie =
      none := by
  decide

/-- C15: while the activity is GET_MISSION, `process_mission_count` on `MISSION_COUNT(n)`
records n as the number of items to download and 0 as the next item to download,
refreshes the timeout and sends one `MISSION_REQUEST_INT` with seq 0, and has no other
effect; while the activity is not GET_MISSION it has no effect and returns the engine as
it was. -/
theorem mission_count_starts_requests (env : Env) (s : MissionImpl)
    (mission_count : mavlink_mission_count_t) :
    (s._activity = Activity.GET_MISSION →
      process_mission_count env s mission_count =
        ({ s with
           _num_mission_items_to_download := (mission_count.count : Int)
           _next_mission_item_to_download := 0 },
         [Event.refresh_timeout_handler s._timeout_cookie,
          Event.send_message (request_int_message env 0)])) ∧
    (s._activity ≠ Activity.GET_MISSION →
      process_mission_count env s mission_count = (s, [])) := by
  constructor
  · intro h
    exact count_received env s mission_count h
  · intro h
    unfold process_mission_count
    rw [if_pos h]

/-- C15 (witness): `MISSION_COUNT(3)` during a download, and in an idle engine. -/
theorem mission_count_starts_requests_witness :
    downloading_engine._activity = Activity.GET_MISSION ∧
    process_mission_count example_env downloading_engine (count_message 3) =
      ({ downloading_engine with
         _num_mission_items_to_download := 3
         _next_mission_item_to_download := 0 },
       [Event.refresh_timeout_handler (some 1),
        Event.send_message (request_int_message example_env 0)]) ∧
    idle_engine._activity ≠ Activity.GET_MISSION ∧
    process_mission_count example_env idle_engine (count_message 3) = (idle_engine, []) :=
  ⟨rfl,
   (mission_count_starts_requests example_env downloading_engine (count_message 3)).1 rfl,
   by decide,
   (mission_count_starts_requests example_env idle_engine (count_message 3)).2 (by decide)⟩

/-- C16: for every n between 1 and 65535 (the count of `MISSION_COUNT` is a `uint16_t`)
and every list of n supported wire items whose first is a `NAV_WAYPOINT`: starting from
activity NONE over a working link, after `download_mission_async`, `MISSION_COUNT(n)` and
the n `MISSION_ITEM_INT` messages in order, the effects of the engine are, in this order:
`MISSION_REQUEST_LIST` sent and the timeout registered; for seq 0, 1, ..., n-1 the timeout
refreshed and `MISSION_REQUEST_INT(seq)` sent; the timeout unregistered, one
`MISSION_ACK(ACCEPTED)` sent and the download callback invoked once, with SUCCESS and the
assembled mission.  The activity is NONE afterwards. -/
theorem download_session_succeeds (env : Env) (s : MissionImpl) (cb : Nat)
    (mission_count : mavlink_mission_count_t) (items : List mavlink_mission_item_int_t)
    (first : mavlink_mission_item_int_t)
    (hidle : s._activity = Activity.NONE) (hlink : env.send_ok = true)
    (hcount : mission_count.count = items.length) (hrange : mission_count.count < 65536)
    (hfirst : items.head? = some first) (hway : first.command = MAV_CMD_NAV_WAYPOINT)
    (hsup : ∀ w ∈ items, supported_wire_item w = true) :
    (download_session env s (some cb) mission_count items).2 =
        [Event.send_message (request_list_message env),
          Event.register_timeout_handler 1 env.new_cookie] ++
        request_events env (some env.new_cookie) 0 items.length ++
        [Event.unregister_timeout_handler (some env.new_cookie),
          Event.send_message (accepted_ack_message env),
          Event.mission_items_and_result_callback cb Result.SUCCESS
            (assembled_items env items)] ∧
      (download_session env s (some cb) mission_count items).1._activity = Activity.NONE := by
  have hne : items ≠ [] := by
    intro h; rw [h] at hfirst; simp at hfirst
  obtain ⟨rest, hitems⟩ : ∃ rest, items = first :: rest := by
    cases items with
    | nil => exact absurd rfl hne
    | cons a l => simp at hfirst; exact ⟨l, by rw [hfirst]⟩
  have hsplit : items = items.dropLast ++ [items.getLast hne] :=
    (List.dropLast_append_getLast hne).symm
  have hlen : items.dropLast.length + 1 = items.length := by
    rw [List.length_dropLast]
    have : 0 < items.length := List.length_pos.2 hne
    omega
  unfold download_session
  rw [download_started env s (some cb) hidle hlink]
  simp only []
  rw [count_received env _ mission_count rfl]
  simp only []
  rw [hsplit, deliver_items_append,
    deliver_prefix env items.dropLast _ _ 0 rfl (by simp only [hcount]; omega) (by omega),
    deliver_items_cons, deliver_items_nil,
    process_item_last env _ _ (by simp only [hcount]; omega)]
  simp only [List.nil_append, ← hsplit]
  rw [assemble_supported env _ cb first rest (by simp only [hitems]) hway
    (by rw [← hitems]; exact hsup) rfl]
  refine ⟨?_, rfl⟩
  simp only [← hitems, List.append_assoc, List.cons_append, List.nil_append, Nat.zero_add,
    List.singleton_append]
  rw [← hlen]
  simp only [request_events, List.range'_succ, List.map_cons, List.flatten_cons,
    List.cons_append, List.nil_append, Nat.zero_add]

/-- C16 (witness): the download of a waypoint followed by an `IMAGE_STOP_CAPTURE`. -/
theorem download_session_succeeds_witness :
    idle_engine._activity = Activity.NONE ∧
    example_env.send_ok = true ∧
    (download_session example_env idle_engine (some 2) (count_message 2)
      [plain_wire_item 0 MAV_CMD_NAV_WAYPOINT,
       plain_wire_item 1 MAV_CMD_IMAGE_STOP_CAPTURE]).2 =
        [Event.send_message (request_list_message example_env),
          Event.register_timeout_handler 1 1,
          Event.refresh_timeout_handler (some 1),
          Event.send_message (request_int_message example_env 0),
          Event.refresh_timeout_handler (some 1),
          Event.send_message (request_int_message example_env 1),
          Event.unregister_timeout_handler (some 1),
          Event.send_message (accepted_ack_message example_env),
          Event.mission_items_and_result_callback 2 Result.SUCCESS
            (assembled_items example_env
              [plain_wire_item 0 MAV_CMD_NAV_WAYPOINT,
               plain_wire_item 1 MAV_CMD_IMAGE_STOP_CAPTURE])] ∧
    (download_session example_env idle_engine (some 2) (count_message 2)
      [plain_wire_item 0 MAV_CMD_NAV_WAYPOINT,
       plain_wire_item 1 MAV_CMD_IMAGE_STOP_CAPTURE]).1._activity = Activity.NONE :=
  ⟨rfl, rfl,
   download_session_succeeds example_env idle_engine 2 (count_message 2)
     [plain_wire_item 0 MAV_CMD_NAV_WAYPOINT, plain_wire_item 1 MAV_CMD_IMAGE_STOP_CAPTURE]
     (plain_wire_item 0 MAV_CMD_NAV_WAYPOINT) rfl rfl rfl (by decide) rfl rfl (by decide)⟩

/-- C17 (failing input): in a download of 2 items, after the item with seq 0 has been
received and seq 1 requested, a second `MISSION_ITEM_INT` with seq 0 completes the
download: the acknowledgement is sent and a mission of two copies of the same waypoint is
reported with SUCCESS.  The item's seq plays no part in the decision. -/
theorem duplicate_item_completes_download :
    (process_mission_item_int example_env (counting_engine 2)
      (plain_wire_item 0 MAV_CMD_NAV_WAYPOINT)).2 =
      [Event.refresh_timeout_handler (some 1),
       Event.send_message (request_int_message example_env 1)] ∧
    (process_mission_item_int example_env
      (process_mission_item_int example_env (counting_engine 2)
        (plain_wire_item 0 MAV_CMD_NAV_WAYPOINT)).1
      (plain_wire_item 0 MAV_CMD_NAV_WAYPOINT)).2 =
      [Event.unregister_timeout_handler (some 1),
       Event.send_message (accepted_ack_message example_env),
       Event.mission_items_and_result_callback 2 Result.SUCCESS
         [flown_through_waypoint, flown_through_waypoint]] := by
  decide!

/-- C18 (failing input): a download of one item whose command is `DO_CHANGE_SPEED` is
completed (timeout unregistered, acknowledgement sent) without any callback being
invoked, and the activity stays GET_MISSION. -/
theorem first_item_not_waypoint_reports_nothing :
    (process_mission_item_int example_env (counting_engine 1)
      (plain_wire_item 0 MAV_CMD_DO_CHANGE_SPEED)).2 =
      [Event.unregister_timeout_handler (some 1),
       Event.send_message (accepted_ack_message example_env)] ∧
    (process_mission_item_int example_env (counting_engine 1)
      (plain_wire_item 0 MAV_CMD_DO_CHANGE_SPEED)).1._activity = Activity.GET_MISSION := by
  decide

/-- C19 (failing input): on `MISSION_COUNT(0)` during a download the engine refreshes the
timeout and asks for the item with seq 0; no callback is invoked and the activity stays
GET_MISSION. -/
theorem zero_count_reports_nothing :
    downloading_engine._activity = Activity.GET_MISSION ∧
    (process_mission_count example_env downloading_engine (count_message 0)).2 =
      [Event.refresh_timeout_handler (some 1),
       Event.send_message (request_int_message example_env 0)] ∧
    (process_mission_count example_env downloading_engine (count_message 0)).1._activity =
      Activity.GET_MISSION := by
  decide

/-- C20 (counterexample): the wire list of a waypoint followed by an
`IMAGE_START_CAPTURE` with parameters (1, 0, 1), which match neither row of the camera
table, is assembled with SUCCESS into one item with the `TAKE_PHOTO` action: param1 is not
examined. -/
theorem capture_for_camera_one_is_assembled :
    listed_unsupported matches_capture_row camera_one_capture ∧
    (assemble_mission_items example_env
      (engine_downloaded [plain_wire_item 0 MAV_CMD_NAV_WAYPOINT, camera_one_capture])).2 =
      [Event.mission_items_and_result_callback 7 Result.SUCCESS
        [{ flown_through_waypoint with camera_action := CameraAction.TAKE_PHOTO }]] := by
  decide!

/-- C20 (amended): for every non-empty downloaded wire list whose first item is a
`NAV_WAYPOINT` and which contains an unsupported item, where an `IMAGE_START_CAPTURE` is
unsupported when its param2 and param3 have neither of the two forms the assembler accepts
(whatever its param1) and the other items are as the spec lists them,
`assemble_mission_items` invokes the download callback exactly once, with UNSUPPORTED and
an empty mission item list, sets the activity to NONE and stores no mission item. -/
theorem unsupported_item_reported (env : Env) (s : MissionImpl) (cb : Nat)
    (first : mavlink_mission_item_int_t) (rest : List mavlink_mission_item_int_t)
    (hdl : s._mavlink_mission_items_downloaded = first :: rest)
    (hfirst : first.command = MAV_CMD_NAV_WAYPOINT)
    (hun : ∃ w ∈ first :: rest, listed_unsupported (fun v => capture_form v = true) w)
    (hcb : s._mission_items_and_result_callback = some cb) :
    (assemble_mission_items env s).2 =
        [Event.mission_items_and_result_callback cb Result.UNSUPPORTED []] ∧
      (assemble_mission_items env s).1._activity = Activity.NONE ∧
      (assemble_mission_items env s).1._mission_items = [] := by
  obtain ⟨w, hw, hlisted⟩ := hun
  rw [assemble_mission_items_run env s first rest hdl hfirst,
    unsupported_loop env _ _ ⟨w, hw, listed_unsupported_not_supported w hlisted⟩, hcb]
  simp [report_mission_items_and_result]

/-- C20 (witness): a waypoint followed by a wire item whose command, 999, is outside the
supported set. -/
theorem unsupported_item_reported_witness :
    (engine_downloaded unknown_command_list)._mavlink_mission_items_downloaded =
      plain_wire_item 0 MAV_CMD_NAV_WAYPOINT :: [plain_wire_item 1 999] ∧
    (assemble_mission_items example_env (engine_downloaded unknown_command_list)).2 =
        [Event.mission_items_and_result_callback 7 Result.UNSUPPORTED []] ∧
    (assemble_mission_items example_env
      (engine_downloaded unknown_command_list)).1._activity = Activity.NONE ∧
    (assemble_mission_items example_env
      (engine_downloaded unknown_command_list)).1._mission_items = [] :=
  ⟨rfl,
   unsupported_item_reported example_env (engine_downloaded unknown_command_list) 7
     (plain_wire_item 0 MAV_CMD_NAV_WAYPOINT) [plain_wire_item 1 999] rfl rfl
     ⟨plain_wire_item 1 999, by simp, by decide⟩ rfl⟩

/-! ## Properties of assembly by waypoint, of the index map and of the stored messages -/

theorem other_step (env : Env) (w : mavlink_mission_item_int_t) (st : ItemsLoop)
    (h : supported_wire_item w = true) (hw : w.command ≠ MAV_CMD_NAV_WAYPOINT) :
    assemble_wire_item env w st =
      ({ st with new_mission_item := with_wire_item st.new_mission_item w }, false) := by
  unfold supported_wire_item at h
  unfold assemble_wire_item with_wire_item
  simp only [hw, ↓reduceIte] at h ⊢
  by_cases h1 : w.command = MAV_CMD_DO_MOUNT_CONTROL
  · simp only [h1, ↓reduceIte] at h ⊢
    simp [h]
  simp only [h1, ↓reduceIte] at h ⊢
  by_cases h2 : w.command = MAV_CMD_IMAGE_START_CAPTURE
  · simp only [h2, ↓reduceIte] at h ⊢
    by_cases h2a : (w.param2.gt_zero && w.param3.int_eq 0) = true
    · simp only [h2a, ↓reduceIte]
    · have h2b : (w.param2.int_eq 0 && w.param3.int_eq 1) = true := by
        simpa [h2a] using h
      simp only [h2a, h2b, ↓reduceIte]
      simp
  simp only [h2, ↓reduceIte] at h ⊢
  by_cases h3 : w.command = MAV_CMD_IMAGE_STOP_CAPTURE
  · simp only [h3, ↓reduceIte]
  simp only [h3, ↓reduceIte] at h ⊢
  by_cases h4 : w.command = MAV_CMD_VIDEO_START_CAPTURE
  · simp only [h4, ↓reduceIte]
  simp only [h4, ↓reduceIte] at h ⊢
  by_cases h5 : w.command = MAV_CMD_VIDEO_STOP_CAPTURE
  · simp only [h5, ↓reduceIte]
  simp only [h5, ↓reduceIte] at h ⊢
  by_cases h6 : w.command = MAV_CMD_DO_CHANGE_SPEED
  · simp only [h6, ↓reduceIte] at h ⊢
    simp only [h, ↓reduceIte]
  simp only [h6, ↓reduceIte] at h ⊢
  by_cases h7 : w.command = MAV_CMD_NAV_LOITER_TIME
  · simp only [h7, ↓reduceIte]
  simp [h7] at h

theorem waypoint_step (env : Env) (w : mavlink_mission_item_int_t) (st : ItemsLoop)
    (h : supported_wire_item w = true) (hw : w.command = MAV_CMD_NAV_WAYPOINT)
    (hst : st.have_set_position = false → st.new_mission_item = MissionItem.fresh env) :
    assemble_wire_item env w st = (item_assembled st (waypoint_opened env w), false) := by
  unfold supported_wire_item at h
  rw [if_pos hw] at h
  have hf : w.frame = MAV_FRAME_GLOBAL_RELATIVE_ALT_INT := by simpa using h
  unfold assemble_wire_item item_assembled waypoint_opened
  rw [if_pos hw, if_neg (by simp [hf])]
  cases hp : st.have_set_position
  · simp [hst hp]
  · simp

theorem segments_loop (env : Env) (l : List mavlink_mission_item_int_t) (st : ItemsLoop)
    (h : ∀ w ∈ l, supported_wire_item w = true) (hst : st.have_set_position = true) :
    (assemble_wire_items env l st).mission_items ++
        [(assemble_wire_items env l st).new_mission_item] =
      st.mission_items ++
        ((split_at_waypoints l).1.foldl with_wire_item st.new_mission_item ::
          (split_at_waypoints l).2.map (segment_item env)) := by
  induction l generalizing st with
  | nil => simp [assemble_wire_items, split_at_waypoints]
  | cons w rest ih =>
    have hw := h w (List.mem_cons_self _ _)
    have hrest : ∀ v ∈ rest, supported_wire_item v = true :=
      fun v hv => h v (List.mem_cons_of_mem _ hv)
    by_cases hc : w.command = MAV_CMD_NAV_WAYPOINT
    · have hstep := waypoint_step env w st hw hc (by simp [hst])
      simp only [assemble_wire_items, hstep, split_at_waypoints, if_pos hc]
      rw [ih _ hrest rfl]
      simp [item_assembled, hst, segment_item]
    · have hstep := other_step env w st hw hc
      simp only [assemble_wire_items, hstep, split_at_waypoints, if_neg hc]
      rw [ih { st with new_mission_item := with_wire_item st.new_mission_item w } hrest hst]
      simp

theorem assembled_segments (env : Env) (first : mavlink_mission_item_int_t)
    (rest : List mavlink_mission_item_int_t)
    (hfirst : first.command = MAV_CMD_NAV_WAYPOINT)
    (hsup : ∀ w ∈ first :: rest, supported_wire_item w = true) :
    assembled_items env (first :: rest) =
      (waypoint_segments (first :: rest)).map (segment_item env) := by
  have hw := hsup first (List.mem_cons_self _ _)
  have hrest : ∀ v ∈ rest, supported_wire_item v = true :=
    fun v hv => hsup v (List.mem_cons_of_mem _ hv)
  have hstep := waypoint_step env first (items_loop_start env) hw hfirst (fun _ => rfl)
  unfold assembled_items waypoint_segments
  simp only [assemble_wire_items, hstep, split_at_waypoints, if_pos hfirst]
  rw [segments_loop env rest _ hrest rfl]
  simp [item_assembled, items_loop_start, segment_item]

theorem split_flatten (l : List mavlink_mission_item_int_t) :
    (split_at_waypoints l).1 ++ (split_at_waypoints l).2.flatten = l := by
  induction l with
  | nil => rfl
  | cons w rest ih =>
    by_cases hc : w.command = MAV_CMD_NAV_WAYPOINT
    · simp only [split_at_waypoints, if_pos hc, List.flatten_cons, List.nil_append,
        List.cons_append, List.append_assoc]
      rw [ih]
    · simp only [split_at_waypoints, if_neg hc, List.cons_append]
      rw [ih]

theorem split_heads (l : List mavlink_mission_item_int_t) :
    (split_at_waypoints l).2.filterMap List.head? =
      l.filter (fun w => decide (w.command = MAV_CMD_NAV_WAYPOINT)) := by
  induction l with
  | nil => rfl
  | cons w rest ih =>
    by_cases hc : w.command = MAV_CMD_NAV_WAYPOINT
    · simp [split_at_waypoints, hc, ih]
    · simp [split_at_waypoints, hc, ih]

theorem split_length (l : List mavlink_mission_item_int_t) :
    (split_at_waypoints l).2.length =
      l.countP (fun w => decide (w.command = MAV_CMD_NAV_WAYPOINT)) := by
  induction l with
  | nil => rfl
  | cons w rest ih =>
    by_cases hc : w.command = MAV_CMD_NAV_WAYPOINT
    · simp [split_at_waypoints, hc, ih]
    · simp [split_at_waypoints, hc, ih]

theorem split_before (l : List mavlink_mission_item_int_t) :
    ∀ o ∈ (split_at_waypoints l).1, o.command ≠ MAV_CMD_NAV_WAYPOINT := by
  induction l with
  | nil => simp [split_at_waypoints]
  | cons w rest ih =>
    by_cases hc : w.command = MAV_CMD_NAV_WAYPOINT
    · simp [split_at_waypoints, hc]
    · simp only [split_at_waypoints, if_neg hc, List.mem_cons]
      rintro o (rfl | ho)
      · exact hc
      · exact ih o ho

theorem split_shape (l : List mavlink_mission_item_int_t) :
    ∀ seg ∈ (split_at_waypoints l).2, ∃ wp others, seg = wp :: others ∧
      wp.command = MAV_CMD_NAV_WAYPOINT ∧
      ∀ o ∈ others, o.command ≠ MAV_CMD_NAV_WAYPOINT := by
  induction l with
  | nil => simp [split_at_waypoints]
  | cons w rest ih =>
    by_cases hc : w.command = MAV_CMD_NAV_WAYPOINT
    · simp only [split_at_waypoints, if_pos hc, List.mem_cons]
      rintro seg (rfl | hseg)
      · exact ⟨w, _, rfl, hc, split_before rest⟩
      · exact ih seg hseg
    · simp only [split_at_waypoints, if_neg hc]
      exact ih

theorem with_wire_item_position (item : MissionItem) (w : mavlink_mission_item_int_t) :
    (with_wire_item item w).latitude_deg = item.latitude_deg ∧
      (with_wire_item item w).longitude_deg = item.longitude_deg ∧
      (with_wire_item item w).relative_altitude_m = item.relative_altitude_m := by
  unfold with_wire_item
  split_ifs <;>
    simp [MissionItem.set_gimbal_pitch_and_yaw, MissionItem.set_camera_action,
      MissionItem.set_camera_photo_interval, MissionItem.set_speed,
      MissionItem.set_camera_action_delay]

theorem foldl_wire_items_position (others : List mavlink_mission_item_int_t)
    (item : MissionItem) :
    (others.foldl with_wire_item item).latitude_deg = item.latitude_deg ∧
      (others.foldl with_wire_item item).longitude_deg = item.longitude_deg ∧
      (others.foldl with_wire_item item).relative_altitude_m = item.relative_altitude_m := by
  induction others generalizing item with
  | nil => simp
  | cons w rest ih =>
    have h1 := with_wire_item_position item w
    have h2 := ih (with_wire_item item w)
    simp only [List.foldl_cons]
    exact ⟨h2.1.trans h1.1, h2.2.1.trans h1.2.1, h2.2.2.trans h1.2.2⟩

theorem segment_item_position (env : Env) (wp : mavlink_mission_item_int_t)
    (others : List mavlink_mission_item_int_t) :
    (segment_item env (wp :: others)).latitude_deg =
        (Flt.of_int wp.x).scale (1 / 10000000) ∧
      (segment_item env (wp :: others)).longitude_deg =
        (Flt.of_int wp.y).scale (1 / 10000000) ∧
      (segment_item env (wp :: others)).relative_altitude_m = wp.z := by
  have h := foldl_wire_items_position others (waypoint_opened env wp)
  simp only [segment_item]
  refine ⟨h.1.trans ?_, h.2.1.trans ?_, h.2.2.trans ?_⟩ <;>
    simp [waypoint_opened, MissionItem.set_position, MissionItem.set_relative_altitude,
      MissionItem.set_fly_through]

theorem assemble_supported_items (env : Env) (s : MissionImpl)
    (first : mavlink_mission_item_int_t) (rest : List mavlink_mission_item_int_t)
    (hdl : s._mavlink_mission_items_downloaded = first :: rest)
    (hfirst : first.command = MAV_CMD_NAV_WAYPOINT)
    (hsup : ∀ w ∈ first :: rest, supported_wire_item w = true) :
    (assemble_mission_items env s).1._mission_items = assembled_items env (first :: rest) := by
  rw [assemble_mission_items_run env s first rest hdl hfirst,
    supported_loop env (first :: rest) (items_loop_start env) hsup]
  unfold report_mission_items_and_result
  cases s._mission_items_and_result_callback <;> simp [items_loop_start]

theorem finished_iff (s : MissionImpl) (h : s._mavlink_mission_item_messages ≠ []) :
    is_mission_finished s = true ↔
      (0 ≤ s._last_current_mavlink_mission_item ∧
        s._last_reached_mavlink_mission_item + 1 =
          (s._mavlink_mission_item_messages.length : Int)) := by
  have hlen : s._mavlink_mission_item_messages.length ≠ 0 := by
    simpa [List.length_eq_zero] using h
  unfold is_mission_finished
  split_ifs with h1 h2
  · simp; omega
  · simp; omega
  · simp; omega

theorem insert_above (m : IndexMap) (key value : Int) (h : ∀ e ∈ m, e.1 < key) :
    IndexMap.insert m key value = m ++ [(key, value)] := by
  induction m with
  | nil => rfl
  | cons e rest ih =>
    obtain ⟨k, v⟩ := e
    have hk : k < key := h (k, v) (List.mem_cons_self _ _)
    simp only [IndexMap.insert]
    rw [if_neg (by omega), if_neg (by omega),
      ih (fun e he => h e (List.mem_cons_of_mem _ he))]
    rfl

theorem mem_diagonal_map (n : Nat) (k v : Int) :
    (k, v) ∈ diagonal_map n ↔ ∃ a, a < n ∧ (a : Int) = k ∧ (a : Int) = v := by
  unfold diagonal_map
  rw [List.mem_map]
  constructor
  · rintro ⟨a, ha, heq⟩
    simp only [Prod.mk.injEq] at heq
    exact ⟨a, List.mem_range.1 ha, heq.1, heq.2⟩
  · rintro ⟨a, ha, h1, h2⟩
    exact ⟨a, List.mem_range.2 ha, by subst h1; subst h2; rfl⟩

theorem diagonal_map_succ (n : Nat) :
    diagonal_map (n + 1) = diagonal_map n ++ [((n : Int), (n : Int))] := by
  simp [diagonal_map, List.range_succ]

theorem insert_diagonal (n : Nat) :
    IndexMap.insert (diagonal_map n) (n : Int) (n : Int) = diagonal_map (n + 1) := by
  rw [diagonal_map_succ, insert_above]
  intro e he
  obtain ⟨k, v⟩ := e
  obtain ⟨a, ha, hk, _⟩ := (mem_diagonal_map n k v).1 he
  simp only
  omega

theorem find_diagonal (n c : Nat) :
    (diagonal_map n).find? (fun entry => decide (entry.2 = (c : Int))) =
      if c < n then some ((c : Int), (c : Int)) else none := by
  induction n with
  | zero => simp [diagonal_map]
  | succ n ih =>
    rw [diagonal_map_succ, List.find?_append, ih]
    by_cases h : c < n
    · simp [h, Nat.lt_succ_of_lt h]
    · by_cases hc : c = n
      · subst hc
        simp
      · have h2 : ¬ c < n + 1 := by omega
        have h3 : ¬ ((n : Int) = (c : Int)) := by omega
        simp [h, h2, h3]

theorem plain_waypoint_step (env : Env) (st : AssembleLoop) (lat lon alt : ℚ) :
    (assemble_item env st (waypoint_item lat lon alt CameraAction.NONE)).indices =
        IndexMap.insert st.indices (st.messages.length : Int) (st.item_i : Int) ∧
      (assemble_item env st (waypoint_item lat lon alt CameraAction.NONE)).item_i =
        st.item_i + 1 ∧
      (assemble_item env st (waypoint_item lat lon alt CameraAction.NONE)).messages.length =
        st.messages.length + 1 := by
  simp [assemble_item, emit_position, emit_speed, emit_gimbal, emit_delay, emit_camera,
    waypoint_item, MissionItem.fresh, MissionItem.is_position_finite, Flt.isfinite, emit]

theorem plain_waypoints_indices (env : Env) (lat lon alt : ℚ) (k : Nat) (st : AssembleLoop)
    (hi : st.indices = diagonal_map st.messages.length)
    (hn : st.item_i = st.messages.length) :
    ((List.replicate k (waypoint_item lat lon alt CameraAction.NONE)).foldl
      (assemble_item env) st).indices = diagonal_map (st.messages.length + k) := by
  induction k generalizing st with
  | zero => simpa using hi
  | succ k ih =>
    have hstep := plain_waypoint_step env st lat lon alt
    rw [List.replicate_succ, List.foldl_cons, ih]
    · rw [hstep.2.2]
      congr 1
      omega
    · rw [hstep.1, hstep.2.2, hi, hn, insert_diagonal]
    · rw [hstep.2.1, hstep.2.2, hn]

theorem ack_accepted (env : Env) (s : MissionImpl) (ack : mavlink_mission_ack_t)
    (hact : s._activity = Activity.SET_MISSION)
    (hsys : ack.target_system = env.own_system_id)
    (htype : ack.type = MAV_MISSION_ACCEPTED) :
    (process_mission_ack env s ack).1 =
      { s with
        _last_current_mavlink_mission_item := -1
        _last_reached_mavlink_mission_item := -1
        _activity := Activity.NONE } := by
  unfold process_mission_ack
  rw [if_neg (by simp [hact]), if_neg (by simp [hsys]), if_pos htype]

theorem accepted_upload (env : Env) (s : MissionImpl) (items : List MissionItem)
    (callback : Option Nat) (ack : mavlink_mission_ack_t)
    (hidle : s._activity = Activity.NONE)
    (hint : env.target_supports_mission_int = true) (hlink : env.send_ok = true)
    (hsys : ack.target_system = env.own_system_id)
    (htype : ack.type = MAV_MISSION_ACCEPTED) :
    (process_mission_ack env (upload_mission_async env s items callback).1 ack).1 =
      { assemble_mavlink_messages env (copy_mission_item_vector s items) with
        _last_current_mavlink_mission_item := -1
        _last_reached_mavlink_mission_item := -1
        _activity := Activity.NONE
        _result_callback := callback } := by
  rw [upload_accepted env s items callback hidle hint hlink]
  rw [ack_accepted env _ ack rfl hsys htype]

theorem accepted_upload_indices (env : Env) (s : MissionImpl) (items : List MissionItem)
    (callback : Option Nat) (ack : mavlink_mission_ack_t)
    (hidle : s._activity = Activity.NONE)
    (hint : env.target_supports_mission_int = true) (hlink : env.send_ok = true)
    (hsys : ack.target_system = env.own_system_id)
    (htype : ack.type = MAV_MISSION_ACCEPTED) :
    (process_mission_ack env (upload_mission_async env s items callback).1
        ack).1._mavlink_mission_item_to_mission_item_indices =
      (items.foldl (assemble_item env) (assemble_start s)).indices := by
  rw [accepted_upload env s items callback ack hidle hint hlink hsys htype]
  rfl

theorem accepted_upload_activity (env : Env) (s : MissionImpl) (items : List MissionItem)
    (callback : Option Nat) (ack : mavlink_mission_ack_t)
    (hidle : s._activity = Activity.NONE)
    (hint : env.target_supports_mission_int = true) (hlink : env.send_ok = true)
    (hsys : ack.target_system = env.own_system_id)
    (htype : ack.type = MAV_MISSION_ACCEPTED) :
    (process_mission_ack env (upload_mission_async env s items callback).1
        ack).1._activity = Activity.NONE := by
  rw [accepted_upload env s items callback ack hidle hint hlink hsys htype]

theorem long_upload_indices :
    engine_after_long_upload._mavlink_mission_item_to_mission_item_indices =
      diagonal_map 65537 := by
  unfold engine_after_long_upload
  rw [accepted_upload_indices example_env idle_engine long_mission (some 1) accepted_ack
    rfl rfl rfl rfl rfl]
  unfold long_mission
  rw [plain_waypoints_indices example_env 47 8 10 65537 (assemble_start idle_engine) rfl rfl]
  congr 1

theorem long_upload_activity : engine_after_long_upload._activity = Activity.NONE := by
  unfold engine_after_long_upload
  exact accepted_upload_activity example_env idle_engine long_mission (some 1) accepted_ack
    rfl rfl rfl rfl rfl

theorem first_entry_smallest (m : IndexMap) (c : Int)
    (hs : m.Pairwise (fun a b => a.1 < b.1)) (h : ∃ k, (k, c) ∈ m) :
    ∃ k, m.find? (fun entry => decide (entry.2 = c)) = some (k, c) ∧ (k, c) ∈ m ∧
      ∀ j, (j, c) ∈ m → k ≤ j := by
  induction m with
  | nil => simp at h
  | cons e rest ih =>
    obtain ⟨k0, v0⟩ := e
    rw [List.pairwise_cons] at hs
    by_cases hv : v0 = c
    · subst hv
      refine ⟨k0, by simp, List.mem_cons_self _ _, ?_⟩
      intro j hj
      rcases List.mem_cons.1 hj with hj | hj
      · simp only [Prod.mk.injEq] at hj
        omega
      · exact le_of_lt (hs.1 _ hj)
    · have hrest : ∃ k, (k, c) ∈ rest := by
        obtain ⟨k, hk⟩ := h
        rcases List.mem_cons.1 hk with hk | hk
        · simp only [Prod.mk.injEq] at hk
          exact absurd hk.2.symm hv
        · exact ⟨k, hk⟩
      obtain ⟨k, hfind, hmem, hmin⟩ := ih hs.2 hrest
      refine ⟨k, ?_, List.mem_cons_of_mem _ hmem, ?_⟩
      · rw [List.find?_cons]
        simp [hv, hfind]
      · intro j hj
        rcases List.mem_cons.1 hj with hj | hj
        · simp only [Prod.mk.injEq] at hj
          exact absurd hj.2.symm hv
        · exact hmin j hj

theorem numbered_getElem (n : Nat) (l : List mavlink_mission_item_int_t) (h : Numbered n l)
    (i : Nat) (w : mavlink_mission_item_int_t) (hw : l[i]? = some w) :
    w.seq = wrap_uint16 (n + i) := by
  induction l generalizing n i with
  | nil => simp at hw
  | cons a rest ih =>
    cases i with
    | zero =>
      simp only [List.getElem?_cons_zero, Option.some.injEq] at hw
      subst hw
      exact h.1
    | succ i =>
      simp only [List.getElem?_cons_succ] at hw
      have := ih (n + 1) h.2 i hw
      rw [this]
      congr 1
      omega

theorem stored_message_seq (env : Env) (s : MissionImpl) (i : Nat) (message : mavlink_message_t)
    (h : (assemble_mavlink_messages env s)._mavlink_mission_item_messages[i]? =
      some message) :
    ∃ item, mavlink_msg_mission_item_int_decode message = some item ∧
      item.seq = wrap_uint16 i := by
  simp only [assemble_mavlink_messages, foldl_messages, assemble_start, List.nil_append,
    List.length_nil, List.getElem?_map, Option.map_eq_some'] at h
  obtain ⟨w, hw, rfl⟩ := h
  refine ⟨w, rfl, ?_⟩
  have := numbered_getElem 0 _ (numbered_mission env s._mission_items 0 none) i w hw
  simpa using this

/-! ## The claims on assembly by waypoint, monitoring, set-current and commands -/

/-- C21: for every downloaded wire list made only of supported items whose first item is
a `NAV_WAYPOINT`, `assemble_mission_items` hands to the callback, with `SUCCESS`, one
logical item for each run of the list cut at its waypoints: as many items as there are
`NAV_WAYPOINT` wire items, the j-th run starting at the j-th `NAV_WAYPOINT` and holding
the wire items up to the next one, and the item of a run having the position of its
waypoint and the other fields that the rest of the run sets. -/
theorem assembled_items_follow_waypoints (env : Env) (s : MissionImpl) (cb : Nat)
    (first : mavlink_mission_item_int_t) (rest : List mavlink_mission_item_int_t)
    (hdl : s._mavlink_mission_items_downloaded = first :: rest)
    (hfirst : first.command = MAV_CMD_NAV_WAYPOINT)
    (hsup : ∀ w ∈ first :: rest, supported_wire_item w = true)
    (hcb : s._mission_items_and_result_callback = some cb) :
    (assemble_mission_items env s).2 =
        [Event.mission_items_and_result_callback cb Result.SUCCESS
          ((waypoint_segments (first :: rest)).map (segment_item env))] ∧
      (assemble_mission_items env s).1._mission_items =
        (waypoint_segments (first :: rest)).map (segment_item env) ∧
      (assemble_mission_items env s).1._mission_items.length =
        (first :: rest).countP (fun w => decide (w.command = MAV_CMD_NAV_WAYPOINT)) ∧
      (waypoint_segments (first :: rest)).flatten = first :: rest ∧
      (waypoint_segments (first :: rest)).filterMap List.head? =
        (first :: rest).filter (fun w => decide (w.command = MAV_CMD_NAV_WAYPOINT)) ∧
      ∀ seg ∈ waypoint_segments (first :: rest), ∃ wp others, seg = wp :: others ∧
        wp.command = MAV_CMD_NAV_WAYPOINT ∧
        (∀ o ∈ others, o.command ≠ MAV_CMD_NAV_WAYPOINT) ∧
        segment_item env seg = others.foldl with_wire_item (waypoint_opened env wp) ∧
        (segment_item env seg).latitude_deg = (Flt.of_int wp.x).scale (1 / 10000000) ∧
        (segment_item env seg).longitude_deg = (Flt.of_int wp.y).scale (1 / 10000000) ∧
        (segment_item env seg).relative_altitude_m = wp.z := by
  have hrun := assemble_supported env s cb first rest hdl hfirst hsup hcb
  have hseg := assembled_segments env first rest hfirst hsup
  have hflat := split_flatten (first :: rest)
  have hnil : (split_at_waypoints (first :: rest)).1 = [] := by
    simp [split_at_waypoints, hfirst]
  rw [hnil, List.nil_append] at hflat
  refine ⟨?_, ?_, ?_, hflat, split_heads _, ?_⟩
  · rw [hrun, hseg]
  · rw [hrun, hseg]
  · rw [hrun, hseg, List.length_map]
    exact split_length _
  · intro seg hmem
    obtain ⟨wp, others, rfl, hwp, hothers⟩ := split_shape _ seg hmem
    have hpos := segment_item_position env wp others
    exact ⟨wp, others, rfl, hwp, hothers, rfl, hpos.1, hpos.2.1, hpos.2.2⟩

/-- C21 (witness): a waypoint, a speed command, a second waypoint and a photo command are
assembled into two logical items. -/
theorem assembled_items_follow_waypoints_witness :
    (assemble_mission_items example_env (engine_downloaded two_segment_list)).2 =
        [Event.mission_items_and_result_callback 7 Result.SUCCESS
          ((waypoint_segments two_segment_list).map (segment_item example_env))] ∧
      (assemble_mission_items example_env
        (engine_downloaded two_segment_list)).1._mission_items.length = 2 := by
  have h := assembled_items_follow_waypoints example_env (engine_downloaded two_segment_list)
    7 _ _ rfl rfl (by decide) rfl
  exact ⟨h.1, h.2.2.1⟩

/-- C22 (counterexample): after the S4 mission of three wire items has been accepted and
the vehicle has reported that it reached the wire item 2, the last one, without any
`MISSION_CURRENT`, last reached + 1 is the number of wire items and
`is_mission_finished` still returns false. -/
theorem finished_needs_mission_current :
    reached_last_engine._mavlink_mission_item_messages.length = 3 ∧
      reached_last_engine._last_reached_mavlink_mission_item + 1 = 3 ∧
      reached_last_engine._last_current_mavlink_mission_item = -1 ∧
      is_mission_finished reached_last_engine = false := by
  decide!

/-- C22 (amended): for every engine state with at least one wire item,
`is_mission_finished` returns true if and only if a `MISSION_CURRENT` seq is recorded
(the last one is not negative) and last reached + 1 is the number of wire items; the
value of a recorded `MISSION_CURRENT` seq plays no part. -/
theorem mission_finished_iff (s : MissionImpl)
    (h : s._mavlink_mission_item_messages ≠ []) :
    is_mission_finished s = true ↔
      (0 ≤ s._last_current_mavlink_mission_item ∧
        s._last_reached_mavlink_mission_item + 1 =
          (s._mavlink_mission_item_messages.length : Int)) :=
  finished_iff s h

/-- C22 (witness): the engine after `MISSION_CURRENT(2)` and `MISSION_ITEM_REACHED(2)` for
the accepted S4 mission. -/
theorem mission_finished_iff_witness :
    flown_engine._mavlink_mission_item_messages ≠ [] ∧
      (is_mission_finished flown_engine = true ↔
        (0 ≤ flown_engine._last_current_mavlink_mission_item ∧
          flown_engine._last_reached_mavlink_mission_item + 1 =
            (flown_engine._mavlink_mission_item_messages.length : Int))) :=
  ⟨by decide!, mission_finished_iff flown_engine (by decide!)⟩

/-- C23: for every engine state, `current_mission_item` returns `total_mission_items()`
when `is_mission_finished` holds, and otherwise the logical index the index map holds
for the last `MISSION_CURRENT` seq, or -1 when the map has no entry for it;
`total_mission_items` is the number of logical items; `report_progress` calls the
progress callback, when one is set, once with exactly these two values. -/
theorem progress_reports_current_and_total (s : MissionImpl) :
    current_mission_item s =
        (if is_mission_finished s = true then total_mission_items s
         else
          (s._mavlink_mission_item_to_mission_item_indices.find
            s._last_current_mavlink_mission_item).getD (-1)) ∧
      total_mission_items s = (s._mission_items.length : Int) ∧
      report_progress s =
        (s._progress_callback.map
          (fun cb => Event.progress_callback cb (current_mission_item s)
            (total_mission_items s))).toList := by
  refine ⟨?_, rfl, ?_⟩
  · unfold current_mission_item
    split_ifs
    · rfl
    · cases s._mavlink_mission_item_to_mission_item_indices.find
        s._last_current_mavlink_mission_item <;> rfl
  · unfold report_progress
    cases s._progress_callback <;> rfl

/-- C24 (counterexample): after the mission of 65537 waypoints has been accepted, the
only wire seq the index map holds for the logical index 65536 is 65536, and
`set_current_mission_item_async(65536)` on the idle engine sends
`MISSION_SET_CURRENT` with seq 0. -/
theorem set_current_seq_wraps_in_long_mission :
    engine_after_long_upload._activity = Activity.NONE ∧
      ((65536 : Int), (65536 : Int)) ∈
        engine_after_long_upload._mavlink_mission_item_to_mission_item_indices ∧
      (∀ k : Int,
        (k, (65536 : Int)) ∈
          engine_after_long_upload._mavlink_mission_item_to_mission_item_indices →
        65536 ≤ k) ∧
      (set_current_mission_item_async example_env engine_after_long_upload 65536
        (some 3)).2 = [Event.send_message (set_current_message example_env 0)] := by
  have hfind : find_mavlink_index (diagonal_map 65537) 65536 = 65536 := by
    unfold find_mavlink_index
    have h := find_diagonal 65537 65536
    rw [if_pos (by omega)] at h
    rw [show ((65536 : Int)) = ((65536 : Nat) : Int) from rfl, h]
  refine ⟨long_upload_activity, ?_, ?_, ?_⟩
  · rw [long_upload_indices, mem_diagonal_map]
    exact ⟨65536, by omega, rfl, rfl⟩
  · intro k hk
    rw [long_upload_indices, mem_diagonal_map] at hk
    obtain ⟨a, _, h1, h2⟩ := hk
    omega
  · unfold set_current_mission_item_async
    rw [if_neg (by simp [long_upload_activity]), long_upload_indices]
    simp only [hfind]
    rfl

/-- C24 (amended): for every logical index c that has at least one entry in the index
map (a `std::map`, whose keys increase, and whose keys are vector sizes, which are not
negative), `set_current_mission_item_async(c)` called with activity NONE over a working
link sends exactly one `MISSION_SET_CURRENT`, whose seq is the smallest wire seq mapped
to c reduced modulo 65536, sets the activity to SET_CURRENT and keeps the callback. -/
theorem set_current_sends_first_mapped_seq (env : Env) (s : MissionImpl) (c : Int)
    (callback : Option Nat)
    (hidle : s._activity = Activity.NONE) (hlink : env.send_ok = true)
    (hsorted : List.Pairwise (fun a b : Int × Int => a.1 < b.1)
      s._mavlink_mission_item_to_mission_item_indices)
    (hkeys : ∀ e ∈ s._mavlink_mission_item_to_mission_item_indices, 0 ≤ e.1)
    (hentry : ∃ k, (k, c) ∈ s._mavlink_mission_item_to_mission_item_indices) :
    ∃ k : Int, (k, c) ∈ s._mavlink_mission_item_to_mission_item_indices ∧
      (∀ j, (j, c) ∈ s._mavlink_mission_item_to_mission_item_indices → k ≤ j) ∧
      set_current_mission_item_async env s c callback =
        ({ s with _activity := Activity.SET_CURRENT, _result_callback := callback },
         [Event.send_message (set_current_message env (k % 65536).toNat)]) := by
  obtain ⟨k, hfind, hmem, hmin⟩ := first_entry_smallest _ c hsorted hentry
  refine ⟨k, hmem, hmin, ?_⟩
  have hk : ¬ k < 0 := not_lt.2 (hkeys _ hmem)
  unfold set_current_mission_item_async find_mavlink_index
  rw [if_neg (by simp [hidle]), hfind]
  simp only []
  rw [if_neg hk, if_neg (by simp [hlink])]
  rfl

/-- C24 (witness): the logical item 0 of the accepted S4 mission has the wire seqs 0 and
1. -/
theorem set_current_sends_first_mapped_seq_witness :
    ∃ k : Int, (k, (0 : Int)) ∈
        engine_after_S4_upload._mavlink_mission_item_to_mission_item_indices ∧
      (∀ j, (j, (0 : Int)) ∈
        engine_after_S4_upload._mavlink_mission_item_to_mission_item_indices → k ≤ j) ∧
      set_current_mission_item_async example_env engine_after_S4_upload 0 (some 3) =
        ({ engine_after_S4_upload with
           _activity := Activity.SET_CURRENT, _result_callback := some 3 },
         [Event.send_message (set_current_message example_env (k % 65536).toNat)]) :=
  set_current_sends_first_mapped_seq example_env engine_after_S4_upload 0 (some 3)
    (by decide!) rfl (by decide!) (by decide!) ⟨0, by decide!⟩

/-- C25 (failing input): `set_current_mission_item_async(1)` on the accepted S4 mission
sends `MISSION_SET_CURRENT(2)`; a `MISSION_CURRENT` with seq 0 then resolves the
operation: the callback 3 gets `SUCCESS` and the activity is NONE. -/
theorem mission_current_of_other_seq_resolves :
    (set_current_mission_item_async example_env engine_after_S4_upload 1 (some 3)).2 =
        [Event.send_message (set_current_message example_env 2)] ∧
      setting_current_engine._activity = Activity.SET_CURRENT ∧
      (process_mission_current setting_current_engine { seq := 0 }).2 =
        [Event.result_callback 3 Result.SUCCESS, Event.unregister_timeout_handler none] ∧
      (process_mission_current setting_current_engine { seq := 0 }).1._activity =
        Activity.NONE := by
  decide!

/-- C26: while the activity is SET_MISSION and the stored messages are those of an
expansion, for every `MISSION_REQUEST_INT(seq)` addressed to us, with seq a 16 bit value:
if seq is less than the number n of stored messages, exactly one message is sent, the
stored one of index seq, which is a wire item whose seq field is seq; if seq is at least
n no message is sent; in both cases nothing is thrown, the timeout is refreshed after
that and the engine state, hence the activity, is unchanged. -/
theorem request_int_sends_stored_item (env env0 : Env) (s s0 : MissionImpl)
    (r : mavlink_mission_request_int_t)
    (hact : s._activity = Activity.SET_MISSION)
    (hstored : s._mavlink_mission_item_messages =
      (assemble_mavlink_messages env0 s0)._mavlink_mission_item_messages)
    (haddr : r.target_system = env.own_system_id ∧
      r.target_component = env.own_component_id)
    (hseq : r.seq < 65536) :
    (r.seq < s._mavlink_mission_item_messages.length →
      ∃ message item, s._mavlink_mission_item_messages[r.seq]? = some message ∧
        mavlink_msg_mission_item_int_decode message = some item ∧ item.seq = r.seq ∧
        process_mission_request_int env s r =
          some (s, [Event.send_message message,
            Event.refresh_timeout_handler s._timeout_cookie])) ∧
      (s._mavlink_mission_item_messages.length ≤ r.seq →
        process_mission_request_int env s r =
          some (s, [Event.refresh_timeout_handler s._timeout_cookie])) := by
  have hnot : ¬ (r.target_system ≠ env.own_system_id ∧
      r.target_component ≠ env.own_component_id) := by simp [haddr.1]
  constructor
  · intro hlt
    obtain ⟨message, hmsg⟩ : ∃ message, s._mavlink_mission_item_messages[r.seq]? =
        some message := ⟨_, List.getElem?_eq_getElem hlt⟩
    have hmsg0 := hmsg
    rw [hstored] at hmsg0
    obtain ⟨item, hdec, hitem⟩ := stored_message_seq env0 s0 r.seq message hmsg0
    refine ⟨message, item, hmsg, hdec, ?_, ?_⟩
    · rw [hitem, wrap_uint16, Nat.mod_eq_of_lt hseq]
    · unfold process_mission_request_int upload_mission_item
      rw [if_neg hnot, if_neg (by simp [hact]), if_neg (by omega), hmsg]
      rfl
  · intro hge
    unfold process_mission_request_int upload_mission_item
    rw [if_neg hnot, if_neg (by simp [hact]), if_pos hge]
    rfl

/-- C26 (witness): the vehicle asks for the wire item 1 of the three of the S4 mission
during its upload. -/
theorem request_int_sends_stored_item_witness :
    uploading_engine._activity = Activity.SET_MISSION ∧
      (1 < uploading_engine._mavlink_mission_item_messages.length →
        ∃ message item, uploading_engine._mavlink_mission_item_messages[1]? = some message ∧
          mavlink_msg_mission_item_int_decode message = some item ∧ item.seq = 1 ∧
          process_mission_request_int example_env uploading_engine (request_for 1) =
            some (uploading_engine, [Event.send_message message,
              Event.refresh_timeout_handler uploading_engine._timeout_cookie])) :=
  ⟨by decide!,
   (request_int_sends_stored_item example_env example_env uploading_engine
     (copy_mission_item_vector idle_engine S4_mission) (request_for 1) (by decide!)
     (by decide!) ⟨rfl, rfl⟩ (by decide)).1⟩

/-- C27: for every engine state, `process_mission_request` sends exactly one message, the
`MISSION_ACK` of type `MAV_MISSION_UNSUPPORTED` from us to the target, then refreshes the
timeout, and leaves every member of the engine as it was. -/
theorem mission_request_is_refused (env : Env) (s : MissionImpl) :
    (process_mission_request env s).1 = s ∧
      (process_mission_request env s).2 =
        [Event.send_message (unsupported_ack_message env),
         Event.refresh_timeout_handler s._timeout_cookie] ∧
      (unsupported_ack_message env).payload =
        Payload.mission_ack env.target_system_id env.target_component_id 3 0 :=
  ⟨rfl, rfl, rfl⟩

/-- C28 (failing input): `start_mission_async` with callback 1 on an idle engine, then the
command results IN_PROGRESS and SUCCESS: the IN_PROGRESS result sets the activity back to
NONE and calls the callback with `ERROR`, and the callback is called a second time, with
`SUCCESS`, by the terminal result. -/
theorem in_progress_resolves_command :
    starting_engine._activity = Activity.SEND_COMMAND ∧
      (receive_command_result starting_engine CommandResult.IN_PROGRESS (some 1)).1._activity =
        Activity.NONE ∧
      (receive_command_result starting_engine CommandResult.IN_PROGRESS (some 1)).2 =
        [Event.unregister_timeout_handler none, Event.result_callback 1 Result.ERROR] ∧
      (deliver_command_results (some 1) (starting_engine, [])
        [CommandResult.IN_PROGRESS, CommandResult.SUCCESS]).2 =
        [Event.unregister_timeout_handler none, Event.result_callback 1 Result.ERROR,
         Event.unregister_timeout_handler none, Event.result_callback 1 Result.SUCCESS] := by
  decide!

/-- C29: `to_follow_me_result` maps SUCCESS, NO_DEVICE, CONNECTION_ERROR, BUSY,
COMMAND_DENIED and TIMEOUT each to the FollowMe result of the same name, and no two
distinct engine result kinds, IN_PROGRESS included, to the same FollowMe result. -/
theorem follow_me_result_lifting :
    to_follow_me_result CommandResult.SUCCESS = FollowMeResult.SUCCESS ∧
      to_follow_me_result CommandResult.NO_DEVICE = FollowMeResult.NO_DEVICE ∧
      to_follow_me_result CommandResult.CONNECTION_ERROR =
        FollowMeResult.CONNECTION_ERROR ∧
      to_follow_me_result CommandResult.BUSY = FollowMeResult.BUSY ∧
      to_follow_me_result CommandResult.COMMAND_DENIED = FollowMeResult.COMMAND_DENIED ∧
      to_follow_me_result CommandResult.TIMEOUT = FollowMeResult.TIMEOUT ∧
      Function.Injective to_follow_me_result := by
  refine ⟨rfl, rfl, rfl, rfl, rfl, rfl, ?_⟩
  intro a b h
  cases a <;> cases b <;> first | rfl | exact absurd h (by decide)

/-- C30: for every connection state and every datagram received with a positive length,
one turn of the receive loop leaves the stored peer equal to the source of the datagram
when the two differed, and unchanged when the datagram came from the stored peer; the
bytes received are handed to the MAVLink receiver. -/
theorem receive_adopts_peer (parent : UdpConnection) (d : Datagram) (h : 0 < d.recv_len) :
    (stored_peer parent ≠ source_of d → stored_peer (receive parent d).1 = source_of d) ∧
      (stored_peer parent = source_of d → (receive parent d).1 = parent) ∧
      (receive parent d).2 = some (d.buffer.take d.recv_len.toNat) := by
  have h0 : ¬ d.recv_len = 0 := by omega
  have h1 : ¬ d.recv_len < 0 := by omega
  unfold receive stored_peer source_of
  rw [if_neg h0, if_neg h1]
  refine ⟨?_, ?_, rfl⟩
  · intro _
    simp only []
    split_ifs with ha hb
    · rfl
    · rfl
    · have hb2 := not_or.1 hb
      simp only [not_not, ne_eq] at hb2
      rw [hb2.1, hb2.2]
  · intro hsame
    simp only [Prod.mk.injEq] at hsame
    simp only []
    split_ifs with ha hb
    · cases parent
      simp_all
    · cases parent
      simp_all
    · rfl

/-- C30 (witness): a connection whose peer is 192.168.1.2:14550 receives three bytes from
192.168.1.7:14551. -/
theorem receive_adopts_peer_witness :
    (0 : Int) < roaming_datagram.recv_len ∧
      stored_peer connected_udp ≠ source_of roaming_datagram ∧
      stored_peer (receive connected_udp roaming_datagram).1 =
        source_of roaming_datagram :=
  ⟨by decide, by decide,
   (receive_adopts_peer connected_udp roaming_datagram (by decide)).1 (by decide)⟩

/-! ## Properties of the follow-me plugin -/

theorem flt_not_lt_iff_ge (a b : Flt) (ha : a ≠ Flt.nan) (hb : b ≠ Flt.nan) :
    a.lt b = false ↔ a.ge b = true := by
  cases a with
  | nan => exact absurd rfl ha
  | inf x =>
    cases b with
    | nan => exact absurd rfl hb
    | inf y => cases x <;> cases y <;> simp [Flt.lt, Flt.ge, Flt.le]
    | fin q => cases x <;> simp [Flt.lt, Flt.ge, Flt.le]
  | fin p =>
    cases b with
    | nan => exact absurd rfl hb
    | inf y => cases y <;> simp [Flt.lt, Flt.ge, Flt.le]
    | fin q => simp [Flt.lt, Flt.ge, Flt.le]

theorem config_ok_iff (c : Config) :
    FollowMeImpl.is_config_ok c = true ↔
      (c.min_height_m.lt Config.MIN_HEIGHT_M = false ∧
        c.follow_dist_m.lt Config.MIN_FOLLOW_DIST_M = false ∧
        (FollowDirection.FRONT_RIGHT ≤ c.follow_direction ∧
          c.follow_direction ≤ FollowDirection.NONE) ∧
        c.responsiveness.lt Config.MIN_RESPONSIVENESS = false ∧
        c.responsiveness.gt Config.MAX_RESPONSIVENESS = false) := by
  unfold FollowMeImpl.is_config_ok
  split_ifs with h1 h2 h3 h4
  · simp [h1]
  · simp [h2]
  · have : ¬ (FollowDirection.FRONT_RIGHT ≤ c.follow_direction ∧
        c.follow_direction ≤ FollowDirection.NONE) := by
      intro h
      rcases h3 with h3 | h3
      · exact absurd h.1 (not_le.2 h3)
      · exact absurd h.2 (not_le.2 h3)
    simp [this]
  · simp only [Bool.or_eq_true] at h4
    rcases h4 with h4 | h4 <;> simp [h4]
  · simp only [Bool.or_eq_true, not_or, Bool.not_eq_true] at h4
    simp only [not_or, not_lt, gt_iff_lt] at h3
    simp [h1, h2, h3, h4]

theorem config_ok_of_numbers (c : Config) (h1 : c.min_height_m ≠ Flt.nan)
    (h2 : c.follow_dist_m ≠ Flt.nan) (h3 : c.responsiveness ≠ Flt.nan) :
    FollowMeImpl.is_config_ok c = true ↔ config_in_range c := by
  rw [config_ok_iff]
  unfold config_in_range
  have hmin : Config.MIN_HEIGHT_M ≠ Flt.nan := by simp [Config.MIN_HEIGHT_M]
  have hdist : Config.MIN_FOLLOW_DIST_M ≠ Flt.nan := by simp [Config.MIN_FOLLOW_DIST_M]
  have hlow : Config.MIN_RESPONSIVENESS ≠ Flt.nan := by simp [Config.MIN_RESPONSIVENESS]
  have hhigh : Config.MAX_RESPONSIVENESS ≠ Flt.nan := by simp [Config.MAX_RESPONSIVENESS]
  rw [flt_not_lt_iff_ge _ _ h1 hmin, flt_not_lt_iff_ge _ _ h2 hdist,
    flt_not_lt_iff_ge _ _ h3 hlow, Flt.gt, flt_not_lt_iff_ge _ _ hhigh h3]
  simp only [Flt.ge]

theorem custom_flag_iff (n : Nat) :
    n &&& MAV_MODE_FLAG_CUSTOM_MODE_ENABLED ≠ 0 ↔ n.testBit 0 = true := by
  rw [MAV_MODE_FLAG_CUSTOM_MODE_ENABLED, Nat.and_one_is_mod, Nat.testBit_zero]
  simp

theorem remove_call_every_not_registered (t : CallEvery) (cookie : Nat) :
    cookie ∉ (t.remove_call_every cookie).registered := by
  simp [CallEvery.remove_call_every]

/-! ## The claims on the link, on addressing, on stale state and on the follow-me plugin -/

/-- C31: `UdpConnection::send_message` returns false and calls `sendto` not at all
whenever the stored ip is empty or the stored port is 0; when the peer is known (and the
stored port is a port number, the frame within the buffer) it calls `sendto` once, with
the frame, for the stored ip and port, and returns true exactly when `sendto` reports the
length of the frame. -/
theorem send_message_needs_peer (parent : UdpConnection) (frame : List Nat)
    (send_len : Int) :
    (peer_unknown parent → parent.send_message frame send_len = some (false, none)) ∧
      (¬ peer_unknown parent → frame.length ≤ MAVLINK_MAX_PACKET_LEN →
        0 ≤ parent._remote_port_number → parent._remote_port_number < 65536 →
        parent.send_message frame send_len =
          some (decide (send_len = (frame.length : Int)),
            some
              { dest_ip := parent._remote_ip
                dest_port := parent._remote_port_number.toNat
                buffer := frame })) := by
  unfold peer_unknown UdpConnection.send_message
  constructor
  · intro h
    by_cases hip : parent._remote_ip = ""
    · rw [if_pos hip]
    · rw [if_neg hip, if_pos (h.resolve_left hip)]
  · intro h hframe h0 h1
    rw [not_or] at h
    rw [if_neg h.1, if_neg h.2]
    simp only []
    rw [if_neg (not_not.2 hframe)]
    have hport : int_to_uint16 parent._remote_port_number =
        parent._remote_port_number.toNat := by
      unfold int_to_uint16
      rw [Int.emod_eq_of_lt h0 h1]
    rw [hport]
    by_cases hs : send_len = (frame.length : Int)
    · simp [hs]
    · simp [hs]

/-- C31 (witness): a connection without a peer sends nothing, and the connection whose
peer is 192.168.1.2:14550 sends a frame of three bytes there. -/
theorem send_message_needs_peer_witness :
    fresh_udp.send_message [253, 0, 0] 3 = some (false, none) ∧
      connected_udp.send_message [253, 0, 0] 3 =
        some (true,
          some { dest_ip := "192.168.1.2", dest_port := 14550, buffer := [253, 0, 0] }) :=
  ⟨(send_message_needs_peer fresh_udp [253, 0, 0] 3).1 (Or.inl rfl),
   (send_message_needs_peer connected_udp [253, 0, 0] 3).2 (by decide) (by decide)
     (by decide) (by decide)⟩

/-- C32 (failing input): during the upload of the S4 mission by the system 255 /
component 190, a `MISSION_ACK` and a `MISSION_REQUEST_INT` whose target is the component
190 of the system 7 are processed: the acknowledgement resolves the upload with
`SUCCESS` and sets the activity to NONE, the request makes the engine send the wire item
0 and refresh the timeout. -/
theorem foreign_system_message_is_processed :
    foreign_ack.target_system ≠ example_env.own_system_id ∧
      (process_mission_ack example_env uploading_engine foreign_ack).2 =
        [Event.unregister_timeout_handler none, Event.result_callback 1 Result.SUCCESS] ∧
      (process_mission_ack example_env uploading_engine foreign_ack).1._activity =
        Activity.NONE ∧
      foreign_request.target_system ≠ example_env.own_system_id ∧
      (uploading_engine._mavlink_mission_item_messages[0]?).isSome = true ∧
      process_mission_request_int example_env uploading_engine foreign_request =
        (uploading_engine._mavlink_mission_item_messages[0]?).map
          (fun message => (uploading_engine, [Event.send_message message,
            Event.refresh_timeout_handler none])) := by
  decide!

/-- C33 (failing input): after a download of one waypoint has completed, with activity
NONE and one stored logical item, one more `MISSION_ITEM_INT` makes the engine send a
`MISSION_ACK`, call the download callback 2 a second time and replace the stored
mission by one of two items. -/
theorem item_after_download_is_processed :
    downloaded_engine._activity = Activity.NONE ∧
      downloaded_engine._mission_items.length = 1 ∧
      (process_mission_item_int example_env downloaded_engine
        (plain_wire_item 0 MAV_CMD_NAV_WAYPOINT)).2 =
        [Event.unregister_timeout_handler (some 1),
         Event.send_message (accepted_ack_message example_env),
         Event.mission_items_and_result_callback 2 Result.SUCCESS
           (process_mission_item_int example_env downloaded_engine
             (plain_wire_item 0 MAV_CMD_NAV_WAYPOINT)).1._mission_items] ∧
      (process_mission_item_int example_env downloaded_engine
        (plain_wire_item 0 MAV_CMD_NAV_WAYPOINT)).1._mission_items.length = 2 := by
  decide!

/-- C34 (failing input): after a mission of two waypoints and then a mission of one
waypoint have been accepted, the engine is idle with one logical item, and
`set_current_mission_item_async(1)` sends `MISSION_SET_CURRENT(1)` and sets the activity
to SET_CURRENT instead of reporting `INVALID_ARGUMENT`. -/
theorem stale_index_accepts_item_out_of_range :
    engine_after_shorter_upload._activity = Activity.NONE ∧
      engine_after_shorter_upload._mission_items.length = 1 ∧
      engine_after_shorter_upload._mavlink_mission_item_to_mission_item_indices =
        [(0, 0), (1, 1)] ∧
      (set_current_mission_item_async example_env engine_after_shorter_upload 1
        (some 3)).2 = [Event.send_message (set_current_message example_env 1)] ∧
      (set_current_mission_item_async example_env engine_after_shorter_upload 1
        (some 3)).1._activity = Activity.SET_CURRENT := by
  decide!

/-- C35 (failing input): after a mission of three waypoints and then a mission of the
one item to which all five rules apply (five wire items) have been accepted and the
vehicle has reported `MISSION_CURRENT(2)`, `current_mission_item()` is 2 and
`total_mission_items()` is 1. -/
theorem stale_index_reports_current_beyond_total :
    engine_flying_full_item._mavlink_mission_item_messages.length = 5 ∧
      engine_flying_full_item._mavlink_mission_item_to_mission_item_indices =
        [(0, 0), (1, 1), (2, 2), (3, 0), (4, 0)] ∧
      current_mission_item engine_flying_full_item = 2 ∧
      total_mission_items engine_flying_full_item = 1 := by
  decide!

/-- C36: for every configuration that `is_config_ok` rejects, `set_config` returns
false, makes no parameter request and leaves every member, the stored configuration
included, as it was; for every configuration that it accepts, `set_config` returns true
and makes exactly the four requests for `NAV_MIN_FT_HT`, `NAV_FT_DST`, `NAV_FT_FS` and
`NAV_FT_RS`, in that order, with the values of the configuration. -/
theorem set_config_validates (s : FollowMeImpl) (config : Config) :
    (FollowMeImpl.is_config_ok config = false →
      FollowMeImpl.set_config s config = (false, s, [])) ∧
      (FollowMeImpl.is_config_ok config = true →
        FollowMeImpl.set_config s config = (true, s, config_requests config)) ∧
      FollowMeImpl.get_config (FollowMeImpl.set_config s config).2.1 =
        FollowMeImpl.get_config s := by
  unfold FollowMeImpl.set_config config_requests
  cases h : FollowMeImpl.is_config_ok config <;> simp

/-- C36 (witness): a configuration with a minimum height of 2 m is rejected, the
configuration with direction `BEHIND` is accepted. -/
theorem set_config_validates_witness :
    FollowMeImpl.set_config idle_follow_me low_config = (false, idle_follow_me, []) ∧
      FollowMeImpl.set_config idle_follow_me behind_config =
        (true, idle_follow_me, config_requests behind_config) :=
  ⟨(set_config_validates idle_follow_me low_config).1 (by decide!),
   (set_config_validates idle_follow_me behind_config).2.1 (by decide!)⟩

/-- C37 (failing input): the plugin holds the configuration with direction `BEHIND`;
`set_config` of the same configuration with direction `NONE`, which `is_config_ok`
accepts, returns true, and after the four parameter requests have completed with success
`get_config()` still has the direction `BEHIND`. -/
theorem none_direction_is_not_stored :
    FollowMeImpl.is_config_ok none_direction_config = true ∧
      (FollowMeImpl.set_config (configured idle_follow_me behind_config)
        none_direction_config).1 = true ∧
      (FollowMeImpl.set_config (configured idle_follow_me behind_config)
        none_direction_config).2.2.length = 4 ∧
      FollowMeImpl.get_config
          (configured (configured idle_follow_me behind_config) none_direction_config) =
        behind_config ∧
      behind_config.follow_direction ≠ none_direction_config.follow_direction := by
  decide!

/-- C38 (failing input): on the active plugin with an empty scheduler, a first
`set_curr_target_location` registers the sender 0; a second one resets it and forgets
its cookie, so that `stop_sending_target_location` removes nothing and the sender 0
stays registered; a third one registers the sender 1 beside the sender 0. -/
theorem rescheduled_sender_survives_stop :
    active_follow_me._mode = Mode.ACTIVE ∧
      ((after_locations 1).1._curr_target_location_cookie = some 0 ∧
        (after_locations 1).2.registered = [0]) ∧
      ((after_locations 2).1._curr_target_location_cookie = none ∧
        (after_locations 2).2.registered = [0]) ∧
      (FollowMeImpl.stop_sending_target_location (after_locations 2).1
        (after_locations 2).2).2.registered = [0] ∧
      ((after_locations 3).1._curr_target_location_cookie = some 1 ∧
        (after_locations 3).2.registered = [0, 1]) ∧
      (FollowMeImpl.stop_sending_target_location (after_locations 3).1
        (after_locations 3).2).2.registered = [0] := by
  decide!

/-- C39: for every prior mode and every `HEARTBEAT`, the mode after `process_heartbeat`
is ACTIVE if and only if the heartbeat has the custom mode flag set and tells the PX4
main mode AUTO with the sub mode FOLLOW_TARGET; and when the heartbeat moves the mode
from ACTIVE to NOT_ACTIVE, the cookie of the periodic sender is null afterwards and the
call it stood for is not registered any more. -/
theorem heartbeat_decides_mode (s : FollowMeImpl) (t : CallEvery)
    (h : mavlink_heartbeat_t) :
    ((FollowMeImpl.process_heartbeat s t h).1._mode = Mode.ACTIVE ↔
        tells_follow_target h) ∧
      (s._mode = Mode.ACTIVE →
        (FollowMeImpl.process_heartbeat s t h).1._mode = Mode.NOT_ACTIVE →
        (FollowMeImpl.process_heartbeat s t h).1._curr_target_location_cookie = none ∧
          ∀ c, s._curr_target_location_cookie = some c →
            c ∉ (FollowMeImpl.process_heartbeat s t h).2.registered) := by
  have hflag := custom_flag_iff h.base_mode
  unfold FollowMeImpl.process_heartbeat tells_follow_target
  by_cases hf : h.base_mode &&& MAV_MODE_FLAG_CUSTOM_MODE_ENABLED ≠ 0
  · have hbit := hflag.1 hf
    by_cases hm : px4_main_mode h.custom_mode = PX4_CUSTOM_MAIN_MODE_AUTO ∧
        px4_sub_mode h.custom_mode = PX4_CUSTOM_SUB_MODE_AUTO_FOLLOW_TARGET
    · simp only [if_pos hf, if_pos hm]
      cases hs : s._mode <;> simp [hs, hbit, hm]
    · simp only [if_pos hf, if_neg hm]
      have hm2 : ¬ (px4_main_mode h.custom_mode = PX4_CUSTOM_MAIN_MODE_AUTO ∧
          px4_sub_mode h.custom_mode = PX4_CUSTOM_SUB_MODE_AUTO_FOLLOW_TARGET) := hm
      cases hs : s._mode
      · simp [hs, hbit, hm2]
      · refine ⟨?_, ?_⟩
        · simp [hs, FollowMeImpl.stop_sending_target_location]
          intro _ h1 h2
          exact hm2 ⟨h1, h2⟩
        · intro _ _
          cases hc : s._curr_target_location_cookie with
          | none => simp [hs, hc, FollowMeImpl.stop_sending_target_location]
          | some c0 =>
            simp [hs, hc, FollowMeImpl.stop_sending_target_location,
              CallEvery.remove_call_every]
  · have hbit : ¬ (h.base_mode.testBit 0 = true) := fun hb => hf (hflag.2 hb)
    simp only [if_neg hf]
    cases hs : s._mode
    · simp [hs, hbit]
    · refine ⟨?_, ?_⟩
      · simp [hs, hbit, FollowMeImpl.stop_sending_target_location]
      · intro _ _
        cases hc : s._curr_target_location_cookie with
        | none => simp [hs, hc, FollowMeImpl.stop_sending_target_location]
        | some c0 =>
          simp [hs, hc, FollowMeImpl.stop_sending_target_location,
            CallEvery.remove_call_every]

/-- C39 (witness): the plugin that registered the sender 0 leaves the FOLLOW_TARGET
mode on a heartbeat that tells LOITER: the cookie is null and the sender 0 is not
registered any more. -/
theorem heartbeat_decides_mode_witness :
    (after_locations 1).1._mode = Mode.ACTIVE ∧
      (after_locations 1).1._curr_target_location_cookie = some 0 ∧
      (FollowMeImpl.process_heartbeat (after_locations 1).1 (after_locations 1).2
        loiter_heartbeat).1._curr_target_location_cookie = none ∧
      0 ∉ (FollowMeImpl.process_heartbeat (after_locations 1).1 (after_locations 1).2
        loiter_heartbeat).2.registered :=
  ⟨by decide!, by decide!,
   ((heartbeat_decides_mode (after_locations 1).1 (after_locations 1).2
      loiter_heartbeat).2 (by decide!) (by decide!)).1,
   ((heartbeat_decides_mode (after_locations 1).1 (after_locations 1).2
      loiter_heartbeat).2 (by decide!) (by decide!)).2 0 (by decide!)⟩

/-- C40 (failing input): the configuration whose minimum height is NaN and whose other
fields are within the limits is accepted by `is_config_ok`, although its minimum height
is not at least `MIN_HEIGHT_M`. -/
theorem nan_height_passes_config_check :
    FollowMeImpl.is_config_ok nan_height_config = true ∧
      nan_height_config.min_height_m.ge Config.MIN_HEIGHT_M = false ∧
      ¬ config_in_range nan_height_config := by
  decide!

end dronecore
